import Mathlib

/-!
# Session-authenticated REST client (package `api`)

A shallow embedding of `internal/api`: the `Client`, `Login`, the request
builders and the resource operations, over an explicit model of the remote
server and of the two external libraries the package calls (the HTTP client
and the JWT parser).

* Go structs are Lean structures with the same field names; the zero value of
  a struct is the structure with every field at its default.
* A Go `(T, error)` return is a pair `T × Option Error` (`none` is `nil`).
* `Login`, `newAuthenticatedRequest` and the resource operations are methods
  with a pointer receiver: each returns, next to its result, the client it
  leaves, and a caller goes on with that client.
* The remote server is a function of the number of exchanges made so far and
  of the request; every function threads a `World` that counts the exchanges
  and records, in order, every request sent and every `time.Sleep`.
* What an exchange decodes into the variable given to `SetResult` or
  `SetError` is a function of the value the variable held before, so that a
  variable used for several exchanges keeps what an earlier one left in it.
* The `for { ... }` loop of `Login` has no bound in the source; it is run
  with fuel, and running out of fuel is reported as "not returned yet".
-/

namespace UDM

/-! ## Data model -/

/-- `User` (user.go). -/
structure User where
  DeviceToken : String := ""
  Email : String := ""
  FirstName : String := ""
  ID : String := ""
  LastName : String := ""
  UniqueID : String := ""
  Username : String := ""
deriving DecidableEq, Repr, Inhabited

/-- `authData` (auth.go). -/
structure authData where
  CSRFToken : String := ""
  JWT : String := ""
  User : User := {}
deriving DecidableEq, Repr, Inhabited

/-- `jwt.RegisteredClaims`, embedded in `jwtClaims`. -/
structure RegisteredClaims where
  Issuer : String := ""
  Subject : String := ""
  Audience : List String := []
  ExpiresAt : Option Nat := none
  NotBefore : Option Nat := none
  IssuedAt : Option Nat := none
  ID : String := ""
deriving DecidableEq, Repr, Inhabited

/-- `jwtClaims` (auth.go). -/
structure jwtClaims where
  RegisteredClaims : RegisteredClaims := {}
  UserID : String := ""
  PasswordRevision : Int := 0
  IsRemembered : Bool := false
  CsrfToken : String := ""
deriving DecidableEq, Repr, Inhabited

/-- `loginRequest` (auth.go). -/
structure loginRequest where
  Password : String := ""
  RememberMe : Bool := false
  Token : String := ""
  Username : String := ""
deriving DecidableEq, Repr, Inhabited

/-- `loginResponseError` (auth.go). -/
structure loginResponseError where
  Code : String := ""
  Message : String := ""
  Level : String := ""
deriving DecidableEq, Repr, Inhabited

/-- `loginResponseSuccess` (auth.go): embeds `User`. -/
structure loginResponseSuccess where
  User : User := {}
deriving DecidableEq, Repr, Inhabited

/-- The anonymous struct `HostMetadata` of `SystemInfo`. -/
structure HostMetadata where
  ID : String := ""
  ModelAbbreviation : String := ""
  ModelFullName : String := ""
  ModelName : String := ""
  ModelSysID : String := ""
  SKU : String := ""
deriving DecidableEq, Repr, Inhabited

/-- The anonymous struct `UnifiConsole` of `SystemInfo`. -/
structure UnifiConsole where
  Type_ : String := ""
  Version : String := ""
deriving DecidableEq, Repr, Inhabited

/-- `SystemInfo` (network_info.go). -/
structure SystemInfo where
  DeviceID : String := ""
  HostMetadata : HostMetadata := {}
  Hostname : String := ""
  Name : String := ""
  UnifiConsole : UnifiConsole := {}
  Uptime : Nat := 0
  Version : String := ""
deriving DecidableEq, Repr, Inhabited

/-- `NetworkAppInfo` (network_info.go). -/
structure NetworkAppInfo where
  System : SystemInfo := {}
deriving DecidableEq, Repr, Inhabited

/-- `getNetworkAppInfoResponseSuccess` (network_info.go): embeds
`NetworkAppInfo`. -/
structure getNetworkAppInfoResponseSuccess where
  NetworkAppInfo : NetworkAppInfo := {}
deriving DecidableEq, Repr, Inhabited

/-- `getNetworkAppInfoResponseError` is `struct{}`. -/
abbrev getNetworkAppInfoResponseError := Unit

/-- `ClientDevice` (client_device.go). -/
structure ClientDevice where
  Blocked : Bool := false
  Confidence : Int := 0
  DeviceCategory : Int := 0
  DeviceFamily : Int := 0
  DeviceID : Int := 0
  DeviceVendor : Int := 0
  DisconnectTimestamp : Nat := 0
  FingerprintEngineVersion : String := ""
  FingerprintSource : Int := 0
  FirstSeen : Nat := 0
  FixedIP : String := ""
  HardwareAddress : String := ""
  Hostname : String := ""
  ID : String := ""
  IsGuest : Bool := false
  IsWired : Bool := false
  LastConnectionNetworkID : String := ""
  LastConnectionNetworkName : String := ""
  LastIPV6 : List String := []
  LastRadio : String := ""
  LastSeen : Nat := 0
  LastUplinkHardwareAddress : String := ""
  LastUplinkName : String := ""
  LocalDNSRecord : String := ""
  LocalDNSRecordEnabled : Bool := false
  Name : String := ""
  Noted : Bool := false
  OSClass : Int := 0
  OSName : Int := 0
  Oui : String := ""
  SiteID : String := ""
  UseFixedIP : Bool := false
  UsergroupID : String := ""
  VirtualNetworkOverrideEnabled : Bool := false
  VirtualNetworkOverrideID : String := ""
  WLANConfigID : String := ""
deriving DecidableEq, Repr, Inhabited

/-- The anonymous struct `Meta` of the client-device envelopes. -/
structure Meta where
  RC : String := ""
  Message : String := ""
deriving DecidableEq, Repr, Inhabited

/-- `createClientDeviceResponseSuccess` (client_device.go). -/
structure createClientDeviceResponseSuccess where
  Meta : Meta := {}
  Data : List ClientDevice := []
deriving DecidableEq, Repr, Inhabited

/-- `createClientDeviceResponseError` (client_device.go). -/
structure createClientDeviceResponseError where
  Meta : Meta := {}
  Data : List ClientDevice := []
deriving DecidableEq, Repr, Inhabited

/-- `getClientDevicesResponseSuccess` (client_device.go). -/
structure getClientDevicesResponseSuccess where
  Meta : Meta := {}
  Data : List ClientDevice := []
deriving DecidableEq, Repr, Inhabited

/-- `getClientDevicesResponseError` (client_device.go). -/
structure getClientDevicesResponseError where
  Meta : Meta := {}
  Data : List ClientDevice := []
deriving DecidableEq, Repr, Inhabited

/-- `StaticDNSEntry` (network_static_dns.go). -/
structure StaticDNSEntry where
  ID : String := ""
  Enabled : Bool := false
  Key : String := ""
  Port : Int := 0
  Priority : Int := 0
  RecordType : String := ""
  TTL : Int := 0
  Value : String := ""
  Weight : Int := 0
deriving DecidableEq, Repr, Inhabited

/-- `StaticDNSRecord` (static_dns.go). -/
structure StaticDNSRecord where
  ID : String := ""
  Enabled : Bool := false
  Key : String := ""
  Port : Int := 0
  Priority : Int := 0
  RecordType : String := ""
  TTL : Int := 0
  Value : String := ""
  Weight : Int := 0
deriving DecidableEq, Repr, Inhabited

/-- The error envelope of the static DNS operations: the structs
`createStaticDNSEntriesResponseError`, `deleteStaticDNSEntriesResponseError`,
`updateStaticDNSEntriesResponseError` and the four
`...StaticDNSRecordsResponseError` are declared with these same four fields
(`Details` is `any` in the source and kept as its JSON text). -/
structure staticDNSResponseError where
  Code : String := ""
  Details : String := ""
  ErrorCode : Int := 0
  Message : String := ""
deriving DecidableEq, Repr, Inhabited

abbrev createStaticDNSEntriesResponseSuccess := StaticDNSEntry
abbrev createStaticDNSEntriesResponseError := staticDNSResponseError
abbrev deleteStaticDNSEntriesResponseSuccess := Unit
abbrev deleteStaticDNSEntriesResponseError := staticDNSResponseError
abbrev getStaticDNSEntriesResponseSuccess := List StaticDNSEntry
abbrev getStaticDNSEntriesResponseError := Unit
abbrev updateStaticDNSEntriesResponseSuccess := StaticDNSEntry
abbrev updateStaticDNSEntriesResponseError := staticDNSResponseError

abbrev createStaticDNSRecordsResponseSuccess := StaticDNSRecord
abbrev createStaticDNSRecordsResponseError := staticDNSResponseError
abbrev deleteStaticDNSRecordsResponseSuccess := Unit
abbrev deleteStaticDNSRecordsResponseError := staticDNSResponseError
abbrev getStaticDNSRecordsResponseSuccess := List StaticDNSRecord
abbrev getStaticDNSRecordsResponseError := staticDNSResponseError
abbrev updateStaticDNSRecordsResponseSuccess := StaticDNSRecord
abbrev updateStaticDNSRecordsResponseError := staticDNSResponseError

/-! ## HTTP messages -/

/-- `http.SameSite`. -/
inductive SameSite
  | SameSiteDefaultMode
  | SameSiteLaxMode
  | SameSiteStrictMode
  | SameSiteNoneMode
deriving DecidableEq, Repr, Inhabited

/-- `http.Cookie`, with the fields the package reads or sets. -/
structure Cookie where
  Name : String := ""
  Value : String := ""
  Path : String := ""
  Domain : String := ""
  Expires : String := ""
  Secure : Bool := false
  HttpOnly : Bool := false
  SameSite : SameSite := .SameSiteDefaultMode
deriving DecidableEq, Repr, Inhabited

/-- The HTTP method a request is executed with. -/
inductive Method
  | GET
  | POST
  | PUT
  | DELETE
deriving DecidableEq, Repr, Inhabited

/-- What `SetBody` was given. -/
inductive Body
  | none
  | login (b : loginRequest)
  | device (b : ClientDevice)
  | entry (b : StaticDNSEntry)
  | record (b : StaticDNSRecord)
  | text (b : String)
deriving DecidableEq, Repr, Inhabited

/-- A `resty.Request` once it is executed: method, URL, and what the package
set on it. -/
structure Request where
  method : Method := .GET
  url : String := ""
  header : List (String × String) := []
  cookies : List Cookie := []
  body : Body := .none
deriving DecidableEq, Repr, Inhabited

/-- The Go types handed to `SetResult` and `SetError`. -/
inductive Target
  | loginResponseSuccess
  | loginResponseError
  | getNetworkAppInfoResponseSuccess
  | getNetworkAppInfoResponseError
  | createClientDeviceResponseSuccess
  | createClientDeviceResponseError
  | getClientDevicesResponseSuccess
  | getClientDevicesResponseError
  | createStaticDNSEntriesResponseSuccess
  | createStaticDNSEntriesResponseError
  | deleteStaticDNSEntriesResponseSuccess
  | deleteStaticDNSEntriesResponseError
  | getStaticDNSEntriesResponseSuccess
  | getStaticDNSEntriesResponseError
  | updateStaticDNSEntriesResponseSuccess
  | updateStaticDNSEntriesResponseError
  | createStaticDNSRecordsResponseSuccess
  | createStaticDNSRecordsResponseError
  | deleteStaticDNSRecordsResponseSuccess
  | deleteStaticDNSRecordsResponseError
  | getStaticDNSRecordsResponseSuccess
  | getStaticDNSRecordsResponseError
  | updateStaticDNSRecordsResponseSuccess
  | updateStaticDNSRecordsResponseError
deriving DecidableEq, Repr, Inhabited

/-- The Lean type of each target. -/
@[reducible] def Target.type : Target → Type
  | .loginResponseSuccess => UDM.loginResponseSuccess
  | .loginResponseError => UDM.loginResponseError
  | .getNetworkAppInfoResponseSuccess => UDM.getNetworkAppInfoResponseSuccess
  | .getNetworkAppInfoResponseError => UDM.getNetworkAppInfoResponseError
  | .createClientDeviceResponseSuccess => UDM.createClientDeviceResponseSuccess
  | .createClientDeviceResponseError => UDM.createClientDeviceResponseError
  | .getClientDevicesResponseSuccess => UDM.getClientDevicesResponseSuccess
  | .getClientDevicesResponseError => UDM.getClientDevicesResponseError
  | .createStaticDNSEntriesResponseSuccess => UDM.createStaticDNSEntriesResponseSuccess
  | .createStaticDNSEntriesResponseError => UDM.createStaticDNSEntriesResponseError
  | .deleteStaticDNSEntriesResponseSuccess => UDM.deleteStaticDNSEntriesResponseSuccess
  | .deleteStaticDNSEntriesResponseError => UDM.deleteStaticDNSEntriesResponseError
  | .getStaticDNSEntriesResponseSuccess => UDM.getStaticDNSEntriesResponseSuccess
  | .getStaticDNSEntriesResponseError => UDM.getStaticDNSEntriesResponseError
  | .updateStaticDNSEntriesResponseSuccess => UDM.updateStaticDNSEntriesResponseSuccess
  | .updateStaticDNSEntriesResponseError => UDM.updateStaticDNSEntriesResponseError
  | .createStaticDNSRecordsResponseSuccess => UDM.createStaticDNSRecordsResponseSuccess
  | .createStaticDNSRecordsResponseError => UDM.createStaticDNSRecordsResponseError
  | .deleteStaticDNSRecordsResponseSuccess => UDM.deleteStaticDNSRecordsResponseSuccess
  | .deleteStaticDNSRecordsResponseError => UDM.deleteStaticDNSRecordsResponseError
  | .getStaticDNSRecordsResponseSuccess => UDM.getStaticDNSRecordsResponseSuccess
  | .getStaticDNSRecordsResponseError => UDM.getStaticDNSRecordsResponseError
  | .updateStaticDNSRecordsResponseSuccess => UDM.updateStaticDNSRecordsResponseSuccess
  | .updateStaticDNSRecordsResponseError => UDM.updateStaticDNSRecordsResponseError

/-- The zero value of each target: what a variable declared as `T{}` holds
until something is decoded into it. -/
def Target.zero : (t : Target) → t.type
  | .loginResponseSuccess => {}
  | .loginResponseError => {}
  | .getNetworkAppInfoResponseSuccess => {}
  | .getNetworkAppInfoResponseError => ()
  | .createClientDeviceResponseSuccess => {}
  | .createClientDeviceResponseError => {}
  | .getClientDevicesResponseSuccess => {}
  | .getClientDevicesResponseError => {}
  | .createStaticDNSEntriesResponseSuccess => {}
  | .createStaticDNSEntriesResponseError => {}
  | .deleteStaticDNSEntriesResponseSuccess => ()
  | .deleteStaticDNSEntriesResponseError => {}
  | .getStaticDNSEntriesResponseSuccess => []
  | .getStaticDNSEntriesResponseError => ()
  | .updateStaticDNSEntriesResponseSuccess => {}
  | .updateStaticDNSEntriesResponseError => {}
  | .createStaticDNSRecordsResponseSuccess => {}
  | .createStaticDNSRecordsResponseError => {}
  | .deleteStaticDNSRecordsResponseSuccess => ()
  | .deleteStaticDNSRecordsResponseError => {}
  | .getStaticDNSRecordsResponseSuccess => []
  | .getStaticDNSRecordsResponseError => {}
  | .updateStaticDNSRecordsResponseSuccess => {}
  | .updateStaticDNSRecordsResponseError => {}

/-- A `resty.Response` as the package reads it: status code, headers, the
cookies of `resp.Cookies()`, the raw body, and what the exchange does to the
variable passed to `SetResult` or `SetError`: `decodeInto t v` is the value
that a variable of the target type `t` holds once the exchange is over when it
held `v` before. The HTTP client decodes a body only for some statuses and
content types, and decoding fills in the fields the body names; a variable
into which nothing is decoded keeps the value it had. -/
structure Response where
  statusCode : Nat := 0
  header : List (String × List String) := []
  cookies : List Cookie := []
  body : String := ""
  decodeInto : (t : Target) → t.type → t.type := fun _ v => v

/-- The value that a variable declared as `T{}` right before the exchange
holds once the exchange is over. Every resource operation declares its
targets in this way. -/
def Response.decoded (resp : Response) (t : Target) : t.type :=
  resp.decodeInto t t.zero

/-! ## Errors -/

/-- The error of `jwt.ParseWithClaims`: `unverifiable` is
`errors.Is(err, jwt.ErrTokenUnverifiable)`. -/
structure JwtError where
  unverifiable : Bool
  text : String
deriving DecidableEq, Repr, Inhabited

/-- A Go `error` value returned by the package: the error handed back by the
HTTP client when it executes a request (the transport failed, or the body of
the response could not be decoded into the result target), the error handed
back by the JWT parser, or one built by `fmt.Errorf` or `errors.New` with the
given text. -/
inductive Error
  | transport (text : String)
  | jwt (e : JwtError)
  | msg (text : String)
deriving DecidableEq, Repr, Inhabited

/-! ## Environment and world -/

/-- What the package takes from outside this source tree: the constant
`JWTCookieName` (declared in a file that is not part of the sources at hand),
the JWT library's `ParseWithClaims` called with a nil key function (the error
it returns, if any, and the claims it filled in), and the remote server
reached through the HTTP client: what executing the `n`-th exchange returns,
either an error (the transport failed, or the HTTP client could not decode the
body of the response into the result target) or a response. -/
structure Env where
  JWTCookieName : String
  ParseWithClaims : String → Option JwtError × jwtClaims
  server : Nat → Request → Except String Response

/-- An observable step of the client. -/
inductive Event
  | request (r : Request)
  | sleep (seconds : Nat)
deriving DecidableEq, Repr, Inhabited

/-- The world outside the client: how many exchanges were made, and the
record of requests and sleeps, oldest first. -/
structure World where
  sent : Nat := 0
  trace : List Event := []
deriving DecidableEq, Repr, Inhabited

/-- Executes a request (`Get`, `Post`, `Put`, `Delete` of `resty.Request`). -/
def execute (env : Env) (m : Method) (url : String) (req : Request) (w : World) :
    Except String Response × World :=
  let r : Request := { req with method := m, url := url }
  (env.server w.sent r, { sent := w.sent + 1, trace := w.trace ++ [Event.request r] })

/-- The effect of `time.Sleep(n * time.Second)`. -/
def sleep (n : Nat) (w : World) : World :=
  { w with trace := w.trace ++ [Event.sleep n] }

/-! ## client.go -/

/-- `Client` (client.go). The `resty.Client` field holds only the TLS
setting given to `NewClient`. -/
structure Client where
  authData : authData := {}
  ignoreUntrustedSSLCert : Bool := false
  hostname : String := ""
  networkAppInfo : NetworkAppInfo := {}
  site : String := ""
deriving DecidableEq, Repr, Inhabited

/-- `NewClient` (client.go). -/
def NewClient (hostname site : String) (ignoreUntrustedSSLCert : Bool) : Client :=
  { ignoreUntrustedSSLCert := ignoreUntrustedSSLCert, hostname := hostname, site := site }

/-- `resty.Request.SetHeader`: sets the header, replacing an earlier value. -/
def Request.SetHeader (req : Request) (k v : String) : Request :=
  { req with header := (req.header.filter (fun p => p.1 ≠ k)) ++ [(k, v)] }

/-- `resty.Request.SetCookie`: appends the cookie. -/
def Request.SetCookie (req : Request) (ck : Cookie) : Request :=
  { req with cookies := req.cookies ++ [ck] }

/-- `resty.Request.SetBody`. -/
def Request.SetBody (req : Request) (b : Body) : Request :=
  { req with body := b }

/-- `logResponse` (client.go): returns the status code, headers and body of
the response (the debug record it may write is not part of the return). It
reads its receiver and assigns none of its fields. -/
def Client.logResponse (_c : Client) (resp : Response) :
    Nat × List (String × List String) × String :=
  (resp.statusCode, resp.header, resp.body)

/-- `newRequest` (client.go). It reads its receiver and assigns none of its
fields. -/
def Client.newRequest (c : Client) (uri : String) : String × Request :=
  ("https://" ++ c.hostname ++ uri,
    (({} : Request).SetHeader "Content-Type" "application/json").SetHeader
      "Accept" "application/json")

/-- `newAuthenticatedRequest` (client.go): the URL, the request, and the
client afterwards (the method has a pointer receiver). -/
def Client.newAuthenticatedRequest (env : Env) (c : Client) (uri : String) :
    String × Request × Client :=
  let (url, req) := c.newRequest uri
  (url,
    (req.SetHeader "X-Csrf-Token" c.authData.CSRFToken).SetCookie
      { Name := env.JWTCookieName
        Value := c.authData.JWT
        Path := "/"
        Domain := c.hostname
        Secure := true
        HttpOnly := true
        SameSite := .SameSiteNoneMode },
    c)

/-! ## network_info.go -/

/-- `GetNetworkAppInfo` (network_info.go). -/
def Client.GetNetworkAppInfo (env : Env) (c : Client) (w : World) :
    (NetworkAppInfo × Option Error) × Client × World :=
  let (url, req, c) := c.newAuthenticatedRequest env "/proxy/network/v2/api/info"
  match execute env .GET url req w with
  | (.error err, w1) => (({}, some (.transport err)), c, w1)
  | (.ok resp, w1) =>
    let apiResponseSuccess := resp.decoded .getNetworkAppInfoResponseSuccess
    let (statusCode, _, _) := c.logResponse resp
    if statusCode ≠ 200 then
      (({}, some (.msg "failed to retrieve network info")), c, w1)
    else
      ((apiResponseSuccess.NetworkAppInfo, none), c, w1)

/-! ## client_device.go -/

/-- The result of a call that may abort with a run-time panic instead of
returning. -/
inductive Outcome (α : Type)
  | returned (value : α) (err : Option Error)
  | panicked (reason : String)
deriving DecidableEq, Repr

/-- `CreateClientDevice` (client_device.go). The source returns
`apiResponseSuccess.Data[0]`, which aborts when `Data` is empty. -/
def Client.CreateClientDevice (env : Env) (c : Client) (device : ClientDevice) (w : World) :
    Outcome ClientDevice × Client × World :=
  let (url, req, c) := c.newAuthenticatedRequest env ("/proxy/network/api/s/" ++ c.site ++ "/rest/user")
  match execute env .POST url (req.SetBody (.device device)) w with
  | (.error err, w1) => (.returned {} (some (.transport err)), c, w1)
  | (.ok resp, w1) =>
    let apiResponseSuccess := resp.decoded .createClientDeviceResponseSuccess
    let apiResponseError := resp.decoded .createClientDeviceResponseError
    let (statusCode, _, _) := c.logResponse resp
    if statusCode ≠ 200 then
      (.returned {} (some (.msg ("failed to create client device: " ++ apiResponseError.Meta.Message))), c, w1)
    else
      match apiResponseSuccess.Data with
      | [] => (.panicked "index out of range [0] with length 0", c, w1)
      | d :: _ => (.returned d none, c, w1)

/-- `GetClientDevices` (client_device.go). -/
def Client.GetClientDevices (env : Env) (c : Client) (w : World) :
    (List ClientDevice × Option Error) × Client × World :=
  let (url, req, c) := c.newAuthenticatedRequest env ("/proxy/network/api/s/" ++ c.site ++ "/rest/user")
  match execute env .GET url req w with
  | (.error err, w1) => (([], some (.transport err)), c, w1)
  | (.ok resp, w1) =>
    let apiResponseSuccess := resp.decoded .getClientDevicesResponseSuccess
    let (statusCode, _, _) := c.logResponse resp
    if statusCode ≠ 200 then
      (([], some (.msg "failed to retrieve client devices")), c, w1)
    else
      ((apiResponseSuccess.Data, none), c, w1)

/-- `GetClientDevice` (client_device.go). -/
def Client.GetClientDevice (env : Env) (c : Client) (id : String) (w : World) :
    (ClientDevice × Option Error) × Client × World :=
  match c.GetClientDevices env w with
  | ((_, some err), c, w1) => (({}, some err), c, w1)
  | ((devices, none), c, w1) =>
    match devices.find? (fun device => device.ID = id) with
    | some device => ((device, none), c, w1)
    | none => (({}, some (.msg ("no client device found with an ID of '" ++ id ++ "'"))), c, w1)

/-! ## network_static_dns.go -/

/-- `CreateStaticDNSEntry` (network_static_dns.go). -/
def Client.CreateStaticDNSEntry (env : Env) (c : Client) (entry : StaticDNSEntry) (w : World) :
    (StaticDNSEntry × Option Error) × Client × World :=
  let (url, req, c) :=
    c.newAuthenticatedRequest env ("/proxy/network/v2/api/site/" ++ c.site ++ "/static-dns")
  match execute env .POST url (req.SetBody (.entry entry)) w with
  | (.error err, w1) => (({}, some (.transport err)), c, w1)
  | (.ok resp, w1) =>
    let apiResponseSuccess := resp.decoded .createStaticDNSEntriesResponseSuccess
    let apiResponseError := resp.decoded .createStaticDNSEntriesResponseError
    let (statusCode, _, _) := c.logResponse resp
    if statusCode ≠ 200 then
      (({}, some (.msg ("failed to create static DNS entry: " ++ apiResponseError.Message))), c, w1)
    else
      ((apiResponseSuccess, none), c, w1)

/-- `DeleteStaticDNSEntry` (network_static_dns.go): the request carries the
body `"{}"`. -/
def Client.DeleteStaticDNSEntry (env : Env) (c : Client) (id : String) (w : World) :
    Option Error × Client × World :=
  let (url, req, c) :=
    c.newAuthenticatedRequest env ("/proxy/network/v2/api/site/" ++ c.site ++ "/static-dns/" ++ id)
  match execute env .DELETE url (req.SetBody (.text "\x7b\x7d")) w with
  | (.error err, w1) => (some (.transport err), c, w1)
  | (.ok resp, w1) =>
    let apiResponseError := resp.decoded .deleteStaticDNSEntriesResponseError
    let (statusCode, _, _) := c.logResponse resp
    if statusCode ≠ 200 then
      (some (.msg ("failed to delete static DNS entry: " ++ apiResponseError.Message)), c, w1)
    else
      (none, c, w1)

/-- `GetStaticDNSEntries` (network_static_dns.go). -/
def Client.GetStaticDNSEntries (env : Env) (c : Client) (w : World) :
    (List StaticDNSEntry × Option Error) × Client × World :=
  let (url, req, c) :=
    c.newAuthenticatedRequest env ("/proxy/network/v2/api/site/" ++ c.site ++ "/static-dns")
  match execute env .GET url req w with
  | (.error err, w1) => (([], some (.transport err)), c, w1)
  | (.ok resp, w1) =>
    let apiResponseSuccess := resp.decoded .getStaticDNSEntriesResponseSuccess
    let (statusCode, _, _) := c.logResponse resp
    if statusCode ≠ 200 then
      (([], some (.msg "failed to retrieve static DNS entries")), c, w1)
    else
      ((apiResponseSuccess, none), c, w1)

/-- `GetStaticDNSEntry` (network_static_dns.go). -/
def Client.GetStaticDNSEntry (env : Env) (c : Client) (id : String) (w : World) :
    (StaticDNSEntry × Option Error) × Client × World :=
  match c.GetStaticDNSEntries env w with
  | ((_, some err), c, w1) => (({}, some err), c, w1)
  | ((entries, none), c, w1) =>
    match entries.find? (fun entry => entry.ID = id) with
    | some entry => ((entry, none), c, w1)
    | none => (({}, some (.msg ("no static DNS entry found with an ID of '" ++ id ++ "'"))), c, w1)

/-- `UpdateStaticDNSEntry` (network_static_dns.go). -/
def Client.UpdateStaticDNSEntry (env : Env) (c : Client) (id : String) (entry : StaticDNSEntry)
    (w : World) : (StaticDNSEntry × Option Error) × Client × World :=
  let (url, req, c) :=
    c.newAuthenticatedRequest env ("/proxy/network/v2/api/site/" ++ c.site ++ "/static-dns/" ++ id)
  match execute env .PUT url (req.SetBody (.entry entry)) w with
  | (.error err, w1) => (({}, some (.transport err)), c, w1)
  | (.ok resp, w1) =>
    let apiResponseSuccess := resp.decoded .updateStaticDNSEntriesResponseSuccess
    let apiResponseError := resp.decoded .updateStaticDNSEntriesResponseError
    let (statusCode, _, _) := c.logResponse resp
    if statusCode ≠ 200 then
      (({}, some (.msg ("failed to update static DNS entry: " ++ apiResponseError.Message))), c, w1)
    else
      ((apiResponseSuccess, none), c, w1)

/-! ## static_dns.go -/

/-- `CreateStaticDNSRecord` (static_dns.go). -/
def Client.CreateStaticDNSRecord (env : Env) (c : Client) (record : StaticDNSRecord) (w : World) :
    (StaticDNSRecord × Option Error) × Client × World :=
  let (url, req, c) :=
    c.newAuthenticatedRequest env ("/proxy/network/v2/api/site/" ++ c.site ++ "/static-dns")
  match execute env .POST url (req.SetBody (.record record)) w with
  | (.error err, w1) => (({}, some (.transport err)), c, w1)
  | (.ok resp, w1) =>
    let apiResponseSuccess := resp.decoded .createStaticDNSRecordsResponseSuccess
    let apiResponseError := resp.decoded .createStaticDNSRecordsResponseError
    let (statusCode, _, _) := c.logResponse resp
    if statusCode ≠ 200 then
      (({}, some (.msg ("failed to create static DNS record: " ++ apiResponseError.Message))), c, w1)
    else
      ((apiResponseSuccess, none), c, w1)

/-- `DeleteStaticDNSRecord` (static_dns.go): no body is set. -/
def Client.DeleteStaticDNSRecord (env : Env) (c : Client) (id : String) (w : World) :
    Option Error × Client × World :=
  let (url, req, c) :=
    c.newAuthenticatedRequest env ("/proxy/network/v2/api/site/" ++ c.site ++ "/static-dns/" ++ id)
  match execute env .DELETE url req w with
  | (.error err, w1) => (some (.transport err), c, w1)
  | (.ok resp, w1) =>
    let apiResponseError := resp.decoded .deleteStaticDNSRecordsResponseError
    let (statusCode, _, _) := c.logResponse resp
    if statusCode ≠ 200 then
      (some (.msg ("failed to delete static DNS record: " ++ apiResponseError.Message)), c, w1)
    else
      (none, c, w1)

/-- `GetStaticDNSRecords` (static_dns.go). -/
def Client.GetStaticDNSRecords (env : Env) (c : Client) (w : World) :
    (List StaticDNSRecord × Option Error) × Client × World :=
  let (url, req, c) :=
    c.newAuthenticatedRequest env ("/proxy/network/v2/api/site/" ++ c.site ++ "/static-dns")
  match execute env .GET url req w with
  | (.error err, w1) => (([], some (.transport err)), c, w1)
  | (.ok resp, w1) =>
    let apiResponseSuccess := resp.decoded .getStaticDNSRecordsResponseSuccess
    let (statusCode, _, _) := c.logResponse resp
    if statusCode ≠ 200 then
      (([], some (.msg "failed to retrieve static DNS records")), c, w1)
    else
      ((apiResponseSuccess, none), c, w1)

/-- `GetStaticDNSRecord` (static_dns.go). -/
def Client.GetStaticDNSRecord (env : Env) (c : Client) (id : String) (w : World) :
    (StaticDNSRecord × Option Error) × Client × World :=
  match c.GetStaticDNSRecords env w with
  | ((_, some err), c, w1) => (({}, some err), c, w1)
  | ((records, none), c, w1) =>
    match records.find? (fun record => record.ID = id) with
    | some record => ((record, none), c, w1)
    | none => (({}, some (.msg ("no static DNS record found with an ID of '" ++ id ++ "'"))), c, w1)

/-- `UpdateStaticDNSRecord` (static_dns.go). -/
def Client.UpdateStaticDNSRecord (env : Env) (c : Client) (id : String) (record : StaticDNSRecord)
    (w : World) : (StaticDNSRecord × Option Error) × Client × World :=
  let (url, req, c) :=
    c.newAuthenticatedRequest env ("/proxy/network/v2/api/site/" ++ c.site ++ "/static-dns/" ++ id)
  match execute env .PUT url (req.SetBody (.record record)) w with
  | (.error err, w1) => (({}, some (.transport err)), c, w1)
  | (.ok resp, w1) =>
    let apiResponseSuccess := resp.decoded .updateStaticDNSRecordsResponseSuccess
    let apiResponseError := resp.decoded .updateStaticDNSRecordsResponseError
    let (statusCode, _, _) := c.logResponse resp
    if statusCode ≠ 200 then
      (({}, some (.msg ("failed to update static DNS record: " ++ apiResponseError.Message))), c, w1)
    else
      ((apiResponseSuccess, none), c, w1)

/-! ## auth.go -/

/-- How the request loop of `Login` is left. -/
inductive LoopExit
  | returned (err : Error)
  | broke (resp : Response) (apiResponseSuccess : loginResponseSuccess)
  | running

/-- The `for { ... }` loop of `Login` (auth.go lines 60 to 93), run for at
most `fuel` iterations. `attempt` is the local variable of that name: the
loop reads it and never assigns it. `apiResponseSuccess` and
`apiResponseError` are the two variables declared before the loop (lines 55
and 56) and handed to `SetResult` and `SetError` on every iteration: each
exchange decodes into what the exchanges before it left there. -/
def loginLoop (env : Env) (c : Client) (url : String) (req : Request) (attempt : Nat) :
    Nat → loginResponseSuccess → loginResponseError → World → LoopExit × World
  | 0, _, _, w => (.running, w)
  | fuel + 1, apiResponseSuccess, apiResponseError, w =>
    match execute env .POST url req w with
    | (.error err, w1) => (.returned (.transport err), w1)
    | (.ok resp, w1) =>
      let apiResponseSuccess := resp.decodeInto .loginResponseSuccess apiResponseSuccess
      let apiResponseError := resp.decodeInto .loginResponseError apiResponseError
      let (statusCode, _, _) := c.logResponse resp
      if statusCode = 200 then
        (.broke resp apiResponseSuccess, w1)
      else if apiResponseError.Code = "AUTHENTICATION_FAILED_LIMIT_REACHED" ∧ attempt < 6 then
        loginLoop env c url req attempt fuel apiResponseSuccess apiResponseError (sleep 5 w1)
      else
        (.returned (.msg ("authentication failed: " ++ apiResponseError.Message)), w1)

/-- The `for _, cookie := range cookies` loop of `Login` (auth.go lines 99 to
117): the client after the loop, and the error if the loop returned. -/
def scanCookies (env : Env) (c : Client) : List Cookie → Client × Option Error
  | [] => (c, none)
  | cookie :: rest =>
    if cookie.Name = env.JWTCookieName then
      let c1 : Client := { c with authData := { c.authData with JWT := cookie.Value } }
      let (err, claims) := env.ParseWithClaims c1.authData.JWT
      match err with
      | some e =>
        if !e.unverifiable then (c1, some (.jwt e))
        else ({ c1 with authData := { c1.authData with CSRFToken := claims.CsrfToken } }, none)
      | none => ({ c1 with authData := { c1.authData with CSRFToken := claims.CsrfToken } }, none)
    else scanCookies env c rest

/-- `Login` (auth.go). The first component is `none` while the request loop
has not been left within `fuel` iterations; otherwise it is the returned
error (`none` for `nil`). The second component is the client afterwards. -/
def Client.Login (env : Env) (fuel : Nat) (c : Client) (username password : String)
    (w : World) : Option (Option Error) × Client × World :=
  let (url, req) := c.newRequest "/api/auth/login"
  let req := req.SetBody (.login { Username := username, Password := password })
  let apiResponseSuccess : loginResponseSuccess := {}
  let apiResponseError : loginResponseError := {}
  match loginLoop env c url req 1 fuel apiResponseSuccess apiResponseError w with
  | (.running, w1) => (none, c, w1)
  | (.returned err, w1) => (some (some err), c, w1)
  | (.broke resp apiResponseSuccess, w1) =>
    let c1 : Client := { c with authData := { c.authData with User := apiResponseSuccess.User } }
    match scanCookies env c1 resp.cookies with
    | (c2, some err) => (some (some err), c2, w1)
    | (c2, none) =>
      if c2.authData.JWT = "" then
        (some (some (.msg "no JWT was returned by the server")), c2, w1)
      else
        match c2.GetNetworkAppInfo env w1 with
        | ((_, some err), c2, w2) => (some (some err), c2, w2)
        | ((netInfo, none), c2, w2) => (some none, { c2 with networkAppInfo := netInfo }, w2)

/-! ## client.go: the debug entry of `logResponse` -/

/-- What `logResponse` records for one cookie (the inner map of `cookies`). -/
structure CookieLog where
  Value : String := ""
  Path : String := ""
  Domain : String := ""
  Expires : String := ""
  HttpOnly : Bool := false
  Secure : Bool := false
  SameSite : SameSite := .SameSiteDefaultMode
deriving DecidableEq, Repr, Inhabited

/-- The debug entry `logResponse` writes: the message and the fields
`status_code`, `headers`, `cookies` and `body`. -/
structure LogRecord where
  message : String := ""
  status_code : Nat := 0
  headers : List (String × List String) := []
  cookies : List (String × CookieLog) := []
  body : String := ""
deriving DecidableEq, Repr, Inhabited

/-- The assignment `m[k] = v` on a Go map held as the list of its entries: an
entry with that key is replaced, otherwise the entry is added. -/
def mapSet {α : Type} (m : List (String × α)) (k : String) (v : α) : List (String × α) :=
  if m.any (fun p => p.1 = k) then m.map (fun p => if p.1 = k then (k, v) else p)
  else m ++ [(k, v)]

/-- The entry `logResponse` stores under `cookie.Name` (client.go lines 60 to
68). -/
def cookieLog (cookie : Cookie) : CookieLog :=
  { Value := cookie.Value, Path := cookie.Path, Domain := cookie.Domain,
    Expires := cookie.Expires, HttpOnly := cookie.HttpOnly, Secure := cookie.Secure,
    SameSite := cookie.SameSite }

/-- `strings.EqualFold`, for the comparisons made here: equality of the two
strings once ASCII letters are upper-cased (no other character folds to a
letter of DEBUG or TRACE). -/
def EqualFold (s t : String) : Prop :=
  s.toList.map Char.toUpper = t.toList.map Char.toUpper

instance (s t : String) : Decidable (EqualFold s t) :=
  inferInstanceAs (Decidable (s.toList.map Char.toUpper = t.toList.map Char.toUpper))

/-- The debug entry of `logResponse` (client.go lines 50 to 76): written only
when the environment variable `TF_LOG` equals DEBUG or TRACE, whatever the
case of its letters. `resp.Header()` is a Go map and is held as the list of
its entries; `requestURL` is `resp.Request.URL`. -/
def Client.logResponseRecord (_c : Client) (TF_LOG requestURL : String) (resp : Response) :
    Option LogRecord :=
  if EqualFold TF_LOG "DEBUG" ∨ EqualFold TF_LOG "TRACE" then
    let headers := resp.header.filter (fun p => p.1 ≠ "Set-Cookie")
    let cookies := resp.cookies.foldl (fun cs cookie => mapSet cs cookie.Name (cookieLog cookie)) []
    some { message := "response received from: " ++ requestURL
           status_code := resp.statusCode
           headers := headers
           cookies := cookies
           body := resp.body }
  else
    none

/-! ## Package provider: values and diagnostics of the plugin framework -/

/-- `types.String`: null, unknown, or a known value. -/
inductive TfString
  | null
  | unknown
  | value (s : String)
deriving DecidableEq, Repr, Inhabited

/-- `types.String.IsNull`. -/
def TfString.IsNull : TfString → Bool
  | .null => true
  | _ => false

/-- `types.String.IsUnknown`. -/
def TfString.IsUnknown : TfString → Bool
  | .unknown => true
  | _ => false

/-- `types.String.ValueString`: the known value, and "" for null and
unknown. -/
def TfString.ValueString : TfString → String
  | .value s => s
  | _ => ""

/-- `types.Bool`. -/
inductive TfBool
  | null
  | unknown
  | value (b : Bool)
deriving DecidableEq, Repr, Inhabited

/-- `types.Bool.IsNull`. -/
def TfBool.IsNull : TfBool → Bool
  | .null => true
  | _ => false

/-- `types.Bool.ValueBool`: the known value, and false for null and
unknown. -/
def TfBool.ValueBool : TfBool → Bool
  | .value b => b
  | _ => false

/-- `types.Int32`; a known value is a signed 32-bit integer. -/
inductive TfInt32
  | null
  | unknown
  | value (n : Int)
deriving DecidableEq, Repr, Inhabited

/-- `types.Int32.IsNull`. -/
def TfInt32.IsNull : TfInt32 → Bool
  | .null => true
  | _ => false

/-- `types.Int32.ValueInt32`: the known value, and 0 for null and unknown. -/
def TfInt32.ValueInt32 : TfInt32 → Int
  | .value n => n
  | _ => 0

/-- The Go conversion `int32(x)` of an `int`: the value reduced modulo 2^32
into the signed 32-bit range. -/
def toInt32 (x : Int) : Int :=
  (x + 2147483648) % 4294967296 - 2147483648

/-- The severity of a diagnostic. -/
inductive Severity
  | Error
  | Warning
deriving DecidableEq, Repr, Inhabited

/-- A diagnostic of the framework: severity, the attribute path (for an
attribute diagnostic), summary and detail. -/
structure Diagnostic where
  Severity : Severity := .Error
  Path : Option String := none
  Summary : String := ""
  Detail : String := ""
deriving DecidableEq, Repr, Inhabited

/-- `Diagnostics.HasError`. -/
def HasError (diags : List Diagnostic) : Bool :=
  diags.any (fun d => d.Severity = .Error)

/-- `Diagnostics.Append`: adds the diagnostics that are not already there. -/
def Append (diags : List Diagnostic) (more : List Diagnostic) : List Diagnostic :=
  more.foldl (fun acc d => if d ∈ acc then acc else acc ++ [d]) diags

/-- `Diagnostics.AddAttributeError`. -/
def AddAttributeError (diags : List Diagnostic) (path summary detail : String) :
    List Diagnostic :=
  Append diags [{ Severity := .Error, Path := some path, Summary := summary, Detail := detail }]

/-- `Diagnostics.AddError`. -/
def AddError (diags : List Diagnostic) (summary detail : String) : List Diagnostic :=
  Append diags [{ Severity := .Error, Path := none, Summary := summary, Detail := detail }]

/-- `err.Error()`: the text of an error value. -/
def Error.errorString : Error → String
  | .transport text => text
  | .jwt e => e.text
  | .msg text => text

/-! ## provider.go -/

/-- `udmProviderModel` (provider.go). -/
structure udmProviderModel where
  Hostname : TfString := .null
  IgnoreUntrustedSSLCertificate : TfBool := .null
  Password : TfString := .null
  Site : TfString := .null
  Username : TfString := .null
deriving DecidableEq, Repr, Inhabited

/-- `provider.ConfigureResponse`: the diagnostics, and the client handed to
data sources and to resources. -/
structure ConfigureResponse where
  Diagnostics : List Diagnostic := []
  DataSourceData : Option Client := none
  ResourceData : Option Client := none
deriving DecidableEq, Repr, Inhabited

/-- The checks of `udmProvider.Configure` for unknown values (provider.go
lines 102 to 138): an attribute error for each of hostname, password, site and
username whose value is unknown. -/
def udmProvider.unknownChecks (d0 : List Diagnostic) (config : udmProviderModel) :
    List Diagnostic :=
  let d1 :=
    if config.Hostname.IsUnknown then
      AddAttributeError d0 "hostname" "Unknown UDM API Host"
        ("The provider cannot create the UDM API client as there is an unknown configuration value for " ++
          "the UDM API hostname. Either target apply the source of the value first, set the value " ++
          "statically in the configuration, or use a variable in the configuration.")
    else d0
  let d2 :=
    if config.Password.IsUnknown then
      AddAttributeError d1 "password" "Unknown UDM API Password"
        ("The provider cannot create the UDM API client as there is an unknown configuration value for " ++
          "the UDM API password. Either target apply the source of the value first, set the value " ++
          "statically in the configuration, or use a variable in the configuration.")
    else d1
  let d3 :=
    if config.Site.IsUnknown then
      AddAttributeError d2 "site" "Unknown UDM API Site"
        ("The provider cannot create the UDM API client as there is an unknown configuration value for " ++
          "the UDM API site. Either target apply the source of the value first, set the value " ++
          "statically in the configuration, or use a variable in the configuration.")
    else d2
  if config.Username.IsUnknown then
    AddAttributeError d3 "username" "Unknown UDM API Username"
      ("The provider cannot create the UDM API client as there is an unknown configuration value for " ++
        "the HashiCups API username. Either target apply the source of the value first, set the value " ++
        "statically in the configuration, or use a variable in the configuration.")
  else d3

/-- The checks of `udmProvider.Configure` for missing values (provider.go
lines 143 to 177): an attribute error for each of hostname, password and
username whose value is the empty string. -/
def udmProvider.missingChecks (d4 : List Diagnostic) (hostname password username : String) :
    List Diagnostic :=
  let d5 :=
    if hostname = "" then
      AddAttributeError d4 "hostname" "Missing UDM API Host"
        ("The provider cannot create the UDM API client as there is a missing or empty value for " ++
          "the UDM API hostname. Set the value statically in the configuration or use a variable in the " ++
          "configuration. If either is set already, ensure the value is not empty.")
    else d4
  let d6 :=
    if password = "" then
      AddAttributeError d5 "password" "Missing UDM API Password"
        ("The provider cannot create the UDM API client as there is a missing or empty value for " ++
          "the UDM API password. Set the value statically in the configuration or use a variable in the " ++
          "configuration. If either is set already, ensure the value is not empty.")
    else d5
  if username = "" then
    AddAttributeError d6 "username" "Missing UDM API Username"
      ("The provider cannot create the UDM API client as there is a missing or empty value for " ++
        "the UDM API username. Set the value statically in the configuration or use a variable in the " ++
        "configuration. If either is set already, ensure the value is not empty.")
  else d6

/-- `udmProvider.Configure` (provider.go lines 91 to 195). `configDiags` is
what `req.Config.Get` returned next to the decoded `config`; `DefaultSite` is
the constant `api.DefaultSite`, declared in a file that is not part of the
sources at hand. The first component is `none` while `Login` has not
returned. -/
def udmProvider.Configure (env : Env) (DefaultSite : String) (fuel : Nat)
    (configDiags : List Diagnostic) (config : udmProviderModel) (w : World) :
    Option ConfigureResponse × World :=
  let d0 := Append [] configDiags
  if HasError d0 then (some { Diagnostics := d0 }, w)
  else
    let d4 := udmProvider.unknownChecks d0 config
    if HasError d4 then (some { Diagnostics := d4 }, w)
    else
      let hostname := config.Hostname.ValueString
      let password := config.Password.ValueString
      let site := if config.Site.ValueString = "" then DefaultSite else config.Site.ValueString
      let username := config.Username.ValueString
      let d7 := udmProvider.missingChecks d4 hostname password username
      if HasError d7 then (some { Diagnostics := d7 }, w)
      else
        let client := NewClient hostname site config.IgnoreUntrustedSSLCertificate.ValueBool
        match client.Login env fuel username password w with
        | (none, _, w1) => (none, w1)
        | (some err, client1, w1) =>
          let d8 :=
            match err with
            | some e =>
              AddError d7 "UDM API: Authentication Failed"
                ("Failed to authenticate to the UDM API:\n\t" ++ e.errorString)
            | none => d7
          if HasError d8 then (some { Diagnostics := d8 }, w1)
          else
            (some { Diagnostics := d8, DataSourceData := some client1,
                    ResourceData := some client1 }, w1)

/-! ## Package provider: requests and responses of resources and data sources -/

/-- What a resource or data-source operation leaves in its response: the
diagnostics, and the value it handed to `State.Set` (`none` when it returned
without calling it). `Plan.Get`, `State.Get` and `Config.Get` belong to the
framework: the diagnostics they return and the model they decode are
arguments of the operations below. `State.Set` is given a model of the
schema's own type and is taken to store it without a diagnostic. -/
structure ResourceResponse (M : Type) where
  Diagnostics : List Diagnostic := []
  State : Option M := none
deriving DecidableEq, Repr

/-! ## static_dns_record_resource.go -/

/-- `staticDNSRecordResourceModel` (static_dns_record_resource.go). -/
structure staticDNSRecordResourceModel where
  ID : TfString := .null
  Enabled : TfBool := .null
  Key : TfString := .null
  Port : TfInt32 := .null
  Priority : TfInt32 := .null
  RecordType : TfString := .null
  TTL : TfInt32 := .null
  Value : TfString := .null
  Weight : TfInt32 := .null
deriving DecidableEq, Repr, Inhabited

/-- The request body that `Create` and `Update` build from the plan
(static_dns_record_resource.go lines 122 to 143 and 222 to 243). -/
def staticDNSRecordResource.bodyOf (plan : staticDNSRecordResourceModel) : StaticDNSRecord :=
  let record : StaticDNSRecord :=
    { Key := plan.Key.ValueString, RecordType := plan.RecordType.ValueString,
      Value := plan.Value.ValueString }
  let record := if !plan.Enabled.IsNull then { record with Enabled := plan.Enabled.ValueBool } else record
  let record := if !plan.Port.IsNull then { record with Port := plan.Port.ValueInt32 } else record
  let record :=
    if !plan.Priority.IsNull then { record with Priority := plan.Priority.ValueInt32 } else record
  let record := if !plan.TTL.IsNull then { record with TTL := plan.TTL.ValueInt32 } else record
  if !plan.Weight.IsNull then { record with Weight := plan.Weight.ValueInt32 } else record

/-- `staticDNSRecordResource.Create` (static_dns_record_resource.go lines 114 to 172). -/
def staticDNSRecordResource.Create (env : Env) (client : Client) (planDiags : List Diagnostic)
    (plan : staticDNSRecordResourceModel) (w : World) :
    ResourceResponse staticDNSRecordResourceModel × World :=
  let d0 := Append [] planDiags
  if HasError d0 then ({ Diagnostics := d0 }, w)
  else
    let record := staticDNSRecordResource.bodyOf plan
    match client.CreateStaticDNSRecord env record w with
    | ((_, some err), _, w1) =>
      ({ Diagnostics := AddError d0 "UDM API: Failed to Create Static DNS Record"
          ("Failed to create static DNS record using the UDM API:\n\t" ++ err.errorString) }, w1)
    | ((createdRecord, none), _, w1) =>
      let plan : staticDNSRecordResourceModel :=
        { plan with
          ID := .value createdRecord.ID
          Enabled := .value createdRecord.Enabled
          Key := .value createdRecord.Key
          Port := .value (toInt32 createdRecord.Port)
          Priority := .value (toInt32 createdRecord.Priority)
          RecordType := .value createdRecord.RecordType
          TTL := .value (toInt32 createdRecord.TTL)
          Value := .value createdRecord.Value
          Weight := .value (toInt32 createdRecord.Weight) }
      ({ Diagnostics := d0, State := some plan }, w1)

/-- `staticDNSRecordResource.Read` (static_dns_record_resource.go lines 175 to
211): the identifier of the state is not rewritten. -/
def staticDNSRecordResource.Read (env : Env) (client : Client) (stateDiags : List Diagnostic)
    (state : staticDNSRecordResourceModel) (w : World) :
    ResourceResponse staticDNSRecordResourceModel × World :=
  let d0 := Append [] stateDiags
  if HasError d0 then ({ Diagnostics := d0 }, w)
  else
    match client.GetStaticDNSRecord env state.ID.ValueString w with
    | ((_, some err), _, w1) =>
      ({ Diagnostics := AddError d0 "UDM API: Failed to Retrieve Static DNS Record"
          ("Failed to retrieve the static DNS record with the ID '" ++ state.ID.ValueString ++
            "': " ++ err.errorString) }, w1)
    | ((record, none), _, w1) =>
      let state : staticDNSRecordResourceModel :=
        { state with
          Enabled := .value record.Enabled
          Key := .value record.Key
          Port := .value (toInt32 record.Port)
          Priority := .value (toInt32 record.Priority)
          RecordType := .value record.RecordType
          TTL := .value (toInt32 record.TTL)
          Value := .value record.Value
          Weight := .value (toInt32 record.Weight) }
      ({ Diagnostics := d0, State := some state }, w1)

/-- `staticDNSRecordResource.Update` (static_dns_record_resource.go lines 214 to 272). -/
def staticDNSRecordResource.Update (env : Env) (client : Client) (planDiags : List Diagnostic)
    (plan : staticDNSRecordResourceModel) (w : World) :
    ResourceResponse staticDNSRecordResourceModel × World :=
  let d0 := Append [] planDiags
  if HasError d0 then ({ Diagnostics := d0 }, w)
  else
    let record := staticDNSRecordResource.bodyOf plan
    match client.UpdateStaticDNSRecord env plan.ID.ValueString record w with
    | ((_, some err), _, w1) =>
      ({ Diagnostics := AddError d0 "UDM API: Failed to Update Static DNS Record"
          ("Failed to update static DNS record using the UDM API:\n\t" ++ err.errorString) }, w1)
    | ((updatedRecord, none), _, w1) =>
      let plan : staticDNSRecordResourceModel :=
        { plan with
          ID := .value updatedRecord.ID
          Enabled := .value updatedRecord.Enabled
          Key := .value updatedRecord.Key
          Port := .value (toInt32 updatedRecord.Port)
          Priority := .value (toInt32 updatedRecord.Priority)
          RecordType := .value updatedRecord.RecordType
          TTL := .value (toInt32 updatedRecord.TTL)
          Value := .value updatedRecord.Value
          Weight := .value (toInt32 updatedRecord.Weight) }
      ({ Diagnostics := d0, State := some plan }, w1)

/-! ## static_dns_resource.go -/

/-- `staticDNSEntryResourceModel` (static_dns_resource.go). -/
structure staticDNSEntryResourceModel where
  ID : TfString := .null
  Enabled : TfBool := .null
  Key : TfString := .null
  Port : TfInt32 := .null
  Priority : TfInt32 := .null
  RecordType : TfString := .null
  TTL : TfInt32 := .null
  Value : TfString := .null
  Weight : TfInt32 := .null
deriving DecidableEq, Repr, Inhabited

/-- The request body that `Create` and `Update` build from the plan
(static_dns_resource.go lines 122 to 143 and 222 to 243). -/
def staticDNSResource.bodyOf (plan : staticDNSEntryResourceModel) : StaticDNSEntry :=
  let entry : StaticDNSEntry :=
    { Key := plan.Key.ValueString, RecordType := plan.RecordType.ValueString,
      Value := plan.Value.ValueString }
  let entry := if !plan.Enabled.IsNull then { entry with Enabled := plan.Enabled.ValueBool } else entry
  let entry := if !plan.Port.IsNull then { entry with Port := plan.Port.ValueInt32 } else entry
  let entry :=
    if !plan.Priority.IsNull then { entry with Priority := plan.Priority.ValueInt32 } else entry
  let entry := if !plan.TTL.IsNull then { entry with TTL := plan.TTL.ValueInt32 } else entry
  if !plan.Weight.IsNull then { entry with Weight := plan.Weight.ValueInt32 } else entry

/-- `staticDNSResource.Create` (static_dns_resource.go lines 114 to 172). -/
def staticDNSResource.Create (env : Env) (client : Client) (planDiags : List Diagnostic)
    (plan : staticDNSEntryResourceModel) (w : World) :
    ResourceResponse staticDNSEntryResourceModel × World :=
  let d0 := Append [] planDiags
  if HasError d0 then ({ Diagnostics := d0 }, w)
  else
    let entry := staticDNSResource.bodyOf plan
    match client.CreateStaticDNSEntry env entry w with
    | ((_, some err), _, w1) =>
      ({ Diagnostics := AddError d0 "UDM API: Failed to Create Static DNS Entry"
          ("Failed to create static DNS entry using the UDM API:\n\t" ++ err.errorString) }, w1)
    | ((createdEntry, none), _, w1) =>
      let plan : staticDNSEntryResourceModel :=
        { plan with
          ID := .value createdEntry.ID
          Enabled := .value createdEntry.Enabled
          Key := .value createdEntry.Key
          Port := .value (toInt32 createdEntry.Port)
          Priority := .value (toInt32 createdEntry.Priority)
          RecordType := .value createdEntry.RecordType
          TTL := .value (toInt32 createdEntry.TTL)
          Value := .value createdEntry.Value
          Weight := .value (toInt32 createdEntry.Weight) }
      ({ Diagnostics := d0, State := some plan }, w1)

/-- `staticDNSResource.Read` (static_dns_resource.go lines 175 to 211): the
identifier of the state is not rewritten. -/
def staticDNSResource.Read (env : Env) (client : Client) (stateDiags : List Diagnostic)
    (state : staticDNSEntryResourceModel) (w : World) :
    ResourceResponse staticDNSEntryResourceModel × World :=
  let d0 := Append [] stateDiags
  if HasError d0 then ({ Diagnostics := d0 }, w)
  else
    match client.GetStaticDNSEntry env state.ID.ValueString w with
    | ((_, some err), _, w1) =>
      ({ Diagnostics := AddError d0 "UDM API: Failed to Retrieve Static DNS Entry"
          ("Failed to retrieve the static DNS entry with the ID '" ++ state.ID.ValueString ++
            "': " ++ err.errorString) }, w1)
    | ((entry, none), _, w1) =>
      let state : staticDNSEntryResourceModel :=
        { state with
          Enabled := .value entry.Enabled
          Key := .value entry.Key
          Port := .value (toInt32 entry.Port)
          Priority := .value (toInt32 entry.Priority)
          RecordType := .value entry.RecordType
          TTL := .value (toInt32 entry.TTL)
          Value := .value entry.Value
          Weight := .value (toInt32 entry.Weight) }
      ({ Diagnostics := d0, State := some state }, w1)

/-- `staticDNSResource.Update` (static_dns_resource.go lines 214 to 272). -/
def staticDNSResource.Update (env : Env) (client : Client) (planDiags : List Diagnostic)
    (plan : staticDNSEntryResourceModel) (w : World) :
    ResourceResponse staticDNSEntryResourceModel × World :=
  let d0 := Append [] planDiags
  if HasError d0 then ({ Diagnostics := d0 }, w)
  else
    let entry := staticDNSResource.bodyOf plan
    match client.UpdateStaticDNSEntry env plan.ID.ValueString entry w with
    | ((_, some err), _, w1) =>
      ({ Diagnostics := AddError d0 "UDM API: Failed to Update Static DNS Entry"
          ("Failed to update static DNS entry using the UDM API:\n\t" ++ err.errorString) }, w1)
    | ((updatedEntry, none), _, w1) =>
      let plan : staticDNSEntryResourceModel :=
        { plan with
          ID := .value updatedEntry.ID
          Enabled := .value updatedEntry.Enabled
          Key := .value updatedEntry.Key
          Port := .value (toInt32 updatedEntry.Port)
          Priority := .value (toInt32 updatedEntry.Priority)
          RecordType := .value updatedEntry.RecordType
          TTL := .value (toInt32 updatedEntry.TTL)
          Value := .value updatedEntry.Value
          Weight := .value (toInt32 updatedEntry.Weight) }
      ({ Diagnostics := d0, State := some plan }, w1)

/-! ## client_device_resource.go -/

/-- `clientDeviceResourceModel` (client_device_resource.go). -/
structure clientDeviceResourceModel where
  FixedIP : TfString := .null
  HardwareAddress : TfString := .null
  ID : TfString := .null
  Name : TfString := .null
  LocalDNSRecord : TfString := .null
  LocalDNSRecordEnabled : TfBool := .null
  UseFixedIP : TfBool := .null
deriving DecidableEq, Repr, Inhabited

/-- The request body that `Create` builds from the plan
(client_device_resource.go lines 110 to 128). -/
def clientDeviceResource.bodyOf (plan : clientDeviceResourceModel) : ClientDevice :=
  let device : ClientDevice := { HardwareAddress := plan.HardwareAddress.ValueString }
  let device :=
    if !plan.FixedIP.IsNull then { device with FixedIP := plan.FixedIP.ValueString } else device
  let device := if !plan.Name.IsNull then { device with Name := plan.Name.ValueString } else device
  let device :=
    if !plan.LocalDNSRecord.IsNull then
      { device with LocalDNSRecord := plan.LocalDNSRecord.ValueString }
    else device
  let device :=
    if !plan.LocalDNSRecordEnabled.IsNull then
      { device with LocalDNSRecordEnabled := plan.LocalDNSRecordEnabled.ValueBool }
    else device
  if !plan.UseFixedIP.IsNull then { device with UseFixedIP := plan.UseFixedIP.ValueBool } else device

/-- `clientDeviceResource.Create` (client_device_resource.go lines 101 to
155). The result is `none` when `CreateClientDevice` aborts. -/
def clientDeviceResource.Create (env : Env) (client : Client) (planDiags : List Diagnostic)
    (plan : clientDeviceResourceModel) (w : World) :
    Option (ResourceResponse clientDeviceResourceModel) × World :=
  let d0 := Append [] planDiags
  if HasError d0 then (some { Diagnostics := d0 }, w)
  else
    let device := clientDeviceResource.bodyOf plan
    match client.CreateClientDevice env device w with
    | (.panicked _, _, w1) => (none, w1)
    | (.returned _ (some err), _, w1) =>
      (some { Diagnostics := AddError d0 "UDM API: Failed to Create Client Device"
                ("Failed to create client device using the UDM API:\n\t" ++ err.errorString) }, w1)
    | (.returned createdDevice none, _, w1) =>
      let plan : clientDeviceResourceModel :=
        { plan with
          ID := .value createdDevice.ID
          HardwareAddress := .value createdDevice.HardwareAddress
          FixedIP := .value createdDevice.FixedIP
          LocalDNSRecord := .value createdDevice.LocalDNSRecord
          LocalDNSRecordEnabled := .value createdDevice.LocalDNSRecordEnabled
          Name := .value createdDevice.Name
          UseFixedIP := .value createdDevice.UseFixedIP }
      (some { Diagnostics := d0, State := some plan }, w1)

/-- `clientDeviceResource.Read` (client_device_resource.go lines 158 to 192):
the identifier of the state is not rewritten. -/
def clientDeviceResource.Read (env : Env) (client : Client) (stateDiags : List Diagnostic)
    (state : clientDeviceResourceModel) (w : World) :
    ResourceResponse clientDeviceResourceModel × World :=
  let d0 := Append [] stateDiags
  if HasError d0 then ({ Diagnostics := d0 }, w)
  else
    match client.GetClientDevice env state.ID.ValueString w with
    | ((_, some err), _, w1) =>
      ({ Diagnostics := AddError d0 "UDM API: Failed to Retrieve Client Device"
          ("Failed to retrieve the client device with the ID '" ++ state.ID.ValueString ++
            "': " ++ err.errorString) }, w1)
    | ((device, none), _, w1) =>
      let state : clientDeviceResourceModel :=
        { state with
          HardwareAddress := .value device.HardwareAddress
          FixedIP := .value device.FixedIP
          LocalDNSRecord := .value device.LocalDNSRecord
          LocalDNSRecordEnabled := .value device.LocalDNSRecordEnabled
          Name := .value device.Name
          UseFixedIP := .value device.UseFixedIP }
      ({ Diagnostics := d0, State := some state }, w1)

/-- `clientDeviceResource.Update` (client_device_resource.go lines 195 and
196): the body is empty. -/
def clientDeviceResource.Update (_env : Env) (_client : Client) (_planDiags : List Diagnostic)
    (_plan : clientDeviceResourceModel) (w : World) :
    ResourceResponse clientDeviceResourceModel × World :=
  ({}, w)

/-! ## static_dns_records_data_source.go -/

/-- `staticDNSFilterDataSourceModel`, declared with the same fields in
static_dns_records_data_source.go and in static_dns_data_source.go. -/
structure staticDNSFilterDataSourceModel where
  Enabled : TfBool := .null
  ID : TfString := .null
  Key : TfString := .null
  RecordType : TfString := .null
  Value : TfString := .null
deriving DecidableEq, Repr, Inhabited

/-- `staticDNSRecordDataSourceModel` (static_dns_records_data_source.go). -/
structure staticDNSRecordDataSourceModel where
  ID : TfString := .null
  Enabled : TfBool := .null
  Key : TfString := .null
  Port : TfInt32 := .null
  Priority : TfInt32 := .null
  RecordType : TfString := .null
  TTL : TfInt32 := .null
  Value : TfString := .null
  Weight : TfInt32 := .null
deriving DecidableEq, Repr, Inhabited

/-- `staticDNSRecordsDataSourceModel` (static_dns_records_data_source.go); a nil
`Filter` is `none`. -/
structure staticDNSRecordsDataSourceModel where
  Records : List staticDNSRecordDataSourceModel := []
  Filter : Option staticDNSFilterDataSourceModel := none
deriving DecidableEq, Repr, Inhabited

/-- The model built for one element (static_dns_records_data_source.go lines 196 to 206). -/
def staticDNSRecordsDataSource.recordState (record : StaticDNSRecord) :
    staticDNSRecordDataSourceModel :=
  { ID := .value record.ID
    Enabled := .value record.Enabled
    Key := .value record.Key
    Port := .value (toInt32 record.Port)
    Priority := .value (toInt32 record.Priority)
    RecordType := .value record.RecordType
    TTL := .value (toInt32 record.TTL)
    Value := .value record.Value
    Weight := .value (toInt32 record.Weight) }

/-- One pass of the loop of `Read` over the fetched elements (static_dns_records_data_source.go
lines 170 to 207): `continue` leaves the state as it is. -/
def staticDNSRecordsDataSource.loopBody (config : staticDNSRecordsDataSourceModel)
    (state : staticDNSRecordsDataSourceModel)
    (record : StaticDNSRecord) : staticDNSRecordsDataSourceModel :=
  let appended : staticDNSRecordsDataSourceModel :=
    { state with Records := state.Records ++ [staticDNSRecordsDataSource.recordState record] }
  match config.Filter with
  | some Filter =>
    if Filter.Enabled.IsNull = false ∧ record.Enabled ≠ Filter.Enabled.ValueBool then state
    else if Filter.ID.IsNull = false ∧ record.ID ≠ Filter.ID.ValueString then state
    else if Filter.Key.IsNull = false ∧ record.Key ≠ Filter.Key.ValueString then state
    else if Filter.RecordType.IsNull = false ∧ record.RecordType ≠ Filter.RecordType.ValueString then
      state
    else if Filter.Value.IsNull = false ∧ record.Value ≠ Filter.Value.ValueString then state
    else appended
  | none => appended

/-- `staticDNSRecordsDataSource.Read` (static_dns_records_data_source.go lines 143 to 215). -/
def staticDNSRecordsDataSource.Read (env : Env) (client : Client) (configDiags : List Diagnostic)
    (config : staticDNSRecordsDataSourceModel) (w : World) :
    ResourceResponse staticDNSRecordsDataSourceModel × World :=
  let d0 := Append [] configDiags
  if HasError d0 then ({ Diagnostics := d0 }, w)
  else
    match client.GetStaticDNSRecords env w with
    | ((_, some err), _, w1) =>
      ({ Diagnostics := AddError d0 "UDM API: Failed to Retrieve Static DNS Records"
          ("Failed to retrieve static DNS records from the UDM API:\n\t" ++ err.errorString) }, w1)
    | ((records, none), _, w1) =>
      let state : staticDNSRecordsDataSourceModel := { Records := [], Filter := config.Filter }
      let state := records.foldl (staticDNSRecordsDataSource.loopBody config) state
      ({ Diagnostics := d0, State := some state }, w1)

/-! ## static_dns_data_source.go -/

/-- `staticDNSEntryDataSourceModel` (static_dns_data_source.go). -/
structure staticDNSEntryDataSourceModel where
  ID : TfString := .null
  Enabled : TfBool := .null
  Key : TfString := .null
  Port : TfInt32 := .null
  Priority : TfInt32 := .null
  RecordType : TfString := .null
  TTL : TfInt32 := .null
  Value : TfString := .null
  Weight : TfInt32 := .null
deriving DecidableEq, Repr, Inhabited

/-- `staticDNSEntriesDataSourceModel` (static_dns_data_source.go); a nil `Filter` is `none`. -/
structure staticDNSEntriesDataSourceModel where
  Entries : List staticDNSEntryDataSourceModel := []
  Filter : Option staticDNSFilterDataSourceModel := none
deriving DecidableEq, Repr, Inhabited

/-- The model built for one element (static_dns_data_source.go lines 186 to 196). -/
def staticDNSEntriesDataSource.entryState (entry : StaticDNSEntry) :
    staticDNSEntryDataSourceModel :=
  { ID := .value entry.ID
    Enabled := .value entry.Enabled
    Key := .value entry.Key
    Port := .value (toInt32 entry.Port)
    Priority := .value (toInt32 entry.Priority)
    RecordType := .value entry.RecordType
    TTL := .value (toInt32 entry.TTL)
    Value := .value entry.Value
    Weight := .value (toInt32 entry.Weight) }

/-- One pass of the loop of `Read` over the fetched elements (static_dns_data_source.go
lines 160 to 197): `continue` leaves the state as it is. -/
def staticDNSEntriesDataSource.loopBody (config : staticDNSEntriesDataSourceModel)
    (state : staticDNSEntriesDataSourceModel)
    (entry : StaticDNSEntry) : staticDNSEntriesDataSourceModel :=
  let appended : staticDNSEntriesDataSourceModel :=
    { state with Entries := state.Entries ++ [staticDNSEntriesDataSource.entryState entry] }
  match config.Filter with
  | some Filter =>
    if Filter.Enabled.IsNull = false ∧ entry.Enabled ≠ Filter.Enabled.ValueBool then state
    else if Filter.ID.IsNull = false ∧ entry.ID ≠ Filter.ID.ValueString then state
    else if Filter.Key.IsNull = false ∧ entry.Key ≠ Filter.Key.ValueString then state
    else if Filter.RecordType.IsNull = false ∧ entry.RecordType ≠ Filter.RecordType.ValueString then
      state
    else if Filter.Value.IsNull = false ∧ entry.Value ≠ Filter.Value.ValueString then state
    else appended
  | none => appended

/-- `staticDNSEntriesDataSource.Read` (static_dns_data_source.go lines 136 to 205). -/
def staticDNSEntriesDataSource.Read (env : Env) (client : Client) (configDiags : List Diagnostic)
    (config : staticDNSEntriesDataSourceModel) (w : World) :
    ResourceResponse staticDNSEntriesDataSourceModel × World :=
  let d0 := Append [] configDiags
  if HasError d0 then ({ Diagnostics := d0 }, w)
  else
    match client.GetStaticDNSEntries env w with
    | ((_, some err), _, w1) =>
      ({ Diagnostics := AddError d0 "UDM API: Failed to Retrieve Static DNS Entries"
          ("Failed to retrieve static DNS entries from the UDM API:\n\t" ++ err.errorString) }, w1)
    | ((entries, none), _, w1) =>
      let state : staticDNSEntriesDataSourceModel := { Entries := [], Filter := config.Filter }
      let state := entries.foldl (staticDNSEntriesDataSource.loopBody config) state
      ({ Diagnostics := d0, State := some state }, w1)

/-! ## client_device_data_source.go -/

/-- `clientDeviceFilterDataSourceModel` (client_device_data_source.go). -/
structure clientDeviceFilterDataSourceModel where
  FixedIP : TfString := .null
  HardwareAddress : TfString := .null
  ID : TfString := .null
  Name : TfString := .null
  LocalDNSRecord : TfString := .null
  LocalDNSRecordEnabled : TfBool := .null
  UseFixedIP : TfBool := .null
deriving DecidableEq, Repr, Inhabited

/-- `clientDeviceDataSourceModel` (client_device_data_source.go). -/
structure clientDeviceDataSourceModel where
  FixedIP : TfString := .null
  HardwareAddress : TfString := .null
  ID : TfString := .null
  Name : TfString := .null
  LocalDNSRecord : TfString := .null
  LocalDNSRecordEnabled : TfBool := .null
  UseFixedIP : TfBool := .null
deriving DecidableEq, Repr, Inhabited

/-- `clientDevicesDataSourceModel` (client_device_data_source.go); a nil
`Filter` is `none`. -/
structure clientDevicesDataSourceModel where
  Devices : List clientDeviceDataSourceModel := []
  Filter : Option clientDeviceFilterDataSourceModel := none
deriving DecidableEq, Repr, Inhabited

/-- The model built for one device (client_device_data_source.go lines 209 to
217). -/
def clientDevicesDataSource.deviceState (device : ClientDevice) : clientDeviceDataSourceModel :=
  { FixedIP := .value device.FixedIP
    HardwareAddress := .value device.HardwareAddress
    ID := .value device.ID
    Name := .value device.Name
    LocalDNSRecord := .value device.LocalDNSRecord
    LocalDNSRecordEnabled := .value device.LocalDNSRecordEnabled
    UseFixedIP := .value device.UseFixedIP }

/-- One pass of the loop of `Read` over the fetched devices
(client_device_data_source.go lines 168 to 219): `continue` leaves the state
as it is. -/
def clientDevicesDataSource.loopBody (config : clientDevicesDataSourceModel)
    (state : clientDevicesDataSourceModel) (device : ClientDevice) :
    clientDevicesDataSourceModel :=
  let appended : clientDevicesDataSourceModel :=
    { state with Devices := state.Devices ++ [clientDevicesDataSource.deviceState device] }
  match config.Filter with
  | some Filter =>
    if Filter.FixedIP.IsNull = false ∧ device.FixedIP ≠ Filter.FixedIP.ValueString then state
    else if Filter.HardwareAddress.IsNull = false ∧
        device.HardwareAddress ≠ Filter.HardwareAddress.ValueString then state
    else if Filter.ID.IsNull = false ∧ device.ID ≠ Filter.ID.ValueString then state
    else if Filter.Name.IsNull = false ∧ device.Name ≠ Filter.Name.ValueString then state
    else if Filter.LocalDNSRecord.IsNull = false ∧
        device.LocalDNSRecord ≠ Filter.LocalDNSRecord.ValueString then state
    else if Filter.LocalDNSRecordEnabled.IsNull = false ∧
        device.LocalDNSRecordEnabled ≠ Filter.LocalDNSRecordEnabled.ValueBool then state
    else if Filter.UseFixedIP.IsNull = false ∧
        device.UseFixedIP ≠ Filter.UseFixedIP.ValueBool then state
    else appended
  | none => appended

/-- `clientDevicesDataSource.Read` (client_device_data_source.go lines 141 to
227). -/
def clientDevicesDataSource.Read (env : Env) (client : Client) (configDiags : List Diagnostic)
    (config : clientDevicesDataSourceModel) (w : World) :
    ResourceResponse clientDevicesDataSourceModel × World :=
  let d0 := Append [] configDiags
  if HasError d0 then ({ Diagnostics := d0 }, w)
  else
    match client.GetClientDevices env w with
    | ((_, some err), _, w1) =>
      ({ Diagnostics := AddError d0 "UDM API: Failed to Retrieve Client Device Devices"
          ("Failed to retrieve client devices from the UDM API:\n\t" ++ err.errorString) }, w1)
    | ((devices, none), _, w1) =>
      let state : clientDevicesDataSourceModel := { Devices := [], Filter := config.Filter }
      let state := devices.foldl (clientDevicesDataSource.loopBody config) state
      ({ Diagnostics := d0, State := some state }, w1)

/-! ## Vocabulary of the statements -/

/-- The request `Login` posts: the one built by `newRequest` for
`/api/auth/login`, carrying the credentials. -/
def Client.loginPost (c : Client) (username password : String) : Request :=
  { (c.newRequest "/api/auth/login").2.SetBody
      (.login { Username := username, Password := password }) with
    method := .POST, url := (c.newRequest "/api/auth/login").1 }

/-- The request `GetNetworkAppInfo` sends for the client `c`. -/
def Client.infoGet (env : Env) (c : Client) : Request :=
  { (c.newAuthenticatedRequest env "/proxy/network/v2/api/info").2.1 with
    method := .GET, url := (c.newAuthenticatedRequest env "/proxy/network/v2/api/info").1 }

/-- A login answer that is the rate-limit rejection: a status other than 200
whose body carries the error code `AUTHENTICATION_FAILED_LIMIT_REACHED` (the
error target holds that code afterwards, whatever it held before) and is not
decoded into the result target. -/
def RateLimited (resp : Response) : Prop :=
  resp.statusCode ≠ 200 ∧
    (∀ e, (resp.decodeInto .loginResponseError e).Code =
      "AUTHENTICATION_FAILED_LIMIT_REACHED") ∧
    ∀ s, resp.decodeInto .loginResponseSuccess s = s

/-- The events of `k` rejected attempts: each is the POST followed by a sleep
of 5 seconds. -/
def retryRounds (r : Request) : Nat → List Event
  | 0 => []
  | k + 1 => [Event.request r, Event.sleep 5] ++ retryRounds r k

/-- From exchange `n` on, the request `r` is answered `k` times with the
rate-limit rejection and then with `resp`. -/
def AnsweredAfterRetries (env : Env) (r : Request) (n k : Nat) (resp : Response) : Prop :=
  (∀ i, i < k → ∃ rej, env.server (n + i) r = .ok rej ∧ RateLimited rej) ∧
    env.server (n + k) r = .ok resp

/-- The number of POST requests among the events. -/
def postCount : List Event → Nat
  | [] => 0
  | Event.request r :: rest => (if r.method = .POST then 1 else 0) + postCount rest
  | Event.sleep _ :: rest => postCount rest

/-- The durations of the sleeps among the events, in order. -/
def sleeps : List Event → List Nat
  | [] => []
  | Event.request _ :: rest => sleeps rest
  | Event.sleep n :: rest => n :: sleeps rest

/-- The first cookie of the list with the given name (`none` when there is
none): the cookie at which the cookie loop of `Login` stops. -/
def firstCookie (name : String) (cookies : List Cookie) : Option Cookie :=
  cookies.find? (fun ck => ck.Name = name)

/-- The token does not decode: `ParseWithClaims` returns an error that is not
the "token unverifiable" error. -/
def DecodeFails (env : Env) (token : String) : Prop :=
  ∃ e, (env.ParseWithClaims token).1 = some e ∧ e.unverifiable = false

/-- The client once `Login` has stored the user profile and accepted the
session cookie with value `token`: the profile, the token, and the CSRF token
taken from the claims decoded from that token. -/
def Client.withSession (env : Env) (c : Client) (user : User) (token : String) : Client :=
  { c with authData :=
      { CSRFToken := (env.ParseWithClaims token).2.CsrfToken, JWT := token, User := user } }

/-- The last lines of `Login` (auth.go lines 124 to 129), given what
`GetNetworkAppInfo` returned and the client it left: the error is passed on,
or the metadata is stored and `nil` returned. -/
def storeInfo (g : (NetworkAppInfo × Option Error) × Client × World) :
    Option (Option Error) × Client × World :=
  match g with
  | ((_, some err), c, w2) => (some (some err), c, w2)
  | ((netInfo, none), c, w2) => (some none, { c with networkAppInfo := netInfo }, w2)

/-- The session tokens are consistent: both are empty, or the stored session
token decodes and the stored CSRF token is the `CsrfToken` claim decoded from
it. -/
def SessionConsistent (env : Env) (c : Client) : Prop :=
  (c.authData.JWT = "" ∧ c.authData.CSRFToken = "") ∨
    (¬ DecodeFails env c.authData.JWT ∧
      c.authData.CSRFToken = (env.ParseWithClaims c.authData.JWT).2.CsrfToken)

/-- Runs `Login` once per pair of credentials, in order, on the same client:
the results of the calls, the client and the world afterwards. -/
def runLogins (env : Env) (fuel : Nat) :
    List (String × String) → Client → World → List (Option (Option Error)) × Client × World
  | [], c, w => ([], c, w)
  | (username, password) :: rest, c, w =>
    match c.Login env fuel username password w with
    | (r, c1, w1) =>
      match runLogins env fuel rest c1 w1 with
      | (rs, c2, w2) => (r :: rs, c2, w2)

/-- A call of a resource operation, with its arguments. -/
inductive Call
  | GetNetworkAppInfo
  | CreateClientDevice (device : ClientDevice)
  | GetClientDevices
  | GetClientDevice (id : String)
  | CreateStaticDNSEntry (entry : StaticDNSEntry)
  | DeleteStaticDNSEntry (id : String)
  | GetStaticDNSEntries
  | GetStaticDNSEntry (id : String)
  | UpdateStaticDNSEntry (id : String) (entry : StaticDNSEntry)
  | CreateStaticDNSRecord (record : StaticDNSRecord)
  | DeleteStaticDNSRecord (id : String)
  | GetStaticDNSRecords
  | GetStaticDNSRecord (id : String)
  | UpdateStaticDNSRecord (id : String) (record : StaticDNSRecord)
deriving DecidableEq, Repr

/-- The authenticated request for `uri`, with the body set and executed with
method `m`. -/
def Client.authRequest (env : Env) (c : Client) (m : Method) (uri : String) (b : Body) :
    Request :=
  { (c.newAuthenticatedRequest env uri).2.1.SetBody b with
    method := m, url := (c.newAuthenticatedRequest env uri).1 }

/-- The request that each resource operation sends. -/
def Client.requestOf (env : Env) (c : Client) : Call → Request
  | .GetNetworkAppInfo => c.infoGet env
  | .CreateClientDevice device =>
    c.authRequest env .POST ("/proxy/network/api/s/" ++ c.site ++ "/rest/user") (.device device)
  | .GetClientDevices =>
    c.authRequest env .GET ("/proxy/network/api/s/" ++ c.site ++ "/rest/user") .none
  | .GetClientDevice _ =>
    c.authRequest env .GET ("/proxy/network/api/s/" ++ c.site ++ "/rest/user") .none
  | .CreateStaticDNSEntry entry =>
    c.authRequest env .POST ("/proxy/network/v2/api/site/" ++ c.site ++ "/static-dns")
      (.entry entry)
  | .DeleteStaticDNSEntry id =>
    c.authRequest env .DELETE ("/proxy/network/v2/api/site/" ++ c.site ++ "/static-dns/" ++ id)
      (.text "\x7b\x7d")
  | .GetStaticDNSEntries =>
    c.authRequest env .GET ("/proxy/network/v2/api/site/" ++ c.site ++ "/static-dns") .none
  | .GetStaticDNSEntry _ =>
    c.authRequest env .GET ("/proxy/network/v2/api/site/" ++ c.site ++ "/static-dns") .none
  | .UpdateStaticDNSEntry id entry =>
    c.authRequest env .PUT ("/proxy/network/v2/api/site/" ++ c.site ++ "/static-dns/" ++ id)
      (.entry entry)
  | .CreateStaticDNSRecord record =>
    c.authRequest env .POST ("/proxy/network/v2/api/site/" ++ c.site ++ "/static-dns")
      (.record record)
  | .DeleteStaticDNSRecord id =>
    c.authRequest env .DELETE ("/proxy/network/v2/api/site/" ++ c.site ++ "/static-dns/" ++ id)
      .none
  | .GetStaticDNSRecords =>
    c.authRequest env .GET ("/proxy/network/v2/api/site/" ++ c.site ++ "/static-dns") .none
  | .GetStaticDNSRecord _ =>
    c.authRequest env .GET ("/proxy/network/v2/api/site/" ++ c.site ++ "/static-dns") .none
  | .UpdateStaticDNSRecord id record =>
    c.authRequest env .PUT ("/proxy/network/v2/api/site/" ++ c.site ++ "/static-dns/" ++ id)
      (.record record)

/-- The world once one more request has been sent. -/
def World.afterRequest (w : World) (r : Request) : World :=
  { sent := w.sent + 1, trace := w.trace ++ [Event.request r] }

/-- The values a request carries for the header `k`, in order. -/
def Request.headerValues (req : Request) (k : String) : List String :=
  (req.header.filter (fun p => p.1 = k)).map (fun p => p.2)

/-- The client after a resource operation. -/
def Client.clientAfter (env : Env) (c : Client) (w : World) : Call → Client
  | .GetNetworkAppInfo => (c.GetNetworkAppInfo env w).2.1
  | .CreateClientDevice device => (c.CreateClientDevice env device w).2.1
  | .GetClientDevices => (c.GetClientDevices env w).2.1
  | .GetClientDevice id => (c.GetClientDevice env id w).2.1
  | .CreateStaticDNSEntry entry => (c.CreateStaticDNSEntry env entry w).2.1
  | .DeleteStaticDNSEntry id => (c.DeleteStaticDNSEntry env id w).2.1
  | .GetStaticDNSEntries => (c.GetStaticDNSEntries env w).2.1
  | .GetStaticDNSEntry id => (c.GetStaticDNSEntry env id w).2.1
  | .UpdateStaticDNSEntry id entry => (c.UpdateStaticDNSEntry env id entry w).2.1
  | .CreateStaticDNSRecord record => (c.CreateStaticDNSRecord env record w).2.1
  | .DeleteStaticDNSRecord id => (c.DeleteStaticDNSRecord env id w).2.1
  | .GetStaticDNSRecords => (c.GetStaticDNSRecords env w).2.1
  | .GetStaticDNSRecord id => (c.GetStaticDNSRecord env id w).2.1
  | .UpdateStaticDNSRecord id record => (c.UpdateStaticDNSRecord env id record w).2.1

/-- The world after a resource operation. -/
def Client.worldAfter (env : Env) (c : Client) (w : World) : Call → World
  | .GetNetworkAppInfo => (c.GetNetworkAppInfo env w).2.2
  | .CreateClientDevice device => (c.CreateClientDevice env device w).2.2
  | .GetClientDevices => (c.GetClientDevices env w).2.2
  | .GetClientDevice id => (c.GetClientDevice env id w).2.2
  | .CreateStaticDNSEntry entry => (c.CreateStaticDNSEntry env entry w).2.2
  | .DeleteStaticDNSEntry id => (c.DeleteStaticDNSEntry env id w).2.2
  | .GetStaticDNSEntries => (c.GetStaticDNSEntries env w).2.2
  | .GetStaticDNSEntry id => (c.GetStaticDNSEntry env id w).2.2
  | .UpdateStaticDNSEntry id entry => (c.UpdateStaticDNSEntry env id entry w).2.2
  | .CreateStaticDNSRecord record => (c.CreateStaticDNSRecord env record w).2.2
  | .DeleteStaticDNSRecord id => (c.DeleteStaticDNSRecord env id w).2.2
  | .GetStaticDNSRecords => (c.GetStaticDNSRecords env w).2.2
  | .GetStaticDNSRecord id => (c.GetStaticDNSRecord env id w).2.2
  | .UpdateStaticDNSRecord id record => (c.UpdateStaticDNSRecord env id record w).2.2

/-- A step of a caller of the package: a `Login`, or a resource operation. -/
inductive Step
  | Login (username password : String)
  | call (k : Call)
deriving DecidableEq, Repr

/-- Runs the steps in order on one client: each step is made on the client
the step before it left. -/
def runSteps (env : Env) (fuel : Nat) : List Step → Client → World → Client × World
  | [], c, w => (c, w)
  | .Login username password :: rest, c, w =>
    runSteps env fuel rest (c.Login env fuel username password w).2.1
      (c.Login env fuel username password w).2.2
  | .call k :: rest, c, w => runSteps env fuel rest (c.clientAfter env w k) (c.worldAfter env w k)

/-- The step is a resource operation, not a `Login`. -/
def Step.isCall : Step → Bool
  | .Login _ _ => false
  | .call _ => true

/-- The events of a list of resource operations made on the client `c`: one
request each, the one `c` builds for it. -/
def Client.requestsOf (env : Env) (c : Client) : List Step → List Event
  | [] => []
  | .Login _ _ :: rest => c.requestsOf env rest
  | .call k :: rest => Event.request (c.requestOf env k) :: c.requestsOf env rest

/-- The returned pair carries an error exactly when `P` holds, and whenever it
carries an error its value is `zero`. -/
def FailsExactlyWhen {α : Type} (P : Prop) (zero : α) (r : α × Option Error) : Prop :=
  (r.2 ≠ none ↔ P) ∧ (r.2 ≠ none → r.1 = zero)

/-- The record with the field values of an entry. `StaticDNSEntry` and
`StaticDNSRecord` declare the same fields with the same JSON tags
(network_static_dns.go lines 41 to 51, static_dns.go lines 46 to 56). -/
def StaticDNSEntry.toRecord (e : StaticDNSEntry) : StaticDNSRecord :=
  { ID := e.ID, Enabled := e.Enabled, Key := e.Key, Port := e.Port, Priority := e.Priority,
    RecordType := e.RecordType, TTL := e.TTL, Value := e.Value, Weight := e.Weight }

/-- The body as it goes over the wire: an entry and a record with the same
field values are sent as the same JSON object, since the two structs carry the
same tags; every other body is kept as it is. -/
def Body.wire : Body → Body
  | .entry e => .record e.toRecord
  | b => b

/-- The request as it goes over the wire. -/
def Request.wire (r : Request) : Request :=
  { r with body := r.body.wire }

/-- The diagnostic `Configure` adds for an empty hostname. -/
def missingHostname : Diagnostic :=
  { Severity := .Error, Path := some "hostname", Summary := "Missing UDM API Host",
    Detail :=
      "The provider cannot create the UDM API client as there is a missing or empty value for " ++
        "the UDM API hostname. Set the value statically in the configuration or use a variable in the " ++
        "configuration. If either is set already, ensure the value is not empty." }

/-- The diagnostic `Configure` adds for an empty password. -/
def missingPassword : Diagnostic :=
  { Severity := .Error, Path := some "password", Summary := "Missing UDM API Password",
    Detail :=
      "The provider cannot create the UDM API client as there is a missing or empty value for " ++
        "the UDM API password. Set the value statically in the configuration or use a variable in the " ++
        "configuration. If either is set already, ensure the value is not empty." }

/-- The diagnostic `Configure` adds for an empty username. -/
def missingUsername : Diagnostic :=
  { Severity := .Error, Path := some "username", Summary := "Missing UDM API Username",
    Detail :=
      "The provider cannot create the UDM API client as there is a missing or empty value for " ++
        "the UDM API username. Set the value statically in the configuration or use a variable in the " ++
        "configuration. If either is set already, ensure the value is not empty." }

/-- No one of hostname, password, site and username is unknown. -/
def udmProviderModel.AllKnown (config : udmProviderModel) : Prop :=
  config.Hostname.IsUnknown = false ∧ config.Password.IsUnknown = false ∧
    config.Site.IsUnknown = false ∧ config.Username.IsUnknown = false

/-- The integer is in the range of a signed 32-bit integer. -/
def InInt32 (x : Int) : Prop :=
  -2147483648 ≤ x ∧ x ≤ 2147483647

instance (x : Int) : Decidable (InInt32 x) := by
  unfold InInt32
  infer_instance

/-- The state holds, field for field, the values of the given record. -/
def staticDNSRecordResourceModel.EqualsRecord (st : staticDNSRecordResourceModel)
    (r : StaticDNSRecord) : Prop :=
  st.ID = .value r.ID ∧ st.Enabled = .value r.Enabled ∧ st.Key = .value r.Key ∧
    st.Port = .value r.Port ∧ st.Priority = .value r.Priority ∧
    st.RecordType = .value r.RecordType ∧ st.TTL = .value r.TTL ∧ st.Value = .value r.Value ∧
    st.Weight = .value r.Weight

/-- The record with its four numbers converted by `int32(...)`. -/
def StaticDNSRecord.narrowed (r : StaticDNSRecord) : StaticDNSRecord :=
  { r with Port := toInt32 r.Port, Priority := toInt32 r.Priority, TTL := toInt32 r.TTL,
           Weight := toInt32 r.Weight }

/-- The four numbers of the record are in the signed 32-bit range. -/
def StaticDNSRecord.Fits (r : StaticDNSRecord) : Prop :=
  InInt32 r.Port ∧ InInt32 r.Priority ∧ InInt32 r.TTL ∧ InInt32 r.Weight

/-- The state holds, field for field, the values of the given entry. -/
def staticDNSEntryResourceModel.EqualsEntry (st : staticDNSEntryResourceModel)
    (r : StaticDNSEntry) : Prop :=
  st.ID = .value r.ID ∧ st.Enabled = .value r.Enabled ∧ st.Key = .value r.Key ∧
    st.Port = .value r.Port ∧ st.Priority = .value r.Priority ∧
    st.RecordType = .value r.RecordType ∧ st.TTL = .value r.TTL ∧ st.Value = .value r.Value ∧
    st.Weight = .value r.Weight

/-- The entry with its four numbers converted by `int32(...)`. -/
def StaticDNSEntry.narrowed (r : StaticDNSEntry) : StaticDNSEntry :=
  { r with Port := toInt32 r.Port, Priority := toInt32 r.Priority, TTL := toInt32 r.TTL,
           Weight := toInt32 r.Weight }

/-- The four numbers of the entry are in the signed 32-bit range. -/
def StaticDNSEntry.Fits (r : StaticDNSEntry) : Prop :=
  InInt32 r.Port ∧ InInt32 r.Priority ∧ InInt32 r.TTL ∧ InInt32 r.Weight

/-- The state holds, field for field, the values of the given device. -/
def clientDeviceResourceModel.EqualsDevice (st : clientDeviceResourceModel) (d : ClientDevice) :
    Prop :=
  st.ID = .value d.ID ∧ st.HardwareAddress = .value d.HardwareAddress ∧
    st.FixedIP = .value d.FixedIP ∧ st.Name = .value d.Name ∧
    st.LocalDNSRecord = .value d.LocalDNSRecord ∧
    st.LocalDNSRecordEnabled = .value d.LocalDNSRecordEnabled ∧
    st.UseFixedIP = .value d.UseFixedIP

/-- The resource state that holds, field for field, the values of the given
record. -/
def StaticDNSRecord.AsRecordState (r : StaticDNSRecord) : staticDNSRecordResourceModel :=
  { ID := .value r.ID, Enabled := .value r.Enabled, Key := .value r.Key, Port := .value r.Port,
    Priority := .value r.Priority, RecordType := .value r.RecordType, TTL := .value r.TTL,
    Value := .value r.Value, Weight := .value r.Weight }

/-- The resource state that holds, field for field, the values of the given
entry. -/
def StaticDNSEntry.AsEntryState (r : StaticDNSEntry) : staticDNSEntryResourceModel :=
  { ID := .value r.ID, Enabled := .value r.Enabled, Key := .value r.Key, Port := .value r.Port,
    Priority := .value r.Priority, RecordType := .value r.RecordType, TTL := .value r.TTL,
    Value := .value r.Value, Weight := .value r.Weight }

/-- The resource state that holds, field for field, the values of the given
device. -/
def ClientDevice.AsDeviceState (d : ClientDevice) : clientDeviceResourceModel :=
  { ID := .value d.ID, HardwareAddress := .value d.HardwareAddress, FixedIP := .value d.FixedIP,
    Name := .value d.Name, LocalDNSRecord := .value d.LocalDNSRecord,
    LocalDNSRecordEnabled := .value d.LocalDNSRecordEnabled, UseFixedIP := .value d.UseFixedIP }

/-- The record equals the filter on every filter field that is not null. -/
def staticDNSFilterDataSourceModel.MatchesRecord (f : staticDNSFilterDataSourceModel)
    (r : StaticDNSRecord) : Prop :=
  (f.Enabled.IsNull = true ∨ r.Enabled = f.Enabled.ValueBool) ∧
    (f.ID.IsNull = true ∨ r.ID = f.ID.ValueString) ∧
    (f.Key.IsNull = true ∨ r.Key = f.Key.ValueString) ∧
    (f.RecordType.IsNull = true ∨ r.RecordType = f.RecordType.ValueString) ∧
    (f.Value.IsNull = true ∨ r.Value = f.Value.ValueString)

instance (f : staticDNSFilterDataSourceModel) (r : StaticDNSRecord) :
    Decidable (f.MatchesRecord r) := by
  unfold staticDNSFilterDataSourceModel.MatchesRecord
  infer_instance

/-- The entry equals the filter on every filter field that is not null. -/
def staticDNSFilterDataSourceModel.MatchesEntry (f : staticDNSFilterDataSourceModel)
    (r : StaticDNSEntry) : Prop :=
  (f.Enabled.IsNull = true ∨ r.Enabled = f.Enabled.ValueBool) ∧
    (f.ID.IsNull = true ∨ r.ID = f.ID.ValueString) ∧
    (f.Key.IsNull = true ∨ r.Key = f.Key.ValueString) ∧
    (f.RecordType.IsNull = true ∨ r.RecordType = f.RecordType.ValueString) ∧
    (f.Value.IsNull = true ∨ r.Value = f.Value.ValueString)

instance (f : staticDNSFilterDataSourceModel) (r : StaticDNSEntry) :
    Decidable (f.MatchesEntry r) := by
  unfold staticDNSFilterDataSourceModel.MatchesEntry
  infer_instance

/-- The device equals the filter on every filter field that is not null. -/
def clientDeviceFilterDataSourceModel.MatchesDevice (f : clientDeviceFilterDataSourceModel)
    (d : ClientDevice) : Prop :=
  (f.FixedIP.IsNull = true ∨ d.FixedIP = f.FixedIP.ValueString) ∧
    (f.HardwareAddress.IsNull = true ∨ d.HardwareAddress = f.HardwareAddress.ValueString) ∧
    (f.ID.IsNull = true ∨ d.ID = f.ID.ValueString) ∧
    (f.Name.IsNull = true ∨ d.Name = f.Name.ValueString) ∧
    (f.LocalDNSRecord.IsNull = true ∨ d.LocalDNSRecord = f.LocalDNSRecord.ValueString) ∧
    (f.LocalDNSRecordEnabled.IsNull = true ∨
      d.LocalDNSRecordEnabled = f.LocalDNSRecordEnabled.ValueBool) ∧
    (f.UseFixedIP.IsNull = true ∨ d.UseFixedIP = f.UseFixedIP.ValueBool)

instance (f : clientDeviceFilterDataSourceModel) (d : ClientDevice) :
    Decidable (f.MatchesDevice d) := by
  unfold clientDeviceFilterDataSourceModel.MatchesDevice
  infer_instance

/-- The fetched records a filter block keeps, in their order; all of them
when there is no filter block. -/
def keptRecords (Filter : Option staticDNSFilterDataSourceModel) (l : List StaticDNSRecord) :
    List StaticDNSRecord :=
  match Filter with
  | none => l
  | some f => l.filter (fun r => decide (f.MatchesRecord r))

/-- The fetched entries a filter block keeps, in their order; all of them
when there is no filter block. -/
def keptEntries (Filter : Option staticDNSFilterDataSourceModel) (l : List StaticDNSEntry) :
    List StaticDNSEntry :=
  match Filter with
  | none => l
  | some f => l.filter (fun r => decide (f.MatchesEntry r))

/-- The fetched devices a filter block keeps, in their order; all of them
when there is no filter block. -/
def keptDevices (Filter : Option clientDeviceFilterDataSourceModel) (l : List ClientDevice) :
    List ClientDevice :=
  match Filter with
  | none => l
  | some f => l.filter (fun d => decide (f.MatchesDevice d))

/-! ## Concrete servers, used to instantiate the statements -/

/-- A decoder for three sample tokens: one carrying a CSRF claim, one
carrying none, and anything else malformed. With a nil key function the
library reports a well-formed token as unverifiable. -/
def sampleParse (token : String) : Option JwtError × jwtClaims :=
  if token = "hdr.csrf.sig" then
    (some { unverifiable := true, text := "token is unverifiable: no keyfunc was provided" },
      { UserID := "u1", CsrfToken := "csrf-1" })
  else if token = "hdr.other.sig" then
    (some { unverifiable := true, text := "token is unverifiable: no keyfunc was provided" },
      { UserID := "u1", CsrfToken := "csrf-2" })
  else if token = "hdr.plain.sig" then
    (some { unverifiable := true, text := "token is unverifiable: no keyfunc was provided" },
      { UserID := "u1" })
  else
    (some { unverifiable := false, text := "token is malformed" }, {})

/-- The rate-limit rejection of the login endpoint. -/
def limitResponse : Response :=
  { statusCode := 429
    decodeInto := fun t =>
      match t with
      | .loginResponseError => fun _ =>
        { Code := "AUTHENTICATION_FAILED_LIMIT_REACHED", Message := "too many attempts" }
      | _ => fun v => v }

/-- A rejection of the credentials. -/
def deniedResponse : Response :=
  { statusCode := 401
    decodeInto := fun t =>
      match t with
      | .loginResponseError => fun _ =>
        { Code := "AUTHENTICATION_FAILED_INVALID_CREDENTIALS", Message := "invalid credentials" }
      | _ => fun v => v }

/-- A successful login answer that sets the cookie `TOKEN` to `token`. -/
def loginOk (token : String) : Response :=
  { statusCode := 200
    cookies := [{ Name := "lang", Value := "en" }, { Name := "TOKEN", Value := token }]
    decodeInto := fun t =>
      match t with
      | .loginResponseSuccess => fun _ => { User := { ID := "u1", Username := "admin" } }
      | _ => fun v => v }

/-- A login answer with status 200 that sets no session cookie. -/
def loginOkNoCookie : Response :=
  { statusCode := 200
    cookies := [{ Name := "lang", Value := "en" }]
    decodeInto := fun t =>
      match t with
      | .loginResponseSuccess => fun _ => { User := { ID := "u2", Username := "guest" } }
      | _ => fun v => v }

/-- A successful answer of the metadata endpoint. -/
def infoOk : Response :=
  { statusCode := 200
    decodeInto := fun t =>
      match t with
      | .getNetworkAppInfoResponseSuccess => fun _ =>
        { NetworkAppInfo := { System := { Name := "udm", Version := "8.0.7" } } }
      | _ => fun v => v }

/-- A failing answer of the metadata endpoint. -/
def infoDown : Response :=
  { statusCode := 503 }

/-- A server that gives the listed answers, one per exchange, and refuses
the connection afterwards. -/
def scripted (answers : List (Except String Response)) (n : Nat) (_r : Request) :
    Except String Response :=
  (answers.get? n).getD (.error "connection refused")

/-- The sample environment around a given server. -/
def sampleEnv (server : Nat → Request → Except String Response) : Env :=
  { JWTCookieName := "TOKEN", ParseWithClaims := sampleParse, server := server }

/-- A server that answers every request with the rate-limit rejection. -/
def limitedEnv : Env :=
  sampleEnv (fun _ _ => .ok limitResponse)

/-- A freshly built client. -/
def freshClient : Client :=
  NewClient "udm.example" "default" false

/-- Five rate-limit rejections, then a successful login and a successful
metadata fetch. -/
def sixthAttemptEnv : Env :=
  sampleEnv (scripted [.ok limitResponse, .ok limitResponse, .ok limitResponse,
    .ok limitResponse, .ok limitResponse, .ok (loginOk "hdr.csrf.sig"), .ok infoOk])

/-- One rate-limit rejection, then a rejection of the credentials. -/
def deniedEnv : Env :=
  sampleEnv (scripted [.ok limitResponse, .ok deniedResponse])

/-- The answer of a proxy in front of the controller: status 502 and an HTML
body, which the HTTP client decodes into no target. -/
def badGateway : Response :=
  { statusCode := 502
    header := [("Content-Type", ["text/html"])]
    body := "<html><body>502 Bad Gateway</body></html>" }

/-- One rate-limit rejection, then the answer of the proxy, then a successful
login and a successful metadata fetch. -/
def staleCodeEnv : Env :=
  sampleEnv (scripted [.ok limitResponse, .ok badGateway, .ok (loginOk "hdr.csrf.sig"),
    .ok infoOk])

/-- A server that cannot be reached. -/
def unreachableEnv : Env :=
  sampleEnv (scripted [])

/-- A server whose answer the HTTP client cannot decode: a body with status
200 that is not the JSON value the result target expects. -/
def undecodableEnv : Env :=
  sampleEnv (scripted [.error "json: cannot unmarshal string into Go value"])

/-- A first login that succeeds with a session cookie, and a second login
answered with status 200 and no session cookie. -/
def secondLoginNoCookieEnv : Env :=
  sampleEnv (scripted [.ok (loginOk "hdr.csrf.sig"), .ok infoOk, .ok loginOkNoCookie, .ok infoOk])

/-- A login answered with status 200 and the session cookie `token`, and a
successful metadata fetch. -/
def cookieEnv (token : String) : Env :=
  sampleEnv (scripted [.ok (loginOk token), .ok infoOk])

/-- A successful login, then a login answered with status 200 and a
malformed session cookie. -/
def thenMalformedEnv : Env :=
  sampleEnv (scripted [.ok (loginOk "hdr.csrf.sig"), .ok infoOk, .ok (loginOk "garbage")])

/-- A successful login, then a second successful login with another token. -/
def twoLoginsEnv : Env :=
  sampleEnv (scripted [.ok (loginOk "hdr.csrf.sig"), .ok infoOk, .ok (loginOk "hdr.other.sig"),
    .ok infoOk])

/-- A login answered with status 200 and a session cookie, then a metadata
fetch answered with status 503. -/
def infoDownEnv : Env :=
  sampleEnv (scripted [.ok (loginOk "hdr.csrf.sig"), .ok infoDown])

/-- A device list answered with status 200. -/
def devicesOk (devices : List ClientDevice) : Response :=
  { statusCode := 200
    decodeInto := fun t =>
      match t with
      | .getClientDevicesResponseSuccess => fun _ => { Meta := { RC := "ok" }, Data := devices }
      | .createClientDeviceResponseSuccess => fun _ => { Meta := { RC := "ok" }, Data := devices }
      | _ => fun v => v }

/-- A failure answer of the controller: status `status`, and the message in
every error envelope. -/
def failure (status : Nat) (message : String) : Response :=
  { statusCode := status
    decodeInto := fun t =>
      match t with
      | .createClientDeviceResponseError => fun _ => { Meta := { RC := "error", Message := message } }
      | .getClientDevicesResponseError => fun _ => { Meta := { RC := "error", Message := message } }
      | .createStaticDNSEntriesResponseError => fun _ => { Code := "api.err", Message := message }
      | .deleteStaticDNSEntriesResponseError => fun _ => { Code := "api.err", Message := message }
      | .updateStaticDNSEntriesResponseError => fun _ => { Code := "api.err", Message := message }
      | .createStaticDNSRecordsResponseError => fun _ => { Code := "api.err", Message := message }
      | .deleteStaticDNSRecordsResponseError => fun _ => { Code := "api.err", Message := message }
      | .getStaticDNSRecordsResponseError => fun _ => { Code := "api.err", Message := message }
      | .updateStaticDNSRecordsResponseError => fun _ => { Code := "api.err", Message := message }
      | _ => fun v => v }

/-- A static DNS answer with status 200: `one` for the single-entity
operations, `all` for the list operations, for both families. -/
def dnsOk (one : StaticDNSRecord) (all : List StaticDNSRecord) : Response :=
  { statusCode := 200
    decodeInto := fun t =>
      match t with
      | .createStaticDNSRecordsResponseSuccess => fun _ => one
      | .updateStaticDNSRecordsResponseSuccess => fun _ => one
      | .getStaticDNSRecordsResponseSuccess => fun _ => all
      | .createStaticDNSEntriesResponseSuccess => fun _ =>
        { ID := one.ID, Enabled := one.Enabled, Key := one.Key, Port := one.Port,
          Priority := one.Priority, RecordType := one.RecordType, TTL := one.TTL,
          Value := one.Value, Weight := one.Weight }
      | .updateStaticDNSEntriesResponseSuccess => fun _ =>
        { ID := one.ID, Enabled := one.Enabled, Key := one.Key, Port := one.Port,
          Priority := one.Priority, RecordType := one.RecordType, TTL := one.TTL,
          Value := one.Value, Weight := one.Weight }
      | .getStaticDNSEntriesResponseSuccess => fun _ =>
        all.map (fun r =>
          { ID := r.ID, Enabled := r.Enabled, Key := r.Key, Port := r.Port,
            Priority := r.Priority, RecordType := r.RecordType, TTL := r.TTL,
            Value := r.Value, Weight := r.Weight })
      | _ => fun v => v }

/-- A client holding a session. -/
def sessionClient : Client :=
  { authData := { CSRFToken := "csrf-1", JWT := "hdr.csrf.sig", User := { Username := "admin" } }
    hostname := "udm.example"
    site := "default" }

/-- Three devices with distinct identifiers. -/
def threeDevices : List ClientDevice :=
  [{ ID := "d1", HardwareAddress := "aa:aa:aa:aa:aa:01" },
   { ID := "d2", HardwareAddress := "aa:aa:aa:aa:aa:02" },
   { ID := "d3", HardwareAddress := "aa:aa:aa:aa:aa:03", Name := "printer" }]

/-- A sample record as the server stores it. -/
def hostRecord : StaticDNSRecord :=
  { ID := "r7", Enabled := true, Key := "host1", RecordType := "A", TTL := 300, Value := "10.0.0.5" }

/-- A device list, then a failure, then a transport error. -/
def mixedEnv : Env :=
  sampleEnv (scripted [.ok (devicesOk threeDevices), .ok (failure 404 "not found"),
    .error "timeout"])

/-- A server that answers the device list. -/
def devicesEnv : Env :=
  sampleEnv (scripted [.ok (devicesOk threeDevices)])

/-- A create answered with status 201 and the created record. -/
def createdResponse : Response :=
  { dnsOk hostRecord [] with statusCode := 201 }

/-- A server that answers with status 201. -/
def createdEnv : Env :=
  sampleEnv (scripted [.ok createdResponse])

/-- A server that answers with status 500 and an error message. -/
def failingEnv : Env :=
  sampleEnv (scripted [.ok (failure 500 "database unavailable")])

/-- A server that answers a create or update with `hostRecord`. -/
def recordEnv : Env :=
  sampleEnv (scripted [.ok (dnsOk hostRecord [hostRecord])])

/-- A server that answers with status 200 and an envelope whose data list is
empty. -/
def emptyDataEnv : Env :=
  sampleEnv (scripted [.ok (devicesOk [])])

/-- A create answered with `hostRecord`, then a list that holds it in second
place. -/
def roundTripEnv : Env :=
  sampleEnv (scripted [.ok (dnsOk hostRecord []),
    .ok (dnsOk hostRecord [{ ID := "r1", Key := "other", RecordType := "A", Value := "10.0.0.1" },
      hostRecord])])

/-- A server that answers every request with the same response. -/
def constantEnv (resp : Response) : Env :=
  sampleEnv (fun _ _ => .ok resp)

/-- A complete provider configuration without a site. -/
def sampleConfig : udmProviderModel :=
  { Hostname := .value "udm.example", Password := .value "secret", Username := .value "admin" }

/-- A configuration with an empty hostname and an unknown password. -/
def mixedConfig : udmProviderModel :=
  { Hostname := .value "", Password := .unknown, Username := .value "admin" }

/-- A configuration with an empty hostname and no password. -/
def incompleteConfig : udmProviderModel :=
  { Hostname := .value "", Password := .null, Username := .value "admin" }

/-- The record `hostRecord` with a time to live of 2^31 seconds. -/
def wideRecord : StaticDNSRecord :=
  { hostRecord with TTL := 2147483648 }

/-- A server that answers a create or update with `wideRecord`. -/
def wideEnv : Env :=
  sampleEnv (scripted [.ok (dnsOk wideRecord [wideRecord])])

/-- A plan for the record `host1`. -/
def hostPlan : staticDNSRecordResourceModel :=
  { Enabled := .value true, Key := .value "host1", RecordType := .value "A", TTL := .value 300,
    Value := .value "10.0.0.5" }

/-- A server that answers the record list with another record and then
`hostRecord`. -/
def twoRecordsEnv : Env :=
  sampleEnv (scripted [.ok (dnsOk hostRecord
    [{ ID := "r1", Key := "other", RecordType := "A", Value := "10.0.0.1" }, hostRecord])])

/-- A state that holds the identifier of `hostRecord` and an outdated value. -/
def staleState : staticDNSRecordResourceModel :=
  { ID := .value "r7", Enabled := .value true, Key := .value "host1", RecordType := .value "A",
    TTL := .value 60, Value := .value "10.0.0.4" }

/-- An entry state that holds the identifier of `hostRecord` and an outdated
value. -/
def staleEntryState : staticDNSEntryResourceModel :=
  { ID := .value "r7", Enabled := .value true, Key := .value "host1", RecordType := .value "A",
    TTL := .value 60, Value := .value "10.0.0.4" }

/-- A device state that holds the identifier of the third of `threeDevices`
and nothing else. -/
def printerState : clientDeviceResourceModel :=
  { ID := .value "d3" }

/-- A data-source configuration whose filter block asks for the name
"printer". -/
def printerFilter : clientDevicesDataSourceModel :=
  { Filter := some { Name := .value "printer" } }

/-- A data-source configuration whose filter block asks for the key
"host1". -/
def hostFilter : staticDNSRecordsDataSourceModel :=
  { Filter := some { Key := .value "host1" } }

/-- A filter block that asks for the empty name. -/
def unnamedFilter : clientDeviceFilterDataSourceModel :=
  { Name := .value "" }

/-! ## The request loop of `Login` -/

theorem loginLoop_retry (env : Env) (c : Client) (url : String) (req : Request)
    (k fuel : Nat) (s : loginResponseSuccess) (e : loginResponseError) (w : World)
    (h : ∀ i, i < k → ∃ rej,
      env.server (w.sent + i) { req with method := .POST, url := url } = .ok rej ∧
        RateLimited rej) :
    ∃ e1, loginLoop env c url req 1 (k + fuel) s e w =
      loginLoop env c url req 1 fuel s e1
        { sent := w.sent + k
          trace := w.trace ++ retryRounds { req with method := .POST, url := url } k } := by
  induction k generalizing w e with
  | zero => exact ⟨e, by simp [retryRounds]⟩
  | succ k ih =>
    obtain ⟨rej, hrej, hst, hcode, hres⟩ := h 0 (Nat.succ_pos k)
    have hstep : loginLoop env c url req 1 (k + 1 + fuel) s e w =
        loginLoop env c url req 1 (k + fuel) s (rej.decodeInto .loginResponseError e)
          (sleep 5 { sent := w.sent + 1
                     trace := w.trace ++ [Event.request { req with method := .POST, url := url }] }) := by
      rw [show k + 1 + fuel = (k + fuel) + 1 by omega]
      simp only [Nat.add_zero] at hrej
      simp [loginLoop, execute, hrej, Client.logResponse, hst, hcode e, hres s]
    obtain ⟨e1, h1⟩ := ih (rej.decodeInto .loginResponseError e)
      (sleep 5 { sent := w.sent + 1
                 trace := w.trace ++ [Event.request { req with method := .POST, url := url }] })
      (by
        intro i hi
        obtain ⟨r, hr, hrl⟩ := h (i + 1) (Nat.succ_lt_succ hi)
        refine ⟨r, ?_, hrl⟩
        simpa [sleep, Nat.add_assoc, Nat.add_comm 1 i] using hr)
    refine ⟨e1, ?_⟩
    rw [hstep, h1]
    simp [sleep, retryRounds, Nat.add_assoc, Nat.add_comm 1 k]

theorem loginLoop_running (env : Env) (c : Client) (url : String) (req : Request)
    (fuel : Nat) (s : loginResponseSuccess) (e : loginResponseError) (w : World)
    (h : ∀ i, i < fuel → ∃ rej,
      env.server (w.sent + i) { req with method := .POST, url := url } = .ok rej ∧
        RateLimited rej) :
    loginLoop env c url req 1 fuel s e w =
      (.running,
        { sent := w.sent + fuel
          trace := w.trace ++ retryRounds { req with method := .POST, url := url } fuel }) := by
  obtain ⟨e1, h1⟩ := loginLoop_retry env c url req fuel 0 s e w h
  simpa [loginLoop] using h1

theorem loginLoop_broke (env : Env) (c : Client) (url : String) (req : Request)
    (k fuel : Nat) (w : World) (resp : Response)
    (h : AnsweredAfterRetries env { req with method := .POST, url := url } w.sent k resp)
    (hok : resp.statusCode = 200) (hfuel : k < fuel) :
    loginLoop env c url req 1 fuel {} {} w =
      (.broke resp (resp.decoded .loginResponseSuccess),
        { sent := w.sent + k + 1
          trace := w.trace ++ (retryRounds { req with method := .POST, url := url } k ++
            [Event.request { req with method := .POST, url := url }]) }) := by
  obtain ⟨m, rfl⟩ : ∃ m, fuel = k + (m + 1) := ⟨fuel - k - 1, by omega⟩
  obtain ⟨e1, h1⟩ := loginLoop_retry env c url req k (m + 1) {} {} w h.1
  rw [h1]
  simp [loginLoop, execute, h.2, Client.logResponse, hok, Response.decoded, Target.zero]

theorem loginLoop_rejected (env : Env) (c : Client) (url : String) (req : Request)
    (k fuel : Nat) (w : World) (resp : Response)
    (h : AnsweredAfterRetries env { req with method := .POST, url := url } w.sent k resp)
    (hst : resp.statusCode ≠ 200)
    (hbody : ∀ e, resp.decodeInto .loginResponseError e = resp.decoded .loginResponseError)
    (hcode : (resp.decoded .loginResponseError).Code ≠ "AUTHENTICATION_FAILED_LIMIT_REACHED")
    (hfuel : k < fuel) :
    loginLoop env c url req 1 fuel {} {} w =
      (.returned (.msg ("authentication failed: " ++ (resp.decoded .loginResponseError).Message)),
        { sent := w.sent + k + 1
          trace := w.trace ++ (retryRounds { req with method := .POST, url := url } k ++
            [Event.request { req with method := .POST, url := url }]) }) := by
  obtain ⟨m, rfl⟩ : ∃ m, fuel = k + (m + 1) := ⟨fuel - k - 1, by omega⟩
  obtain ⟨e1, h1⟩ := loginLoop_retry env c url req k (m + 1) {} {} w h.1
  rw [h1]
  simp [loginLoop, execute, h.2, Client.logResponse, hst, hbody e1, hcode]

theorem loginLoop_transport (env : Env) (c : Client) (url : String) (req : Request)
    (k fuel : Nat) (w : World) (e : String)
    (h : ∀ i, i < k → ∃ rej,
      env.server (w.sent + i) { req with method := .POST, url := url } = .ok rej ∧
        RateLimited rej)
    (herr : env.server (w.sent + k) { req with method := .POST, url := url } = .error e)
    (hfuel : k < fuel) :
    loginLoop env c url req 1 fuel {} {} w =
      (.returned (.transport e),
        { sent := w.sent + k + 1
          trace := w.trace ++ (retryRounds { req with method := .POST, url := url } k ++
            [Event.request { req with method := .POST, url := url }]) }) := by
  obtain ⟨m, rfl⟩ : ∃ m, fuel = k + (m + 1) := ⟨fuel - k - 1, by omega⟩
  obtain ⟨e1, h1⟩ := loginLoop_retry env c url req k (m + 1) {} {} w h
  rw [h1]
  simp [loginLoop, execute, herr]

theorem postCount_append (xs ys : List Event) :
    postCount (xs ++ ys) = postCount xs + postCount ys := by
  induction xs with
  | nil => simp [postCount]
  | cons x xs ih =>
    cases x with
    | request r => simp [postCount, ih, Nat.add_assoc]
    | sleep n => simp [postCount, ih]

theorem postCount_retryRounds (r : Request) (hr : r.method = .POST) (k : Nat) :
    postCount (retryRounds r k) = k := by
  induction k with
  | zero => rfl
  | succ k ih => simp [retryRounds, postCount, hr, ih, Nat.add_comm]

theorem sleeps_append (xs ys : List Event) : sleeps (xs ++ ys) = sleeps xs ++ sleeps ys := by
  induction xs with
  | nil => simp [sleeps]
  | cons x xs ih =>
    cases x with
    | request r => simp [sleeps, ih]
    | sleep n => simp [sleeps, ih]

theorem sleeps_retryRounds (r : Request) (k : Nat) :
    sleeps (retryRounds r k) = List.replicate k 5 := by
  induction k with
  | zero => rfl
  | succ k ih => simp [retryRounds, sleeps, ih, List.replicate_succ]

/-! ## The cookie loop of `Login` -/

theorem scanCookies_eq (env : Env) (c : Client) (cookies : List Cookie) :
    scanCookies env c cookies =
      match firstCookie env.JWTCookieName cookies with
      | none => (c, none)
      | some ck =>
        match (env.ParseWithClaims ck.Value).1 with
        | some e =>
          if e.unverifiable = false then
            ({ c with authData := { c.authData with JWT := ck.Value } }, some (.jwt e))
          else
            ({ c with authData := { c.authData with
                JWT := ck.Value, CSRFToken := (env.ParseWithClaims ck.Value).2.CsrfToken } }, none)
        | none =>
          ({ c with authData := { c.authData with
              JWT := ck.Value, CSRFToken := (env.ParseWithClaims ck.Value).2.CsrfToken } }, none) := by
  induction cookies with
  | nil => simp [scanCookies, firstCookie]
  | cons ck rest ih =>
    by_cases hname : ck.Name = env.JWTCookieName
    · simp only [scanCookies, firstCookie, hname, List.find?_cons, if_true, decide_True]
      cases hp : (env.ParseWithClaims ck.Value).1 with
      | none => simp
      | some e => cases hu : e.unverifiable <;> simp [hu]
    · simp only [firstCookie] at ih
      simp [scanCookies, firstCookie, hname, List.find?_cons, ih]

/-! ## `Login` as a whole -/

theorem Login_eq (env : Env) (fuel : Nat) (c : Client) (username password : String) (w : World) :
    c.Login env fuel username password w =
      match loginLoop env c (c.newRequest "/api/auth/login").1
          ((c.newRequest "/api/auth/login").2.SetBody
            (.login { Username := username, Password := password })) 1 fuel {} {} w with
      | (.running, w1) => (none, c, w1)
      | (.returned err, w1) => (some (some err), c, w1)
      | (.broke resp apiResponseSuccess, w1) =>
        match scanCookies env
            { c with authData := { c.authData with User := apiResponseSuccess.User } }
            resp.cookies with
        | (c2, some err) => (some (some err), c2, w1)
        | (c2, none) =>
          if c2.authData.JWT = "" then
            (some (some (.msg "no JWT was returned by the server")), c2, w1)
          else
            match c2.GetNetworkAppInfo env w1 with
            | ((_, some err), c2, w2) => (some (some err), c2, w2)
            | ((netInfo, none), c2, w2) =>
              (some none, { c2 with networkAppInfo := netInfo }, w2) :=
  rfl

@[simp] theorem newAuthenticatedRequest_client (env : Env) (c : Client) (uri : String) :
    (c.newAuthenticatedRequest env uri).2.2 = c :=
  rfl

theorem GetNetworkAppInfo_eq (env : Env) (c : Client) (w : World) :
    c.GetNetworkAppInfo env w =
      match env.server w.sent (c.infoGet env) with
      | .error err =>
        (({}, some (.transport err)), c,
          { sent := w.sent + 1, trace := w.trace ++ [Event.request (c.infoGet env)] })
      | .ok resp =>
        if resp.statusCode ≠ 200 then
          (({}, some (.msg "failed to retrieve network info")), c,
            { sent := w.sent + 1, trace := w.trace ++ [Event.request (c.infoGet env)] })
        else
          (((resp.decoded .getNetworkAppInfoResponseSuccess).NetworkAppInfo, none), c,
            { sent := w.sent + 1, trace := w.trace ++ [Event.request (c.infoGet env)] }) := by
  have hreq : env.server w.sent
      { (c.newAuthenticatedRequest env "/proxy/network/v2/api/info").2.1 with
        method := .GET, url := (c.newAuthenticatedRequest env "/proxy/network/v2/api/info").1 } =
      env.server w.sent (c.infoGet env) := rfl
  cases h : env.server w.sent (c.infoGet env) with
  | error err =>
    rw [h] at hreq
    simp [Client.GetNetworkAppInfo, execute, hreq, Client.infoGet]
  | ok resp =>
    rw [h] at hreq
    by_cases hst : resp.statusCode = 200 <;>
      simp [Client.GetNetworkAppInfo, execute, hreq, Client.infoGet, Client.logResponse, hst]

/-! ## Retry behaviour of `Login` -/

/-- C1, at the failing input. Against a server that answers every login POST
with the rate-limit rejection, `Login` has not returned after any number of
loop iterations, and after `fuel` iterations it has issued `fuel` POSTs: the
sixth rejection is followed by a seventh attempt, and no error is ever
returned. -/
theorem login_rate_limited_never_returns (fuel : Nat) :
    (freshClient.Login limitedEnv fuel "admin" "secret" {}).1 = none ∧
      postCount (freshClient.Login limitedEnv fuel "admin" "secret" {}).2.2.trace = fuel := by
  have hl := loginLoop_running limitedEnv freshClient
    (freshClient.newRequest "/api/auth/login").1
    ((freshClient.newRequest "/api/auth/login").2.SetBody
      (.login { Username := "admin", Password := "secret" })) fuel {} {} {}
    (fun _ _ => ⟨limitResponse, rfl, by decide, fun _ => rfl, fun _ => rfl⟩)
  rw [Login_eq, hl]
  exact ⟨rfl, by simpa using postCount_retryRounds _ rfl fuel⟩

/-- C2. If the login POST is answered with the rate-limit rejection on
attempts 1 to 5 and with status 200 and a decodable, non-empty session cookie
on attempt 6, and the metadata fetch that follows is answered with status
200, then `Login` (given room for 6 iterations) returns no error; it has then
sent exactly the 6 POSTs and the metadata request, and slept exactly 5 times,
5 seconds each. -/
theorem login_succeeds_on_sixth_attempt (env : Env) (c : Client) (username password : String)
    (w : World) (fuel : Nat) (resp info : Response) (ck : Cookie)
    (hpost : AnsweredAfterRetries env (c.loginPost username password) w.sent 5 resp)
    (hok : resp.statusCode = 200)
    (hck : firstCookie env.JWTCookieName resp.cookies = some ck)
    (hval : ck.Value ≠ "")
    (hdec : ¬ DecodeFails env ck.Value)
    (hinfo : env.server (w.sent + 6)
      ((c.withSession env (resp.decoded .loginResponseSuccess).User ck.Value).infoGet env) =
        .ok info)
    (hinfo200 : info.statusCode = 200)
    (hfuel : 6 ≤ fuel) :
    c.Login env fuel username password w =
      (some none,
        { c.withSession env (resp.decoded .loginResponseSuccess).User ck.Value with
          networkAppInfo := (info.decoded .getNetworkAppInfoResponseSuccess).NetworkAppInfo },
        { sent := w.sent + 7
          trace := w.trace ++ (retryRounds (c.loginPost username password) 5 ++
            [Event.request (c.loginPost username password),
             Event.request
              ((c.withSession env (resp.decoded .loginResponseSuccess).User ck.Value).infoGet
                env)]) }) ∧
      postCount (retryRounds (c.loginPost username password) 5 ++
          [Event.request (c.loginPost username password),
           Event.request
            ((c.withSession env (resp.decoded .loginResponseSuccess).User ck.Value).infoGet
              env)]) = 6 ∧
      sleeps (retryRounds (c.loginPost username password) 5 ++
          [Event.request (c.loginPost username password),
           Event.request
            ((c.withSession env (resp.decoded .loginResponseSuccess).User ck.Value).infoGet
              env)]) = [5, 5, 5, 5, 5] := by
  have hl := loginLoop_broke env c (c.newRequest "/api/auth/login").1
    ((c.newRequest "/api/auth/login").2.SetBody
      (.login { Username := username, Password := password })) 5 fuel w resp hpost hok
    (by omega)
  have hfatal : ∀ e, (env.ParseWithClaims ck.Value).1 = some e → e.unverifiable = true := by
    intro e he
    cases hu : e.unverifiable with
    | true => rfl
    | false => exact absurd ⟨e, he, hu⟩ hdec
  refine ⟨?_, ?_, ?_⟩
  · rw [Login_eq, hl]
    simp only [scanCookies_eq, hck]
    cases hp : (env.ParseWithClaims ck.Value).1 with
    | none =>
      simp [hval, GetNetworkAppInfo_eq, Client.withSession, hinfo, hinfo200, Client.loginPost] at hinfo ⊢
    | some e =>
      simp [hfatal e hp, hval, GetNetworkAppInfo_eq, Client.withSession, hinfo200,
        Client.loginPost] at hinfo ⊢
      simp [hinfo, hinfo200]
  · have hm : (c.loginPost username password).method = .POST := rfl
    have hg : ((c.withSession env (resp.decoded .loginResponseSuccess).User ck.Value).infoGet
        env).method = .GET := rfl
    rw [postCount_append, postCount_retryRounds _ hm]
    simp [postCount, hm, hg]
  · simp [sleeps_append, sleeps_retryRounds, sleeps, List.replicate]

/-- Witness of C2: five rejections, then success. -/
theorem login_succeeds_on_sixth_attempt_witness :
    (freshClient.Login sixthAttemptEnv 6 "admin" "secret" {}).1 = some none ∧
      postCount (freshClient.Login sixthAttemptEnv 6 "admin" "secret" {}).2.2.trace = 6 ∧
      sleeps (freshClient.Login sixthAttemptEnv 6 "admin" "secret" {}).2.2.trace =
        [5, 5, 5, 5, 5] := by
  have h := login_succeeds_on_sixth_attempt sixthAttemptEnv freshClient "admin" "secret" {} 6
    (loginOk "hdr.csrf.sig") infoOk { Name := "TOKEN", Value := "hdr.csrf.sig" }
    ⟨fun i hi => by
        interval_cases i <;>
          exact ⟨limitResponse, rfl, by decide, fun _ => rfl, fun _ => rfl⟩, rfl⟩
    rfl (by decide) (by decide)
    (by rintro ⟨e, he, hu⟩; simp [sampleEnv, sixthAttemptEnv, sampleParse] at he; subst he; simp at hu)
    rfl rfl (Nat.le_refl 6)
  rw [h.1]
  exact ⟨rfl, by simpa using h.2.1, by simpa using h.2.2⟩

theorem Login_rejected (env : Env) (c : Client)
    (username password : String) (w : World) (k fuel : Nat) (resp : Response)
    (hpost : AnsweredAfterRetries env (c.loginPost username password) w.sent k resp)
    (hst : resp.statusCode ≠ 200)
    (hbody : ∀ e, resp.decodeInto .loginResponseError e = resp.decoded .loginResponseError)
    (hcode : (resp.decoded .loginResponseError).Code ≠ "AUTHENTICATION_FAILED_LIMIT_REACHED")
    (hfuel : k < fuel) :
    c.Login env fuel username password w =
      (some (some (.msg ("authentication failed: " ++ (resp.decoded .loginResponseError).Message))),
        c,
        { sent := w.sent + k + 1
          trace := w.trace ++ (retryRounds (c.loginPost username password) k ++
            [Event.request (c.loginPost username password)]) }) := by
  have hl := loginLoop_rejected env c (c.newRequest "/api/auth/login").1
    ((c.newRequest "/api/auth/login").2.SetBody
      (.login { Username := username, Password := password })) k fuel w resp hpost hst hbody
    hcode hfuel
  rw [Login_eq, hl]
  rfl

/-- C3, at the failing input. The first login POST is answered with the
rate-limit rejection; the second is answered with status 502 and an HTML body,
which carries no error code and is decoded into no target, so that
`apiResponseError` still holds the code of the first answer. `Login` does not
return after the second attempt: it sleeps 5 seconds and posts a third time,
and when that third POST succeeds it returns no error at all. The claim
requires the error "authentication failed: ..." right after the second
attempt, with no further POST and no wait; that is what happens when the
second answer carries an error code of its own (last part). -/
theorem login_retries_after_uncoded_rejection :
    staleCodeEnv.server 1 (freshClient.loginPost "admin" "secret") = .ok badGateway ∧
      badGateway.statusCode = 502 ∧
      (badGateway.decoded .loginResponseError).Code = "" ∧
      freshClient.Login staleCodeEnv 2 "admin" "secret" {} =
        (none, freshClient,
          { sent := 2
            trace := [Event.request (freshClient.loginPost "admin" "secret"), Event.sleep 5,
              Event.request (freshClient.loginPost "admin" "secret"), Event.sleep 5] }) ∧
      (freshClient.Login staleCodeEnv 3 "admin" "secret" {}).1 = some none ∧
      postCount (freshClient.Login staleCodeEnv 3 "admin" "secret" {}).2.2.trace = 3 ∧
      sleeps (freshClient.Login staleCodeEnv 3 "admin" "secret" {}).2.2.trace = [5, 5] ∧
      freshClient.Login deniedEnv 3 "admin" "wrong" {} =
        (some (some (.msg "authentication failed: invalid credentials")), freshClient,
          { sent := 2
            trace := [Event.request (freshClient.loginPost "admin" "wrong"), Event.sleep 5,
              Event.request (freshClient.loginPost "admin" "wrong")] }) := by
  refine ⟨rfl, rfl, rfl, by decide, by decide, by decide, by decide, by decide⟩

/-! ## Transport errors -/

/-- C4. If exchange number `n` fails at the transport level with error `e`,
then the call that makes this exchange returns exactly `e`, with the zero
value as its result, and the failed request is its last event (no retry, no
sleep after it). This holds for `Login` when a login POST fails (on the first
attempt or after rate-limit rejections) and when its metadata fetch fails,
for `GetNetworkAppInfo`, and for Create, Get-all, Get-one, Update and Delete
of client devices, static DNS entries and static DNS records. -/
theorem transport_error_returned_at_once (env : Env) (n : Nat) (e : String)
    (herr : ∀ r, env.server n r = .error e) :
    (∀ (c : Client) (username password : String) (w : World) (k fuel : Nat),
      w.sent + k = n → k < fuel →
      (∀ i, i < k → ∃ rej,
        env.server (w.sent + i) (c.loginPost username password) = .ok rej ∧ RateLimited rej) →
      c.Login env fuel username password w =
        (some (some (.transport e)), c,
          { sent := n + 1
            trace := w.trace ++ (retryRounds (c.loginPost username password) k ++
              [Event.request (c.loginPost username password)]) })) ∧
    (∀ (c : Client) (username password : String) (w : World) (k fuel : Nat) (resp : Response)
        (ck : Cookie),
      w.sent + k + 1 = n → k < fuel →
      AnsweredAfterRetries env (c.loginPost username password) w.sent k resp →
      resp.statusCode = 200 →
      firstCookie env.JWTCookieName resp.cookies = some ck →
      ck.Value ≠ "" → ¬ DecodeFails env ck.Value →
      (c.Login env fuel username password w).1 = some (some (.transport e)) ∧
        (c.Login env fuel username password w).2.2 =
          { sent := n + 1
            trace := w.trace ++ (retryRounds (c.loginPost username password) k ++
              [Event.request (c.loginPost username password),
               Event.request
                ((c.withSession env (resp.decoded .loginResponseSuccess).User ck.Value).infoGet
                  env)]) }) ∧
    (∀ (c : Client) (w : World), w.sent = n →
      (c.GetNetworkAppInfo env w =
        (({}, some (.transport e)), c,
          { sent := n + 1, trace := w.trace ++ [Event.request (c.infoGet env)] })) ∧
      (∀ device, ∃ r, c.CreateClientDevice env device w =
        (.returned {} (some (.transport e)), c,
          { sent := n + 1, trace := w.trace ++ [Event.request r] })) ∧
      (∃ r, c.GetClientDevices env w =
        (([], some (.transport e)), c,
          { sent := n + 1, trace := w.trace ++ [Event.request r] })) ∧
      (∀ id, ∃ r, c.GetClientDevice env id w =
        (({}, some (.transport e)), c,
          { sent := n + 1, trace := w.trace ++ [Event.request r] })) ∧
      (∀ entry, ∃ r, c.CreateStaticDNSEntry env entry w =
        (({}, some (.transport e)), c,
          { sent := n + 1, trace := w.trace ++ [Event.request r] })) ∧
      (∃ r, c.GetStaticDNSEntries env w =
        (([], some (.transport e)), c,
          { sent := n + 1, trace := w.trace ++ [Event.request r] })) ∧
      (∀ id, ∃ r, c.GetStaticDNSEntry env id w =
        (({}, some (.transport e)), c,
          { sent := n + 1, trace := w.trace ++ [Event.request r] })) ∧
      (∀ id entry, ∃ r, c.UpdateStaticDNSEntry env id entry w =
        (({}, some (.transport e)), c,
          { sent := n + 1, trace := w.trace ++ [Event.request r] })) ∧
      (∀ id, ∃ r, c.DeleteStaticDNSEntry env id w =
        (some (.transport e), c,
          { sent := n + 1, trace := w.trace ++ [Event.request r] })) ∧
      (∀ record, ∃ r, c.CreateStaticDNSRecord env record w =
        (({}, some (.transport e)), c,
          { sent := n + 1, trace := w.trace ++ [Event.request r] })) ∧
      (∃ r, c.GetStaticDNSRecords env w =
        (([], some (.transport e)), c,
          { sent := n + 1, trace := w.trace ++ [Event.request r] })) ∧
      (∀ id, ∃ r, c.GetStaticDNSRecord env id w =
        (({}, some (.transport e)), c,
          { sent := n + 1, trace := w.trace ++ [Event.request r] })) ∧
      (∀ id record, ∃ r, c.UpdateStaticDNSRecord env id record w =
        (({}, some (.transport e)), c,
          { sent := n + 1, trace := w.trace ++ [Event.request r] })) ∧
      (∀ id, ∃ r, c.DeleteStaticDNSRecord env id w =
        (some (.transport e), c,
          { sent := n + 1, trace := w.trace ++ [Event.request r] }))) := by
  refine ⟨?_, ?_, ?_⟩
  · intro c username password w k fuel hn hfuel hrl
    have hl := loginLoop_transport env c (c.newRequest "/api/auth/login").1
      ((c.newRequest "/api/auth/login").2.SetBody
        (.login { Username := username, Password := password })) k fuel w e hrl
      (by rw [hn]; exact herr _) hfuel
    rw [Login_eq, hl]
    simp only [← hn, Nat.add_assoc]
    rfl
  · intro c username password w k fuel resp ck hn hfuel hpost hok hck hval hdec
    have hl := loginLoop_broke env c (c.newRequest "/api/auth/login").1
      ((c.newRequest "/api/auth/login").2.SetBody
        (.login { Username := username, Password := password })) k fuel w resp hpost hok hfuel
    have hfatal : ∀ e, (env.ParseWithClaims ck.Value).1 = some e → e.unverifiable = true := by
      intro e he
      cases hu : e.unverifiable with
      | true => rfl
      | false => exact absurd ⟨e, he, hu⟩ hdec
    have hsrv := herr ((c.withSession env (resp.decoded .loginResponseSuccess).User
      ck.Value).infoGet env)
    rw [← hn] at hsrv
    rw [Login_eq, hl]
    simp only [scanCookies_eq, hck]
    cases hp : (env.ParseWithClaims ck.Value).1 with
    | none =>
      simp [hval, GetNetworkAppInfo_eq, Client.withSession, ← hn, Client.loginPost] at hsrv ⊢
      simp [hsrv]
    | some e1 =>
      simp [hfatal e1 hp, hval, GetNetworkAppInfo_eq, Client.withSession, ← hn,
        Client.loginPost] at hsrv ⊢
      simp [hsrv]
  · intro c w hw
    subst hw
    refine ⟨?_, ?_, ?_, ?_, ?_, ?_, ?_, ?_, ?_, ?_, ?_, ?_, ?_, ?_⟩
    · simp [GetNetworkAppInfo_eq, herr]
    · intro device
      exact ⟨_, by simp [Client.CreateClientDevice, execute, herr]; rfl⟩
    · exact ⟨_, by simp [Client.GetClientDevices, execute, herr]; rfl⟩
    · intro id
      exact ⟨_, by simp [Client.GetClientDevice, Client.GetClientDevices, execute, herr]; rfl⟩
    · intro entry
      exact ⟨_, by simp [Client.CreateStaticDNSEntry, execute, herr]; rfl⟩
    · exact ⟨_, by simp [Client.GetStaticDNSEntries, execute, herr]; rfl⟩
    · intro id
      exact ⟨_, by simp [Client.GetStaticDNSEntry, Client.GetStaticDNSEntries, execute, herr]; rfl⟩
    · intro id entry
      exact ⟨_, by simp [Client.UpdateStaticDNSEntry, execute, herr]; rfl⟩
    · intro id
      exact ⟨_, by simp [Client.DeleteStaticDNSEntry, execute, herr]; rfl⟩
    · intro record
      exact ⟨_, by simp [Client.CreateStaticDNSRecord, execute, herr]; rfl⟩
    · exact ⟨_, by simp [Client.GetStaticDNSRecords, execute, herr]; rfl⟩
    · intro id
      exact ⟨_, by simp [Client.GetStaticDNSRecord, Client.GetStaticDNSRecords, execute, herr]; rfl⟩
    · intro id record
      exact ⟨_, by simp [Client.UpdateStaticDNSRecord, execute, herr]; rfl⟩
    · intro id
      exact ⟨_, by simp [Client.DeleteStaticDNSRecord, execute, herr]; rfl⟩

/-- Witness of C4: the server cannot be reached. -/
theorem transport_error_returned_at_once_witness :
    freshClient.Login unreachableEnv 1 "admin" "secret" {} =
        (some (some (.transport "connection refused")), freshClient,
          { sent := 1, trace := [Event.request (freshClient.loginPost "admin" "secret")] }) ∧
      freshClient.GetNetworkAppInfo unreachableEnv {} =
        (({}, some (.transport "connection refused")), freshClient,
          { sent := 1, trace := [Event.request (freshClient.infoGet unreachableEnv)] }) := by
  have h := transport_error_returned_at_once unreachableEnv 0 "connection refused" (fun _ => rfl)
  refine ⟨?_, (h.2.2 freshClient {} rfl).1⟩
  have h1 := h.1 freshClient "admin" "secret" {} 0 1 rfl (by decide) (fun i hi => by omega)
  rw [h1]
  rfl

/-! ## The session cookie -/

/-- C5, at the failing input. A client logs in successfully and so holds a
session token; a second `Login` on it is answered with status 200 and no
cookie named with the session cookie name. The second `Login` returns no
error (it reports success), where the claim requires the error
"no JWT was returned by the server". -/
theorem login_without_cookie_succeeds_on_stale_session :
    loginOkNoCookie.statusCode = 200 ∧
      firstCookie secondLoginNoCookieEnv.JWTCookieName loginOkNoCookie.cookies = none ∧
      secondLoginNoCookieEnv.server 2 ((freshClient.Login secondLoginNoCookieEnv 1 "admin"
        "secret" {}).2.1.loginPost "guest" "guest") = .ok loginOkNoCookie ∧
      (freshClient.Login secondLoginNoCookieEnv 1 "admin" "secret" {}).1 = some none ∧
      ((freshClient.Login secondLoginNoCookieEnv 1 "admin" "secret" {}).2.1.Login
        secondLoginNoCookieEnv 1 "guest" "guest"
        (freshClient.Login secondLoginNoCookieEnv 1 "admin" "secret" {}).2.2).1 = some none := by
  refine ⟨rfl, by decide, rfl, by decide, by decide⟩

theorem not_decodeFails_iff (env : Env) (token : String) :
    ¬ DecodeFails env token ↔
      ∀ e, (env.ParseWithClaims token).1 = some e → e.unverifiable = true := by
  constructor
  · intro h e he
    cases hu : e.unverifiable with
    | true => rfl
    | false => exact absurd ⟨e, he, hu⟩ h
  · rintro h ⟨e, he, hu⟩
    rw [h e he] at hu
    exact absurd hu (by simp)

theorem Login_cookie_rejected (env : Env) (c : Client) (username password : String)
    (w : World) (k fuel : Nat) (resp : Response) (ck : Cookie) (e : JwtError)
    (hpost : AnsweredAfterRetries env (c.loginPost username password) w.sent k resp)
    (hok : resp.statusCode = 200)
    (hck : firstCookie env.JWTCookieName resp.cookies = some ck)
    (hfuel : k < fuel)
    (he : (env.ParseWithClaims ck.Value).1 = some e) (hu : e.unverifiable = false) :
    c.Login env fuel username password w =
      (some (some (.jwt e)),
        { c with authData :=
            { c.authData with User := (resp.decoded .loginResponseSuccess).User, JWT := ck.Value } },
        { sent := w.sent + k + 1
          trace := w.trace ++ (retryRounds (c.loginPost username password) k ++
            [Event.request (c.loginPost username password)]) }) := by
  have hl := loginLoop_broke env c (c.newRequest "/api/auth/login").1
    ((c.newRequest "/api/auth/login").2.SetBody
      (.login { Username := username, Password := password })) k fuel w resp hpost hok hfuel
  rw [Login_eq, hl]
  simp only [scanCookies_eq, hck, he, hu, if_true]
  rfl

theorem Login_cookie_accepted (env : Env) (c : Client) (username password : String)
    (w : World) (k fuel : Nat) (resp : Response) (ck : Cookie)
    (hpost : AnsweredAfterRetries env (c.loginPost username password) w.sent k resp)
    (hok : resp.statusCode = 200)
    (hck : firstCookie env.JWTCookieName resp.cookies = some ck)
    (hfuel : k < fuel)
    (hdec : ¬ DecodeFails env ck.Value) :
    c.Login env fuel username password w =
      if ck.Value = "" then
        (some (some (.msg "no JWT was returned by the server")),
          c.withSession env (resp.decoded .loginResponseSuccess).User ck.Value,
          { sent := w.sent + k + 1
            trace := w.trace ++ (retryRounds (c.loginPost username password) k ++
              [Event.request (c.loginPost username password)]) })
      else
        storeInfo
          ((c.withSession env (resp.decoded .loginResponseSuccess).User
            ck.Value).GetNetworkAppInfo env
            { sent := w.sent + k + 1
              trace := w.trace ++ (retryRounds (c.loginPost username password) k ++
                [Event.request (c.loginPost username password)]) }) := by
  have hl := loginLoop_broke env c (c.newRequest "/api/auth/login").1
    ((c.newRequest "/api/auth/login").2.SetBody
      (.login { Username := username, Password := password })) k fuel w resp hpost hok hfuel
  have hfatal := (not_decodeFails_iff env ck.Value).1 hdec
  rw [Login_eq, hl]
  simp only [scanCookies_eq, hck]
  cases hp : (env.ParseWithClaims ck.Value).1 with
  | none => rfl
  | some e =>
    simp only [hfatal e hp, Bool.true_eq_false, if_false]
    rfl

theorem GetNetworkAppInfo_world (env : Env) (c : Client) (w : World) :
    (c.GetNetworkAppInfo env w).2.2 =
      { sent := w.sent + 1, trace := w.trace ++ [Event.request (c.infoGet env)] } := by
  rw [GetNetworkAppInfo_eq]
  cases env.server w.sent (c.infoGet env) with
  | error e => rfl
  | ok r => by_cases hst : r.statusCode = 200 <;> simp [hst]

@[simp] theorem GetNetworkAppInfo_client (env : Env) (c : Client) (w : World) :
    (c.GetNetworkAppInfo env w).2.1 = c := by
  rw [GetNetworkAppInfo_eq]
  cases env.server w.sent (c.infoGet env) with
  | error e => rfl
  | ok r => by_cases hst : r.statusCode = 200 <;> simp [hst]

theorem GetNetworkAppInfo_not_jwt (env : Env) (c : Client) (w : World) (e : JwtError) :
    (c.GetNetworkAppInfo env w).1.2 ≠ some (.jwt e) := by
  rw [GetNetworkAppInfo_eq]
  cases env.server w.sent (c.infoGet env) with
  | error e1 => simp
  | ok r => by_cases hst : r.statusCode = 200 <;> simp [hst]

theorem storeInfo_result (g : (NetworkAppInfo × Option Error) × Client × World) :
    (storeInfo g).1 = some g.1.2 := by
  rcases g with ⟨⟨a, _ | e⟩, c, w2⟩ <;> rfl

theorem storeInfo_authData (g : (NetworkAppInfo × Option Error) × Client × World) :
    (storeInfo g).2.1.authData = g.2.1.authData := by
  rcases g with ⟨⟨a, _ | e⟩, c, w2⟩ <;> rfl

theorem storeInfo_world (g : (NetworkAppInfo × Option Error) × Client × World) :
    (storeInfo g).2.2 = g.2.2 := by
  rcases g with ⟨⟨a, _ | e⟩, c, w2⟩ <;> rfl

theorem storeInfo_networkAppInfo (g : (NetworkAppInfo × Option Error) × Client × World) :
    (storeInfo g).2.1.networkAppInfo =
      match g.1.2 with
      | some _ => g.2.1.networkAppInfo
      | none => g.1.1 := by
  rcases g with ⟨⟨a, _ | e⟩, c, w2⟩ <;> rfl

/-- C6. When the login response has status 200 and carries the session
cookie `ck`, `Login` returns an error of the JWT parser exactly when parsing
the cookie value yields an error that is not "token unverifiable", and the
error returned is then that parse error, with no request sent after the login
POST. When parsing yields the unverifiable error (or no error), `Login` goes
on: the stored CSRF token is the `CsrfToken` of the decoded claims, and the
outcome is that of the steps that follow (the empty-token check, then the
metadata fetch). -/
theorem login_fails_on_decode_error_only (env : Env) (c : Client) (username password : String)
    (w : World) (k fuel : Nat) (resp : Response) (ck : Cookie)
    (hpost : AnsweredAfterRetries env (c.loginPost username password) w.sent k resp)
    (hok : resp.statusCode = 200)
    (hck : firstCookie env.JWTCookieName resp.cookies = some ck)
    (hfuel : k < fuel) :
    (∀ err, (c.Login env fuel username password w).1 = some (some (.jwt err)) ↔
      ((env.ParseWithClaims ck.Value).1 = some err ∧ err.unverifiable = false)) ∧
    (DecodeFails env ck.Value →
      (c.Login env fuel username password w).2.2 =
        { sent := w.sent + k + 1
          trace := w.trace ++ (retryRounds (c.loginPost username password) k ++
            [Event.request (c.loginPost username password)]) }) ∧
    (¬ DecodeFails env ck.Value →
      (c.Login env fuel username password w).2.1.authData.CSRFToken =
          (env.ParseWithClaims ck.Value).2.CsrfToken ∧
        (c.Login env fuel username password w).1 =
          if ck.Value = "" then some (some (.msg "no JWT was returned by the server"))
          else some
            ((c.withSession env (resp.decoded .loginResponseSuccess).User
              ck.Value).GetNetworkAppInfo env
                { sent := w.sent + k + 1
                  trace := w.trace ++ (retryRounds (c.loginPost username password) k ++
                    [Event.request (c.loginPost username password)]) }).1.2) := by
  refine ⟨fun err => ?_, ?_, fun hnd => ?_⟩
  · by_cases hd : DecodeFails env ck.Value
    · obtain ⟨e, he, hu⟩ := hd
      rw [Login_cookie_rejected env c username password w k fuel resp ck e hpost hok hck hfuel he hu,
        he]
      constructor
      · intro h
        have hee : e = err := by simpa using h
        subst hee
        exact ⟨rfl, hu⟩
      · rintro ⟨h, _⟩
        have hee : e = err := by simpa using h
        subst hee
        rfl
    · rw [Login_cookie_accepted env c username password w k fuel resp ck hpost hok hck hfuel hd]
      constructor
      · intro h
        exfalso
        by_cases hv : ck.Value = ""
        · simp [hv] at h
        · simp only [hv, if_false, storeInfo_result] at h
          exact GetNetworkAppInfo_not_jwt env _ _ err (by simpa using h)
      · rintro ⟨h1, h2⟩
        exact absurd ⟨err, h1, h2⟩ hd
  · rintro ⟨e, he, hu⟩
    rw [Login_cookie_rejected env c username password w k fuel resp ck e hpost hok hck hfuel he hu]
  · rw [Login_cookie_accepted env c username password w k fuel resp ck hpost hok hck hfuel hnd]
    by_cases hv : ck.Value = ""
    · simp [hv, Client.withSession]
    · simp only [hv, if_false, storeInfo_result, storeInfo_authData, GetNetworkAppInfo_client]
      exact ⟨rfl, trivial⟩

/-- Witness of C6: a malformed token makes `Login` return the parse error;
an unverifiable one is accepted and its CSRF claim stored. -/
theorem login_fails_on_decode_error_only_witness :
    (freshClient.Login (cookieEnv "garbage") 1 "admin" "secret" {}).1 =
        some (some (.jwt { unverifiable := false, text := "token is malformed" })) ∧
      (freshClient.Login (cookieEnv "hdr.csrf.sig") 1 "admin" "secret" {}).2.1.authData.CSRFToken =
        "csrf-1" :=
  ⟨((login_fails_on_decode_error_only (cookieEnv "garbage") freshClient "admin" "secret" {} 0 1
      (loginOk "garbage") { Name := "TOKEN", Value := "garbage" }
      ⟨fun i hi => by omega, rfl⟩ rfl (by decide) (by decide)).1 _).2 ⟨by decide, rfl⟩,
   ((login_fails_on_decode_error_only (cookieEnv "hdr.csrf.sig") freshClient "admin" "secret" {}
      0 1 (loginOk "hdr.csrf.sig") { Name := "TOKEN", Value := "hdr.csrf.sig" }
      ⟨fun i hi => by omega, rfl⟩ rfl (by decide) (by decide)).2.2
        (by rintro ⟨e, he, hu⟩
            have he2 : e = { unverifiable := true, text := _ } :=
              (Option.some.inj he).symm
            rw [he2] at hu
            exact absurd hu (by decide))).1⟩

/-! ## What a successful `Login` leaves in the session -/

theorem Login_eq_storeInfo (env : Env) (fuel : Nat) (c : Client) (username password : String)
    (w : World) :
    c.Login env fuel username password w =
      match loginLoop env c (c.newRequest "/api/auth/login").1
          ((c.newRequest "/api/auth/login").2.SetBody
            (.login { Username := username, Password := password })) 1 fuel {} {} w with
      | (.running, w1) => (none, c, w1)
      | (.returned err, w1) => (some (some err), c, w1)
      | (.broke resp apiResponseSuccess, w1) =>
        match scanCookies env
            { c with authData := { c.authData with User := apiResponseSuccess.User } }
            resp.cookies with
        | (c2, some err) => (some (some err), c2, w1)
        | (c2, none) =>
          if c2.authData.JWT = "" then
            (some (some (.msg "no JWT was returned by the server")), c2, w1)
          else
            storeInfo (c2.GetNetworkAppInfo env w1) :=
  rfl

/-- C7, counterexample. The login response carries a session cookie whose
token has no `csrfToken` claim; the metadata fetch succeeds. `Login` returns
no error, the stored session token is the cookie value, and the stored CSRF
token is the empty string. -/
theorem login_success_with_empty_csrf :
    (freshClient.Login (cookieEnv "hdr.plain.sig") 1 "admin" "secret" {}).1 = some none ∧
      (freshClient.Login (cookieEnv "hdr.plain.sig") 1 "admin" "secret"
        {}).2.1.authData.JWT = "hdr.plain.sig" ∧
      (freshClient.Login (cookieEnv "hdr.plain.sig") 1 "admin" "secret"
        {}).2.1.authData.CSRFToken = "" := by
  refine ⟨by decide, by decide, by decide⟩

/-- C7, as amended. For every server behaviour and every client, if `Login`
returns no error then afterwards the stored session token (`authData.JWT`) is
a non-empty string. -/
theorem login_success_stores_token (env : Env) (fuel : Nat) (c : Client)
    (username password : String) (w : World)
    (h : (c.Login env fuel username password w).1 = some none) :
    (c.Login env fuel username password w).2.1.authData.JWT ≠ "" := by
  rw [Login_eq_storeInfo] at h ⊢
  generalize loginLoop env c _ _ 1 fuel _ _ w = r at h ⊢
  rcases r with ⟨ex, w1⟩
  cases ex with
  | running => simp at h
  | returned err => simp at h
  | broke resp s =>
    simp only at h ⊢
    generalize scanCookies env _ resp.cookies = sc at h ⊢
    rcases sc with ⟨c2, _ | err⟩
    · by_cases hj : c2.authData.JWT = ""
      · simp [hj] at h
      · simp only [hj, if_false, storeInfo_authData, GetNetworkAppInfo_client]
        exact hj
    · simp at h

/-- Witness of C7 as amended: a successful login. -/
theorem login_success_stores_token_witness :
    (freshClient.Login (cookieEnv "hdr.csrf.sig") 1 "admin" "secret" {}).2.1.authData.JWT ≠ "" :=
  login_success_stores_token (cookieEnv "hdr.csrf.sig") 1 freshClient "admin" "secret" {}
    (by decide)

theorem sessionConsistent_of_authData (env : Env) (c1 c2 : Client)
    (h : c2.authData.JWT = c1.authData.JWT ∧ c2.authData.CSRFToken = c1.authData.CSRFToken)
    (hc : SessionConsistent env c1) : SessionConsistent env c2 := by
  unfold SessionConsistent at hc ⊢
  rw [h.1, h.2]
  exact hc

theorem Login_preserves_consistent (env : Env) (fuel : Nat) (c : Client)
    (username password : String) (w : World)
    (hc : SessionConsistent env c)
    (hne : ∀ e, (c.Login env fuel username password w).1 ≠ some (some (.jwt e))) :
    SessionConsistent env (c.Login env fuel username password w).2.1 := by
  rw [Login_eq_storeInfo] at hne ⊢
  generalize loginLoop env c _ _ 1 fuel _ _ w = r at hne ⊢
  rcases r with ⟨ex, w1⟩
  cases ex with
  | running => exact hc
  | returned err => exact hc
  | broke resp s =>
    simp only [scanCookies_eq] at hne ⊢
    cases hfc : firstCookie env.JWTCookieName resp.cookies with
    | none =>
      simp only [hfc] at hne ⊢
      by_cases hj : c.authData.JWT = ""
      · simp only [hj, if_true]
        exact sessionConsistent_of_authData env c _ ⟨hj.symm, rfl⟩ hc
      · simp only [hj, if_false]
        exact sessionConsistent_of_authData env c _
          ⟨by rw [storeInfo_authData, GetNetworkAppInfo_client], by rw [storeInfo_authData, GetNetworkAppInfo_client]⟩ hc
    | some ck =>
      simp only [hfc] at hne ⊢
      have hacc : ¬ DecodeFails env ck.Value →
          ∀ c2 : Client, c2.authData.JWT = ck.Value →
            c2.authData.CSRFToken = (env.ParseWithClaims ck.Value).2.CsrfToken →
            SessionConsistent env c2 := by
        intro hnd c2 h1 h2
        refine Or.inr ?_
        rw [h1, h2]
        exact ⟨hnd, rfl⟩
      cases hp : (env.ParseWithClaims ck.Value).1 with
      | none =>
        have hnd : ¬ DecodeFails env ck.Value := by
          rw [not_decodeFails_iff]
          intro e he
          rw [hp] at he
          exact absurd he (by simp)
        simp only [hp] at hne ⊢
        by_cases hv : ck.Value = ""
        · simp only [hv, if_true]
          exact hacc hnd _ (by simp [hv]) (by simp [hv])
        · simp only [hv, if_false]
          exact hacc hnd _ (by rw [storeInfo_authData, GetNetworkAppInfo_client]) (by rw [storeInfo_authData, GetNetworkAppInfo_client])
      | some e =>
        simp only [hp] at hne ⊢
        cases hu : e.unverifiable with
        | false =>
          simp only [hu, if_true] at hne
          exact absurd rfl (hne e)
        | true =>
          have hnd : ¬ DecodeFails env ck.Value := by
            rw [not_decodeFails_iff]
            intro e1 he1
            rw [hp] at he1
            have : e = e1 := by simpa using he1
            rw [← this]
            exact hu
          simp only [hu, Bool.true_eq_false, if_false]
          by_cases hv : ck.Value = ""
          · simp only [hv, if_true]
            exact hacc hnd _ (by simp [hv]) (by simp [hv])
          · simp only [hv, if_false]
            exact hacc hnd _ (by rw [storeInfo_authData, GetNetworkAppInfo_client]) (by rw [storeInfo_authData, GetNetworkAppInfo_client])

/-- C8, counterexample. Starting from a client built by `NewClient`:
a `Login` whose session cookie lacks the `csrfToken` claim succeeds and
leaves the session token set with an empty CSRF token; a `Login` whose
session cookie is malformed fails and leaves the malformed cookie value as
the stored session token with an empty CSRF token; and a successful `Login`
followed by one with a malformed cookie leaves both tokens set, the CSRF
token not being the one decoded from the stored session token. -/
theorem session_partially_populated :
    ((runLogins (cookieEnv "hdr.plain.sig") 1 [("admin", "secret")]
        (NewClient "udm.example" "default" false) {}).1 = [some none] ∧
      (runLogins (cookieEnv "hdr.plain.sig") 1 [("admin", "secret")]
        (NewClient "udm.example" "default" false) {}).2.1.authData.JWT = "hdr.plain.sig" ∧
      (runLogins (cookieEnv "hdr.plain.sig") 1 [("admin", "secret")]
        (NewClient "udm.example" "default" false) {}).2.1.authData.CSRFToken = "") ∧
    ((runLogins (cookieEnv "garbage") 1 [("admin", "secret")]
        (NewClient "udm.example" "default" false) {}).1 =
          [some (some (.jwt { unverifiable := false, text := "token is malformed" }))] ∧
      (runLogins (cookieEnv "garbage") 1 [("admin", "secret")]
        (NewClient "udm.example" "default" false) {}).2.1.authData.JWT = "garbage" ∧
      (runLogins (cookieEnv "garbage") 1 [("admin", "secret")]
        (NewClient "udm.example" "default" false) {}).2.1.authData.CSRFToken = "") ∧
    ((runLogins thenMalformedEnv 1 [("admin", "secret"), ("admin", "secret")]
        (NewClient "udm.example" "default" false) {}).2.1.authData.JWT = "garbage" ∧
      (runLogins thenMalformedEnv 1 [("admin", "secret"), ("admin", "secret")]
        (NewClient "udm.example" "default" false) {}).2.1.authData.CSRFToken = "csrf-1" ∧
      (thenMalformedEnv.ParseWithClaims "garbage").2.CsrfToken = "") := by
  refine ⟨⟨by decide, by decide, by decide⟩, ⟨by decide, by decide, by decide⟩,
    ⟨by decide, by decide, by decide⟩⟩

/-- C8, as amended. Starting from a client built by `NewClient`, after any
sequence of `Login` calls none of which returned a token decoding error
(whether each succeeded, was rejected, got no cookie or failed at the metadata
fetch), either both stored tokens are empty, or the stored session token
decodes and the stored CSRF token is the `csrfToken` claim decoded from it. -/
theorem session_consistent_after_logins (env : Env) (fuel : Nat) (hostname site : String)
    (ignoreUntrustedSSLCert : Bool) (creds : List (String × String)) (w : World)
    (hne : ∀ r, r ∈ (runLogins env fuel creds
        (NewClient hostname site ignoreUntrustedSSLCert) w).1 →
      ∀ e, r ≠ some (some (.jwt e))) :
    SessionConsistent env
      (runLogins env fuel creds (NewClient hostname site ignoreUntrustedSSLCert) w).2.1 := by
  have key : ∀ (creds : List (String × String)) (c : Client) (w : World),
      SessionConsistent env c →
      (∀ r, r ∈ (runLogins env fuel creds c w).1 → ∀ e, r ≠ some (some (.jwt e))) →
      SessionConsistent env (runLogins env fuel creds c w).2.1 := by
    intro creds
    induction creds with
    | nil => intro c w hc _; exact hc
    | cons cr rest ih =>
      intro c w hc hne
      obtain ⟨username, password⟩ := cr
      have hrun : runLogins env fuel ((username, password) :: rest) c w =
          ((c.Login env fuel username password w).1 ::
              (runLogins env fuel rest (c.Login env fuel username password w).2.1
                (c.Login env fuel username password w).2.2).1,
            (runLogins env fuel rest (c.Login env fuel username password w).2.1
                (c.Login env fuel username password w).2.2).2) := rfl
      rw [hrun] at hne ⊢
      refine ih _ _ (Login_preserves_consistent env fuel c username password w hc ?_) ?_
      · intro e
        exact hne _ (List.mem_cons_self _ _) e
      · intro r hr e
        exact hne r (List.mem_cons_of_mem _ hr) e
  exact key creds _ w (Or.inl ⟨rfl, rfl⟩) hne

/-- Witness of C8 as amended: two successful logins with different tokens. -/
theorem session_consistent_after_logins_witness :
    SessionConsistent twoLoginsEnv
      (runLogins twoLoginsEnv 1 [("admin", "secret"), ("admin", "secret")]
        (NewClient "udm.example" "default" false) {}).2.1 :=
  session_consistent_after_logins twoLoginsEnv 1 "udm.example" "default" false
    [("admin", "secret"), ("admin", "secret")] {}
    (by
      intro r hr e
      have hrs : (runLogins twoLoginsEnv 1 [("admin", "secret"), ("admin", "secret")]
          (NewClient "udm.example" "default" false) {}).1 = [some none, some none] := by decide
      rw [hrs] at hr
      simp at hr
      subst hr
      simp)

/-- C9, at the failing input. A client that holds the session of an earlier
successful `Login` logs in again; the answer has status 200, a user profile,
and no cookie named with the session cookie name. `Login` returns no error,
and the session then holds the token and CSRF token of the earlier login next
to the user profile of this one: the stored session token is not the value of
a cookie of this response, as the claim requires of every `Login` that
returns no error. -/
theorem login_success_keeps_earlier_token :
    firstCookie secondLoginNoCookieEnv.JWTCookieName loginOkNoCookie.cookies = none ∧
      (∀ ck, ck ∈ loginOkNoCookie.cookies → ck.Value ≠ "hdr.csrf.sig") ∧
      (runLogins secondLoginNoCookieEnv 1 [("admin", "secret"), ("guest", "guest")]
        freshClient {}).1 = [some none, some none] ∧
      (runLogins secondLoginNoCookieEnv 1 [("admin", "secret"), ("guest", "guest")]
        freshClient {}).2.1.authData =
          { CSRFToken := "csrf-1", JWT := "hdr.csrf.sig",
            User := { ID := "u2", Username := "guest" } } := by
  refine ⟨by decide, by decide, by decide, by decide⟩

theorem login_success_session_contents (env : Env) (c : Client) (username password : String)
    (w : World) (k fuel : Nat) (resp : Response) (ck : Cookie)
    (hpost : AnsweredAfterRetries env (c.loginPost username password) w.sent k resp)
    (hok : resp.statusCode = 200)
    (hck : firstCookie env.JWTCookieName resp.cookies = some ck)
    (hfuel : k < fuel)
    (h : (c.Login env fuel username password w).1 = some none) :
    (c.Login env fuel username password w).2.1.authData =
        { CSRFToken := (env.ParseWithClaims ck.Value).2.CsrfToken
          JWT := ck.Value
          User := (resp.decoded .loginResponseSuccess).User } ∧
      (c.Login env fuel username password w).2.1.networkAppInfo =
        ((c.withSession env (resp.decoded .loginResponseSuccess).User
          ck.Value).GetNetworkAppInfo env
            { sent := w.sent + k + 1
              trace := w.trace ++ (retryRounds (c.loginPost username password) k ++
                [Event.request (c.loginPost username password)]) }).1.1 := by
  by_cases hd : DecodeFails env ck.Value
  · obtain ⟨e, he, hu⟩ := hd
    rw [Login_cookie_rejected env c username password w k fuel resp ck e hpost hok hck hfuel he
      hu] at h
    simp at h
  · rw [Login_cookie_accepted env c username password w k fuel resp ck hpost hok hck hfuel hd]
      at h ⊢
    by_cases hv : ck.Value = ""
    · simp [hv] at h
    · simp only [hv, if_false, storeInfo_result, storeInfo_authData, GetNetworkAppInfo_client,
        storeInfo_networkAppInfo] at h ⊢
      have hnone : ((c.withSession env (resp.decoded .loginResponseSuccess).User
          ck.Value).GetNetworkAppInfo env
            { sent := w.sent + k + 1
              trace := w.trace ++ (retryRounds (c.loginPost username password) k ++
                [Event.request (c.loginPost username password)]) }).1.2 = none := by
        simpa using h
      rw [hnone]
      exact ⟨rfl, rfl⟩

/-! ## The metadata fetch of `Login` -/

/-- C10. Once the login response (status 200) carried a session cookie that
decodes and is not empty, `Login` makes exactly one `GetNetworkAppInfo` call:
the metadata request is the only event after the login POST. `Login` returns
what that call returned as its error; if the call fails, by a transport error
or by a status other than 200, `Login` returns that error and the client's
cached application metadata is what it was before. -/
theorem login_fetches_metadata_once (env : Env) (c : Client) (username password : String)
    (w : World) (k fuel : Nat) (resp : Response) (ck : Cookie)
    (hpost : AnsweredAfterRetries env (c.loginPost username password) w.sent k resp)
    (hok : resp.statusCode = 200)
    (hck : firstCookie env.JWTCookieName resp.cookies = some ck)
    (hval : ck.Value ≠ "")
    (hdec : ¬ DecodeFails env ck.Value)
    (hfuel : k < fuel) :
    (c.Login env fuel username password w).2.2 =
        { sent := w.sent + k + 2
          trace := w.trace ++ (retryRounds (c.loginPost username password) k ++
            [Event.request (c.loginPost username password),
             Event.request
              ((c.withSession env (resp.decoded .loginResponseSuccess).User ck.Value).infoGet
                env)]) } ∧
      (c.Login env fuel username password w).1 =
        some ((c.withSession env (resp.decoded .loginResponseSuccess).User
          ck.Value).GetNetworkAppInfo env
            { sent := w.sent + k + 1
              trace := w.trace ++ (retryRounds (c.loginPost username password) k ++
                [Event.request (c.loginPost username password)]) }).1.2 ∧
      (∀ e, env.server (w.sent + k + 1)
          ((c.withSession env (resp.decoded .loginResponseSuccess).User ck.Value).infoGet env) =
            .error e →
        (c.Login env fuel username password w).1 = some (some (.transport e)) ∧
          (c.Login env fuel username password w).2.1.networkAppInfo = c.networkAppInfo) ∧
      (∀ r, env.server (w.sent + k + 1)
          ((c.withSession env (resp.decoded .loginResponseSuccess).User ck.Value).infoGet env) =
            .ok r →
        r.statusCode ≠ 200 →
        (c.Login env fuel username password w).1 =
            some (some (.msg "failed to retrieve network info")) ∧
          (c.Login env fuel username password w).2.1.networkAppInfo = c.networkAppInfo) := by
  rw [Login_cookie_accepted env c username password w k fuel resp ck hpost hok hck hfuel hdec]
  simp only [hval, if_false, storeInfo_result, storeInfo_world, storeInfo_networkAppInfo,
    GetNetworkAppInfo_world, GetNetworkAppInfo_client]
  refine ⟨?_, trivial, ?_, ?_⟩
  · simp [Nat.add_assoc]
  · intro e he
    rw [GetNetworkAppInfo_eq]
    simp only [he]
    exact ⟨trivial, rfl⟩
  · intro r hr hst
    rw [GetNetworkAppInfo_eq]
    simp only [hr, hst, ne_eq, not_false_eq_true, if_true]
    exact ⟨trivial, rfl⟩

/-- Witness of C10: the metadata fetch is answered with status 503. -/
theorem login_fetches_metadata_once_witness :
    (freshClient.Login infoDownEnv 1 "admin" "secret" {}).1 =
        some (some (.msg "failed to retrieve network info")) ∧
      (freshClient.Login infoDownEnv 1 "admin" "secret" {}).2.1.networkAppInfo =
        freshClient.networkAppInfo :=
  (login_fetches_metadata_once infoDownEnv freshClient "admin" "secret" {} 0 1
    (loginOk "hdr.csrf.sig") { Name := "TOKEN", Value := "hdr.csrf.sig" }
    ⟨fun i hi => by omega, rfl⟩ rfl (by decide) (by decide)
    (by rw [not_decodeFails_iff]
        intro e he
        have he2 : e = { unverifiable := true, text := _ } := (Option.some.inj he).symm
        rw [he2])
    (by decide)).2.2.2 infoDown rfl (by decide)

/-! ## The resource operations, case by case -/

theorem authRequest_none (env : Env) (c : Client) (m : Method) (uri : String) :
    c.authRequest env m uri .none =
      { (c.newAuthenticatedRequest env uri).2.1 with
        method := m, url := (c.newAuthenticatedRequest env uri).1 } :=
  rfl

theorem CreateStaticDNSRecord_eq (env : Env) (c : Client) (record : StaticDNSRecord) (w : World) :
    c.CreateStaticDNSRecord env record w =
      match env.server w.sent (c.requestOf env (.CreateStaticDNSRecord record)) with
      | .error err =>
        (({}, some (.transport err)), c, w.afterRequest (c.requestOf env (.CreateStaticDNSRecord record)))
      | .ok resp =>
        if resp.statusCode ≠ 200 then
          (({}, some (.msg ("failed to create static DNS record: " ++
            (resp.decoded .createStaticDNSRecordsResponseError).Message))),
            c, w.afterRequest (c.requestOf env (.CreateStaticDNSRecord record)))
        else
          ((resp.decoded .createStaticDNSRecordsResponseSuccess, none),
            c, w.afterRequest (c.requestOf env (.CreateStaticDNSRecord record))) := by
  have hreq : env.server w.sent
      { (c.newAuthenticatedRequest env
          ("/proxy/network/v2/api/site/" ++ c.site ++ "/static-dns")).2.1.SetBody (.record record) with
        method := .POST
        url := (c.newAuthenticatedRequest env
          ("/proxy/network/v2/api/site/" ++ c.site ++ "/static-dns")).1 } =
      env.server w.sent (c.requestOf env (.CreateStaticDNSRecord record)) := rfl
  cases h : env.server w.sent (c.requestOf env (.CreateStaticDNSRecord record)) with
  | error err =>
    rw [h] at hreq
    simp [Client.CreateStaticDNSRecord, execute, hreq, Client.requestOf, Client.authRequest,
      World.afterRequest]
  | ok resp =>
    rw [h] at hreq
    by_cases hst : resp.statusCode = 200 <;>
      simp [Client.CreateStaticDNSRecord, execute, hreq, Client.requestOf, Client.authRequest,
        World.afterRequest, Client.logResponse, hst]

theorem UpdateStaticDNSRecord_eq (env : Env) (c : Client) (id : String) (record : StaticDNSRecord) (w : World) :
    c.UpdateStaticDNSRecord env id record w =
      match env.server w.sent (c.requestOf env (.UpdateStaticDNSRecord id record)) with
      | .error err =>
        (({}, some (.transport err)), c, w.afterRequest (c.requestOf env (.UpdateStaticDNSRecord id record)))
      | .ok resp =>
        if resp.statusCode ≠ 200 then
          (({}, some (.msg ("failed to update static DNS record: " ++
            (resp.decoded .updateStaticDNSRecordsResponseError).Message))),
            c, w.afterRequest (c.requestOf env (.UpdateStaticDNSRecord id record)))
        else
          ((resp.decoded .updateStaticDNSRecordsResponseSuccess, none),
            c, w.afterRequest (c.requestOf env (.UpdateStaticDNSRecord id record))) := by
  have hreq : env.server w.sent
      { (c.newAuthenticatedRequest env
          ("/proxy/network/v2/api/site/" ++ c.site ++ "/static-dns/" ++ id)).2.1.SetBody (.record record) with
        method := .PUT
        url := (c.newAuthenticatedRequest env
          ("/proxy/network/v2/api/site/" ++ c.site ++ "/static-dns/" ++ id)).1 } =
      env.server w.sent (c.requestOf env (.UpdateStaticDNSRecord id record)) := rfl
  cases h : env.server w.sent (c.requestOf env (.UpdateStaticDNSRecord id record)) with
  | error err =>
    rw [h] at hreq
    simp [Client.UpdateStaticDNSRecord, execute, hreq, Client.requestOf, Client.authRequest,
      World.afterRequest]
  | ok resp =>
    rw [h] at hreq
    by_cases hst : resp.statusCode = 200 <;>
      simp [Client.UpdateStaticDNSRecord, execute, hreq, Client.requestOf, Client.authRequest,
        World.afterRequest, Client.logResponse, hst]

theorem DeleteStaticDNSRecord_eq (env : Env) (c : Client) (id : String) (w : World) :
    c.DeleteStaticDNSRecord env id w =
      match env.server w.sent (c.requestOf env (.DeleteStaticDNSRecord id)) with
      | .error err =>
        (some (.transport err), c, w.afterRequest (c.requestOf env (.DeleteStaticDNSRecord id)))
      | .ok resp =>
        if resp.statusCode ≠ 200 then
          (some (.msg ("failed to delete static DNS record: " ++
            (resp.decoded .deleteStaticDNSRecordsResponseError).Message)),
            c, w.afterRequest (c.requestOf env (.DeleteStaticDNSRecord id)))
        else
          ((none : Option Error),
            c, w.afterRequest (c.requestOf env (.DeleteStaticDNSRecord id))) := by
  have hreq : env.server w.sent
      { (c.newAuthenticatedRequest env
          ("/proxy/network/v2/api/site/" ++ c.site ++ "/static-dns/" ++ id)).2.1 with
        method := .DELETE
        url := (c.newAuthenticatedRequest env
          ("/proxy/network/v2/api/site/" ++ c.site ++ "/static-dns/" ++ id)).1 } =
      env.server w.sent (c.requestOf env (.DeleteStaticDNSRecord id)) := rfl
  cases h : env.server w.sent (c.requestOf env (.DeleteStaticDNSRecord id)) with
  | error err =>
    rw [h] at hreq
    simp [Client.DeleteStaticDNSRecord, execute, hreq, Client.requestOf, authRequest_none,
      World.afterRequest]
  | ok resp =>
    rw [h] at hreq
    by_cases hst : resp.statusCode = 200 <;>
      simp [Client.DeleteStaticDNSRecord, execute, hreq, Client.requestOf, authRequest_none,
        World.afterRequest, Client.logResponse, hst]

theorem GetStaticDNSRecords_eq (env : Env) (c : Client) (w : World) :
    c.GetStaticDNSRecords env w =
      match env.server w.sent (c.requestOf env (.GetStaticDNSRecords)) with
      | .error err =>
        (([], some (.transport err)), c, w.afterRequest (c.requestOf env (.GetStaticDNSRecords)))
      | .ok resp =>
        if resp.statusCode ≠ 200 then
          (([], some (.msg "failed to retrieve static DNS records")),
            c, w.afterRequest (c.requestOf env (.GetStaticDNSRecords)))
        else
          ((resp.decoded .getStaticDNSRecordsResponseSuccess, none),
            c, w.afterRequest (c.requestOf env (.GetStaticDNSRecords))) := by
  have hreq : env.server w.sent
      { (c.newAuthenticatedRequest env
          ("/proxy/network/v2/api/site/" ++ c.site ++ "/static-dns")).2.1 with
        method := .GET
        url := (c.newAuthenticatedRequest env
          ("/proxy/network/v2/api/site/" ++ c.site ++ "/static-dns")).1 } =
      env.server w.sent (c.requestOf env (.GetStaticDNSRecords)) := rfl
  cases h : env.server w.sent (c.requestOf env (.GetStaticDNSRecords)) with
  | error err =>
    rw [h] at hreq
    simp [Client.GetStaticDNSRecords, execute, hreq, Client.requestOf, authRequest_none,
      World.afterRequest]
  | ok resp =>
    rw [h] at hreq
    by_cases hst : resp.statusCode = 200 <;>
      simp [Client.GetStaticDNSRecords, execute, hreq, Client.requestOf, authRequest_none,
        World.afterRequest, Client.logResponse, hst]

theorem CreateStaticDNSEntry_eq (env : Env) (c : Client) (entry : StaticDNSEntry) (w : World) :
    c.CreateStaticDNSEntry env entry w =
      match env.server w.sent (c.requestOf env (.CreateStaticDNSEntry entry)) with
      | .error err =>
        (({}, some (.transport err)), c, w.afterRequest (c.requestOf env (.CreateStaticDNSEntry entry)))
      | .ok resp =>
        if resp.statusCode ≠ 200 then
          (({}, some (.msg ("failed to create static DNS entry: " ++
            (resp.decoded .createStaticDNSEntriesResponseError).Message))),
            c, w.afterRequest (c.requestOf env (.CreateStaticDNSEntry entry)))
        else
          ((resp.decoded .createStaticDNSEntriesResponseSuccess, none),
            c, w.afterRequest (c.requestOf env (.CreateStaticDNSEntry entry))) := by
  have hreq : env.server w.sent
      { (c.newAuthenticatedRequest env
          ("/proxy/network/v2/api/site/" ++ c.site ++ "/static-dns")).2.1.SetBody (.entry entry) with
        method := .POST
        url := (c.newAuthenticatedRequest env
          ("/proxy/network/v2/api/site/" ++ c.site ++ "/static-dns")).1 } =
      env.server w.sent (c.requestOf env (.CreateStaticDNSEntry entry)) := rfl
  cases h : env.server w.sent (c.requestOf env (.CreateStaticDNSEntry entry)) with
  | error err =>
    rw [h] at hreq
    simp [Client.CreateStaticDNSEntry, execute, hreq, Client.requestOf, Client.authRequest,
      World.afterRequest]
  | ok resp =>
    rw [h] at hreq
    by_cases hst : resp.statusCode = 200 <;>
      simp [Client.CreateStaticDNSEntry, execute, hreq, Client.requestOf, Client.authRequest,
        World.afterRequest, Client.logResponse, hst]

theorem UpdateStaticDNSEntry_eq (env : Env) (c : Client) (id : String) (entry : StaticDNSEntry) (w : World) :
    c.UpdateStaticDNSEntry env id entry w =
      match env.server w.sent (c.requestOf env (.UpdateStaticDNSEntry id entry)) with
      | .error err =>
        (({}, some (.transport err)), c, w.afterRequest (c.requestOf env (.UpdateStaticDNSEntry id entry)))
      | .ok resp =>
        if resp.statusCode ≠ 200 then
          (({}, some (.msg ("failed to update static DNS entry: " ++
            (resp.decoded .updateStaticDNSEntriesResponseError).Message))),
            c, w.afterRequest (c.requestOf env (.UpdateStaticDNSEntry id entry)))
        else
          ((resp.decoded .updateStaticDNSEntriesResponseSuccess, none),
            c, w.afterRequest (c.requestOf env (.UpdateStaticDNSEntry id entry))) := by
  have hreq : env.server w.sent
      { (c.newAuthenticatedRequest env
          ("/proxy/network/v2/api/site/" ++ c.site ++ "/static-dns/" ++ id)).2.1.SetBody (.entry entry) with
        method := .PUT
        url := (c.newAuthenticatedRequest env
          ("/proxy/network/v2/api/site/" ++ c.site ++ "/static-dns/" ++ id)).1 } =
      env.server w.sent (c.requestOf env (.UpdateStaticDNSEntry id entry)) := rfl
  cases h : env.server w.sent (c.requestOf env (.UpdateStaticDNSEntry id entry)) with
  | error err =>
    rw [h] at hreq
    simp [Client.UpdateStaticDNSEntry, execute, hreq, Client.requestOf, Client.authRequest,
      World.afterRequest]
  | ok resp =>
    rw [h] at hreq
    by_cases hst : resp.statusCode = 200 <;>
      simp [Client.UpdateStaticDNSEntry, execute, hreq, Client.requestOf, Client.authRequest,
        World.afterRequest, Client.logResponse, hst]

theorem DeleteStaticDNSEntry_eq (env : Env) (c : Client) (id : String) (w : World) :
    c.DeleteStaticDNSEntry env id w =
      match env.server w.sent (c.requestOf env (.DeleteStaticDNSEntry id)) with
      | .error err =>
        (some (.transport err), c, w.afterRequest (c.requestOf env (.DeleteStaticDNSEntry id)))
      | .ok resp =>
        if resp.statusCode ≠ 200 then
          (some (.msg ("failed to delete static DNS entry: " ++
            (resp.decoded .deleteStaticDNSEntriesResponseError).Message)),
            c, w.afterRequest (c.requestOf env (.DeleteStaticDNSEntry id)))
        else
          ((none : Option Error),
            c, w.afterRequest (c.requestOf env (.DeleteStaticDNSEntry id))) := by
  have hreq : env.server w.sent
      { (c.newAuthenticatedRequest env
          ("/proxy/network/v2/api/site/" ++ c.site ++ "/static-dns/" ++ id)).2.1.SetBody (.text "\x7b\x7d") with
        method := .DELETE
        url := (c.newAuthenticatedRequest env
          ("/proxy/network/v2/api/site/" ++ c.site ++ "/static-dns/" ++ id)).1 } =
      env.server w.sent (c.requestOf env (.DeleteStaticDNSEntry id)) := rfl
  cases h : env.server w.sent (c.requestOf env (.DeleteStaticDNSEntry id)) with
  | error err =>
    rw [h] at hreq
    simp [Client.DeleteStaticDNSEntry, execute, hreq, Client.requestOf, Client.authRequest,
      World.afterRequest]
  | ok resp =>
    rw [h] at hreq
    by_cases hst : resp.statusCode = 200 <;>
      simp [Client.DeleteStaticDNSEntry, execute, hreq, Client.requestOf, Client.authRequest,
        World.afterRequest, Client.logResponse, hst]

theorem GetStaticDNSEntries_eq (env : Env) (c : Client) (w : World) :
    c.GetStaticDNSEntries env w =
      match env.server w.sent (c.requestOf env (.GetStaticDNSEntries)) with
      | .error err =>
        (([], some (.transport err)), c, w.afterRequest (c.requestOf env (.GetStaticDNSEntries)))
      | .ok resp =>
        if resp.statusCode ≠ 200 then
          (([], some (.msg "failed to retrieve static DNS entries")),
            c, w.afterRequest (c.requestOf env (.GetStaticDNSEntries)))
        else
          ((resp.decoded .getStaticDNSEntriesResponseSuccess, none),
            c, w.afterRequest (c.requestOf env (.GetStaticDNSEntries))) := by
  have hreq : env.server w.sent
      { (c.newAuthenticatedRequest env
          ("/proxy/network/v2/api/site/" ++ c.site ++ "/static-dns")).2.1 with
        method := .GET
        url := (c.newAuthenticatedRequest env
          ("/proxy/network/v2/api/site/" ++ c.site ++ "/static-dns")).1 } =
      env.server w.sent (c.requestOf env (.GetStaticDNSEntries)) := rfl
  cases h : env.server w.sent (c.requestOf env (.GetStaticDNSEntries)) with
  | error err =>
    rw [h] at hreq
    simp [Client.GetStaticDNSEntries, execute, hreq, Client.requestOf, authRequest_none,
      World.afterRequest]
  | ok resp =>
    rw [h] at hreq
    by_cases hst : resp.statusCode = 200 <;>
      simp [Client.GetStaticDNSEntries, execute, hreq, Client.requestOf, authRequest_none,
        World.afterRequest, Client.logResponse, hst]

theorem GetClientDevices_eq (env : Env) (c : Client) (w : World) :
    c.GetClientDevices env w =
      match env.server w.sent (c.requestOf env (.GetClientDevices)) with
      | .error err =>
        (([], some (.transport err)), c, w.afterRequest (c.requestOf env (.GetClientDevices)))
      | .ok resp =>
        if resp.statusCode ≠ 200 then
          (([], some (.msg "failed to retrieve client devices")),
            c, w.afterRequest (c.requestOf env (.GetClientDevices)))
        else
          (((resp.decoded .getClientDevicesResponseSuccess).Data, none),
            c, w.afterRequest (c.requestOf env (.GetClientDevices))) := by
  have hreq : env.server w.sent
      { (c.newAuthenticatedRequest env
          ("/proxy/network/api/s/" ++ c.site ++ "/rest/user")).2.1 with
        method := .GET
        url := (c.newAuthenticatedRequest env
          ("/proxy/network/api/s/" ++ c.site ++ "/rest/user")).1 } =
      env.server w.sent (c.requestOf env (.GetClientDevices)) := rfl
  cases h : env.server w.sent (c.requestOf env (.GetClientDevices)) with
  | error err =>
    rw [h] at hreq
    simp [Client.GetClientDevices, execute, hreq, Client.requestOf, authRequest_none,
      World.afterRequest]
  | ok resp =>
    rw [h] at hreq
    by_cases hst : resp.statusCode = 200 <;>
      simp [Client.GetClientDevices, execute, hreq, Client.requestOf, authRequest_none,
        World.afterRequest, Client.logResponse, hst]

theorem CreateClientDevice_eq (env : Env) (c : Client) (device : ClientDevice) (w : World) :
    c.CreateClientDevice env device w =
      match env.server w.sent (c.requestOf env (.CreateClientDevice device)) with
      | .error err =>
        (.returned {} (some (.transport err)),
          c, w.afterRequest (c.requestOf env (.CreateClientDevice device)))
      | .ok resp =>
        if resp.statusCode ≠ 200 then
          (.returned {} (some (.msg ("failed to create client device: " ++
            (resp.decoded .createClientDeviceResponseError).Meta.Message))),
            c, w.afterRequest (c.requestOf env (.CreateClientDevice device)))
        else
          match (resp.decoded .createClientDeviceResponseSuccess).Data with
          | [] =>
            (.panicked "index out of range [0] with length 0",
              c, w.afterRequest (c.requestOf env (.CreateClientDevice device)))
          | d :: _ =>
            (.returned d none, c, w.afterRequest (c.requestOf env (.CreateClientDevice device))) := by
  have hreq : env.server w.sent
      { (c.newAuthenticatedRequest env
          ("/proxy/network/api/s/" ++ c.site ++ "/rest/user")).2.1.SetBody (.device device) with
        method := .POST
        url := (c.newAuthenticatedRequest env
          ("/proxy/network/api/s/" ++ c.site ++ "/rest/user")).1 } =
      env.server w.sent (c.requestOf env (.CreateClientDevice device)) := rfl
  cases h : env.server w.sent (c.requestOf env (.CreateClientDevice device)) with
  | error err =>
    rw [h] at hreq
    simp [Client.CreateClientDevice, execute, hreq, Client.requestOf, Client.authRequest,
      World.afterRequest]
  | ok resp =>
    rw [h] at hreq
    by_cases hst : resp.statusCode = 200
    · cases hd : (resp.decoded .createClientDeviceResponseSuccess).Data <;>
        simp [Client.CreateClientDevice, execute, hreq, Client.requestOf, Client.authRequest,
          World.afterRequest, Client.logResponse, hst, hd]
    · simp [Client.CreateClientDevice, execute, hreq, Client.requestOf, Client.authRequest,
        World.afterRequest, Client.logResponse, hst]

theorem GetClientDevice_eq (env : Env) (c : Client) (id : String) (w : World) :
    c.GetClientDevice env id w =
      match env.server w.sent (c.requestOf env (.GetClientDevice id)) with
      | .error err =>
        (({}, some (.transport err)), c, w.afterRequest (c.requestOf env (.GetClientDevice id)))
      | .ok resp =>
        if resp.statusCode ≠ 200 then
          (({}, some (.msg "failed to retrieve client devices")),
            c, w.afterRequest (c.requestOf env (.GetClientDevice id)))
        else
          match (resp.decoded .getClientDevicesResponseSuccess).Data.find? (fun x => decide (x.ID = id)) with
          | some x => ((x, none), c, w.afterRequest (c.requestOf env (.GetClientDevice id)))
          | none =>
            (({}, some (.msg ("no client device found with an ID of '" ++ id ++ "'"))),
              c, w.afterRequest (c.requestOf env (.GetClientDevice id))) := by
  have hr : c.requestOf env (.GetClientDevice id) = c.requestOf env .GetClientDevices := rfl
  rw [hr]
  unfold Client.GetClientDevice
  rw [GetClientDevices_eq]
  cases env.server w.sent (c.requestOf env .GetClientDevices) with
  | error err => rfl
  | ok resp =>
    by_cases hst : resp.statusCode = 200
    · simp only [hst, ne_eq, not_true_eq_false, if_false]
    · simp only [hst, ne_eq, not_false_eq_true, if_true]

theorem GetStaticDNSEntry_eq (env : Env) (c : Client) (id : String) (w : World) :
    c.GetStaticDNSEntry env id w =
      match env.server w.sent (c.requestOf env (.GetStaticDNSEntry id)) with
      | .error err =>
        (({}, some (.transport err)), c, w.afterRequest (c.requestOf env (.GetStaticDNSEntry id)))
      | .ok resp =>
        if resp.statusCode ≠ 200 then
          (({}, some (.msg "failed to retrieve static DNS entries")),
            c, w.afterRequest (c.requestOf env (.GetStaticDNSEntry id)))
        else
          match (resp.decoded .getStaticDNSEntriesResponseSuccess).find? (fun x => decide (x.ID = id)) with
          | some x => ((x, none), c, w.afterRequest (c.requestOf env (.GetStaticDNSEntry id)))
          | none =>
            (({}, some (.msg ("no static DNS entry found with an ID of '" ++ id ++ "'"))),
              c, w.afterRequest (c.requestOf env (.GetStaticDNSEntry id))) := by
  have hr : c.requestOf env (.GetStaticDNSEntry id) = c.requestOf env .GetStaticDNSEntries := rfl
  rw [hr]
  unfold Client.GetStaticDNSEntry
  rw [GetStaticDNSEntries_eq]
  cases env.server w.sent (c.requestOf env .GetStaticDNSEntries) with
  | error err => rfl
  | ok resp =>
    by_cases hst : resp.statusCode = 200
    · simp only [hst, ne_eq, not_true_eq_false, if_false]
    · simp only [hst, ne_eq, not_false_eq_true, if_true]

theorem GetStaticDNSRecord_eq (env : Env) (c : Client) (id : String) (w : World) :
    c.GetStaticDNSRecord env id w =
      match env.server w.sent (c.requestOf env (.GetStaticDNSRecord id)) with
      | .error err =>
        (({}, some (.transport err)), c, w.afterRequest (c.requestOf env (.GetStaticDNSRecord id)))
      | .ok resp =>
        if resp.statusCode ≠ 200 then
          (({}, some (.msg "failed to retrieve static DNS records")),
            c, w.afterRequest (c.requestOf env (.GetStaticDNSRecord id)))
        else
          match (resp.decoded .getStaticDNSRecordsResponseSuccess).find? (fun x => decide (x.ID = id)) with
          | some x => ((x, none), c, w.afterRequest (c.requestOf env (.GetStaticDNSRecord id)))
          | none =>
            (({}, some (.msg ("no static DNS record found with an ID of '" ++ id ++ "'"))),
              c, w.afterRequest (c.requestOf env (.GetStaticDNSRecord id))) := by
  have hr : c.requestOf env (.GetStaticDNSRecord id) = c.requestOf env .GetStaticDNSRecords := rfl
  rw [hr]
  unfold Client.GetStaticDNSRecord
  rw [GetStaticDNSRecords_eq]
  cases env.server w.sent (c.requestOf env .GetStaticDNSRecords) with
  | error err => rfl
  | ok resp =>
    by_cases hst : resp.statusCode = 200
    · simp only [hst, ne_eq, not_true_eq_false, if_false]
    · simp only [hst, ne_eq, not_false_eq_true, if_true]

/-! ## The authenticated request -/

/-- C11. For every client state, the request built by
`newAuthenticatedRequest` carries exactly one `X-Csrf-Token` header value,
the stored CSRF token, and exactly one cookie: the one named with the session
cookie name, with the stored session token as value, path "/", the client's
hostname as domain, Secure and HttpOnly set and SameSite=None. On a client
just built by `NewClient` the header value and the cookie value are both the
empty string. -/
theorem authenticated_request_carries_session (env : Env) (c : Client) (uri : String)
    (hostname site : String) (ignoreUntrustedSSLCert : Bool) :
    (c.newAuthenticatedRequest env uri).2.1.headerValues "X-Csrf-Token" = [c.authData.CSRFToken] ∧
      (c.newAuthenticatedRequest env uri).2.1.cookies =
        [{ Name := env.JWTCookieName, Value := c.authData.JWT, Path := "/", Domain := c.hostname,
           Secure := true, HttpOnly := true, SameSite := .SameSiteNoneMode }] ∧
      ((NewClient hostname site ignoreUntrustedSSLCert).newAuthenticatedRequest env
        uri).2.1.headerValues "X-Csrf-Token" = [""] ∧
      ((NewClient hostname site ignoreUntrustedSSLCert).newAuthenticatedRequest env
        uri).2.1.cookies =
        [{ Name := env.JWTCookieName, Value := "", Path := "/", Domain := hostname,
           Secure := true, HttpOnly := true, SameSite := .SameSiteNoneMode }] := by
  refine ⟨?_, rfl, ?_, rfl⟩ <;>
    simp [Client.newAuthenticatedRequest, Client.newRequest, Request.SetHeader,
      Request.SetCookie, Request.headerValues, NewClient]

/-! ## The session is written by `Login` only -/

theorem worldAfter_eq (env : Env) (c : Client) (w : World) (k : Call) :
    c.worldAfter env w k = w.afterRequest (c.requestOf env k) := by
  cases k with
  | GetNetworkAppInfo => exact GetNetworkAppInfo_world env c w
  | CreateClientDevice device =>
    simp only [Client.worldAfter, CreateClientDevice_eq]
    repeat' split
    all_goals rfl
  | GetClientDevices =>
    simp only [Client.worldAfter, GetClientDevices_eq]
    repeat' split
    all_goals rfl
  | GetClientDevice id =>
    simp only [Client.worldAfter, GetClientDevice_eq]
    repeat' split
    all_goals rfl
  | CreateStaticDNSEntry entry =>
    simp only [Client.worldAfter, CreateStaticDNSEntry_eq]
    repeat' split
    all_goals rfl
  | DeleteStaticDNSEntry id =>
    simp only [Client.worldAfter, DeleteStaticDNSEntry_eq]
    repeat' split
    all_goals rfl
  | GetStaticDNSEntries =>
    simp only [Client.worldAfter, GetStaticDNSEntries_eq]
    repeat' split
    all_goals rfl
  | GetStaticDNSEntry id =>
    simp only [Client.worldAfter, GetStaticDNSEntry_eq]
    repeat' split
    all_goals rfl
  | UpdateStaticDNSEntry id entry =>
    simp only [Client.worldAfter, UpdateStaticDNSEntry_eq]
    repeat' split
    all_goals rfl
  | CreateStaticDNSRecord record =>
    simp only [Client.worldAfter, CreateStaticDNSRecord_eq]
    repeat' split
    all_goals rfl
  | DeleteStaticDNSRecord id =>
    simp only [Client.worldAfter, DeleteStaticDNSRecord_eq]
    repeat' split
    all_goals rfl
  | GetStaticDNSRecords =>
    simp only [Client.worldAfter, GetStaticDNSRecords_eq]
    repeat' split
    all_goals rfl
  | GetStaticDNSRecord id =>
    simp only [Client.worldAfter, GetStaticDNSRecord_eq]
    repeat' split
    all_goals rfl
  | UpdateStaticDNSRecord id record =>
    simp only [Client.worldAfter, UpdateStaticDNSRecord_eq]
    repeat' split
    all_goals rfl

theorem clientAfter_eq (env : Env) (c : Client) (w : World) (k : Call) :
    c.clientAfter env w k = c := by
  cases k with
  | GetNetworkAppInfo => exact GetNetworkAppInfo_client env c w
  | CreateClientDevice device =>
    simp only [Client.clientAfter, CreateClientDevice_eq]
    repeat' split
    all_goals rfl
  | GetClientDevices =>
    simp only [Client.clientAfter, GetClientDevices_eq]
    repeat' split
    all_goals rfl
  | GetClientDevice id =>
    simp only [Client.clientAfter, GetClientDevice_eq]
    repeat' split
    all_goals rfl
  | CreateStaticDNSEntry entry =>
    simp only [Client.clientAfter, CreateStaticDNSEntry_eq]
    repeat' split
    all_goals rfl
  | DeleteStaticDNSEntry id =>
    simp only [Client.clientAfter, DeleteStaticDNSEntry_eq]
    repeat' split
    all_goals rfl
  | GetStaticDNSEntries =>
    simp only [Client.clientAfter, GetStaticDNSEntries_eq]
    repeat' split
    all_goals rfl
  | GetStaticDNSEntry id =>
    simp only [Client.clientAfter, GetStaticDNSEntry_eq]
    repeat' split
    all_goals rfl
  | UpdateStaticDNSEntry id entry =>
    simp only [Client.clientAfter, UpdateStaticDNSEntry_eq]
    repeat' split
    all_goals rfl
  | CreateStaticDNSRecord record =>
    simp only [Client.clientAfter, CreateStaticDNSRecord_eq]
    repeat' split
    all_goals rfl
  | DeleteStaticDNSRecord id =>
    simp only [Client.clientAfter, DeleteStaticDNSRecord_eq]
    repeat' split
    all_goals rfl
  | GetStaticDNSRecords =>
    simp only [Client.clientAfter, GetStaticDNSRecords_eq]
    repeat' split
    all_goals rfl
  | GetStaticDNSRecord id =>
    simp only [Client.clientAfter, GetStaticDNSRecord_eq]
    repeat' split
    all_goals rfl
  | UpdateStaticDNSRecord id record =>
    simp only [Client.clientAfter, UpdateStaticDNSRecord_eq]
    repeat' split
    all_goals rfl

/-- C12. Whatever the server answers, the client that
`newAuthenticatedRequest` leaves and the client that each resource operation
leaves is the client it was called on: session token, CSRF token, user
profile, cached application metadata, hostname and site are unchanged. So over
any sequence of resource operations (no `Login` among them), each made on the
client the one before it left, the client afterwards is the client before;
each operation sends exactly one request, the one built from that unchanged
client, so every request of the sequence carries the same session token and
CSRF token; and a request built by `newAuthenticatedRequest` afterwards is the
one it would have built before. -/
theorem resource_operations_keep_session (env : Env) (fuel : Nat) (steps : List Step)
    (c : Client) (w : World) (uri : String)
    (hcalls : ∀ s, s ∈ steps → s.isCall = true) :
    (c.newAuthenticatedRequest env uri).2.2 = c ∧
      (∀ k, c.clientAfter env w k = c) ∧
      (runSteps env fuel steps c w).1 = c ∧
      (runSteps env fuel steps c w).2 =
        { sent := w.sent + steps.length, trace := w.trace ++ c.requestsOf env steps } ∧
      (runSteps env fuel steps c w).1.newAuthenticatedRequest env uri =
        c.newAuthenticatedRequest env uri := by
  have key : ∀ (steps : List Step) (w : World), (∀ s, s ∈ steps → s.isCall = true) →
      runSteps env fuel steps c w =
        (c, { sent := w.sent + steps.length, trace := w.trace ++ c.requestsOf env steps }) := by
    intro steps
    induction steps with
    | nil => intro w _; simp [runSteps, Client.requestsOf]
    | cons st rest ih =>
      intro w h
      cases st with
      | Login username password =>
        exact absurd (h _ (List.mem_cons_self _ _)) (by simp [Step.isCall])
      | call k =>
        simp only [runSteps, worldAfter_eq, clientAfter_eq]
        rw [ih _ (fun s hs => h s (List.mem_cons_of_mem _ hs))]
        simp [World.afterRequest, Client.requestsOf, Nat.add_assoc, Nat.add_comm 1]
  rw [key steps w hcalls]
  exact ⟨rfl, clientAfter_eq env c w, rfl, rfl, rfl⟩

/-- Witness of C12: three resource operations, answered with a list, a
failure and a transport error, leave the client as it was; a `Login` does
change it. -/
theorem resource_operations_keep_session_witness :
    (runSteps mixedEnv 1
        [.call .GetClientDevices, .call (.DeleteStaticDNSRecord "r7"),
         .call (.CreateStaticDNSRecord hostRecord)] sessionClient {}).1 = sessionClient ∧
      (runSteps (cookieEnv "hdr.csrf.sig") 1 [.Login "admin" "secret"] freshClient {}).1 ≠
        freshClient :=
  ⟨(resource_operations_keep_session mixedEnv 1
      [.call .GetClientDevices, .call (.DeleteStaticDNSRecord "r7"),
       .call (.CreateStaticDNSRecord hostRecord)] sessionClient {} "/x"
      (by decide)).2.2.1,
   by decide⟩

/-! ## Status codes and error values of the resource operations -/

/-- C13, counterexample. `GetClientDevice` for an identifier that is not in
the list: the request is sent without a transport error and answered with
status 200, and the operation returns an error. -/
theorem get_one_fails_on_status_200 :
    devicesEnv.server 0 (sessionClient.requestOf devicesEnv (.GetClientDevice "d9")) =
        .ok (devicesOk threeDevices) ∧
      (devicesOk threeDevices).statusCode = 200 ∧
      (sessionClient.GetClientDevice devicesEnv "d9" {}).1 =
        ({}, some (.msg "no client device found with an ID of 'd9'")) := by
  refine ⟨rfl, rfl, by decide⟩

theorem find?_ID_eq_none {α : Type} (f : α → String) (l : List α) (id : String) :
    l.find? (fun x => decide (f x = id)) = none ↔ ∀ x, x ∈ l → f x ≠ id := by
  simp [List.find?_eq_none]

/-- C13, as amended. When the HTTP client returns an error for the request
of a resource operation (the transport failed, or it could not decode the body
of the response, also one with status 200), the operation returns that error
and the zero value. When the HTTP client returns a response:
`GetNetworkAppInfo`, the create, read-all, update and delete operations return
an error if and only if the status is not 200; `CreateClientDevice` returns
with an error if and only if the status is not 200; the read-one operations
return an error if and only if the status is not 200 or no element of the
fetched list has the requested identifier. Whenever an error is returned, the
entity or list returned with it is the zero value. -/
theorem operation_fails_exactly_on_non_200 (env : Env) (c : Client) (w : World) (k : Call) :
    (∀ e, env.server w.sent (c.requestOf env k) = .error e →
      match k with
      | .GetNetworkAppInfo => (c.GetNetworkAppInfo env w).1 = ({}, some (.transport e))
      | .CreateClientDevice device =>
        (c.CreateClientDevice env device w).1 = .returned {} (some (.transport e))
      | .GetClientDevices => (c.GetClientDevices env w).1 = ([], some (.transport e))
      | .GetClientDevice id => (c.GetClientDevice env id w).1 = ({}, some (.transport e))
      | .CreateStaticDNSEntry entry =>
        (c.CreateStaticDNSEntry env entry w).1 = ({}, some (.transport e))
      | .DeleteStaticDNSEntry id => (c.DeleteStaticDNSEntry env id w).1 = some (.transport e)
      | .GetStaticDNSEntries => (c.GetStaticDNSEntries env w).1 = ([], some (.transport e))
      | .GetStaticDNSEntry id => (c.GetStaticDNSEntry env id w).1 = ({}, some (.transport e))
      | .UpdateStaticDNSEntry id entry =>
        (c.UpdateStaticDNSEntry env id entry w).1 = ({}, some (.transport e))
      | .CreateStaticDNSRecord record =>
        (c.CreateStaticDNSRecord env record w).1 = ({}, some (.transport e))
      | .DeleteStaticDNSRecord id => (c.DeleteStaticDNSRecord env id w).1 = some (.transport e)
      | .GetStaticDNSRecords => (c.GetStaticDNSRecords env w).1 = ([], some (.transport e))
      | .GetStaticDNSRecord id => (c.GetStaticDNSRecord env id w).1 = ({}, some (.transport e))
      | .UpdateStaticDNSRecord id record =>
        (c.UpdateStaticDNSRecord env id record w).1 = ({}, some (.transport e))) ∧
    (∀ resp, env.server w.sent (c.requestOf env k) = .ok resp →
      match k with
      | .GetNetworkAppInfo =>
        FailsExactlyWhen (resp.statusCode ≠ 200) {} (c.GetNetworkAppInfo env w).1
      | .CreateClientDevice device =>
        ((∃ v e, (c.CreateClientDevice env device w).1 = .returned v (some e)) ↔
            resp.statusCode ≠ 200) ∧
          ∀ v e, (c.CreateClientDevice env device w).1 = .returned v (some e) → v = {}
      | .GetClientDevices =>
        FailsExactlyWhen (resp.statusCode ≠ 200) [] (c.GetClientDevices env w).1
      | .GetClientDevice id =>
        FailsExactlyWhen
          (resp.statusCode ≠ 200 ∨
            ∀ x, x ∈ (resp.decoded .getClientDevicesResponseSuccess).Data → x.ID ≠ id)
          {} (c.GetClientDevice env id w).1
      | .CreateStaticDNSEntry entry =>
        FailsExactlyWhen (resp.statusCode ≠ 200) {} (c.CreateStaticDNSEntry env entry w).1
      | .DeleteStaticDNSEntry id =>
        ((c.DeleteStaticDNSEntry env id w).1 ≠ none ↔ resp.statusCode ≠ 200)
      | .GetStaticDNSEntries =>
        FailsExactlyWhen (resp.statusCode ≠ 200) [] (c.GetStaticDNSEntries env w).1
      | .GetStaticDNSEntry id =>
        FailsExactlyWhen
          (resp.statusCode ≠ 200 ∨
            ∀ x, x ∈ resp.decoded .getStaticDNSEntriesResponseSuccess → x.ID ≠ id)
          {} (c.GetStaticDNSEntry env id w).1
      | .UpdateStaticDNSEntry id entry =>
        FailsExactlyWhen (resp.statusCode ≠ 200) {} (c.UpdateStaticDNSEntry env id entry w).1
      | .CreateStaticDNSRecord record =>
        FailsExactlyWhen (resp.statusCode ≠ 200) {} (c.CreateStaticDNSRecord env record w).1
      | .DeleteStaticDNSRecord id =>
        ((c.DeleteStaticDNSRecord env id w).1 ≠ none ↔ resp.statusCode ≠ 200)
      | .GetStaticDNSRecords =>
        FailsExactlyWhen (resp.statusCode ≠ 200) [] (c.GetStaticDNSRecords env w).1
      | .GetStaticDNSRecord id =>
        FailsExactlyWhen
          (resp.statusCode ≠ 200 ∨
            ∀ x, x ∈ resp.decoded .getStaticDNSRecordsResponseSuccess → x.ID ≠ id)
          {} (c.GetStaticDNSRecord env id w).1
      | .UpdateStaticDNSRecord id record =>
        FailsExactlyWhen (resp.statusCode ≠ 200) {} (c.UpdateStaticDNSRecord env id record w).1) := by
  refine ⟨?_, ?_⟩
  · intro e he
    cases k with
    | GetNetworkAppInfo =>
      have h : env.server w.sent (c.infoGet env) = .error e := he
      simp [GetNetworkAppInfo_eq, h]
    | CreateClientDevice device => simp [CreateClientDevice_eq, he]
    | GetClientDevices => simp [GetClientDevices_eq, he]
    | GetClientDevice id => simp [GetClientDevice_eq, he]
    | CreateStaticDNSEntry entry => simp [CreateStaticDNSEntry_eq, he]
    | DeleteStaticDNSEntry id => simp [DeleteStaticDNSEntry_eq, he]
    | GetStaticDNSEntries => simp [GetStaticDNSEntries_eq, he]
    | GetStaticDNSEntry id => simp [GetStaticDNSEntry_eq, he]
    | UpdateStaticDNSEntry id entry => simp [UpdateStaticDNSEntry_eq, he]
    | CreateStaticDNSRecord record => simp [CreateStaticDNSRecord_eq, he]
    | DeleteStaticDNSRecord id => simp [DeleteStaticDNSRecord_eq, he]
    | GetStaticDNSRecords => simp [GetStaticDNSRecords_eq, he]
    | GetStaticDNSRecord id => simp [GetStaticDNSRecord_eq, he]
    | UpdateStaticDNSRecord id record => simp [UpdateStaticDNSRecord_eq, he]
  intro resp hsrv
  cases k with
  | GetNetworkAppInfo =>
    have h : env.server w.sent (c.infoGet env) = .ok resp := hsrv
    by_cases hst : resp.statusCode = 200 <;>
      simp [FailsExactlyWhen, GetNetworkAppInfo_eq, h, hst]
  | CreateClientDevice device =>
    by_cases hst : resp.statusCode = 200
    · cases hd : (resp.decoded .createClientDeviceResponseSuccess).Data <;>
        simp [CreateClientDevice_eq, hsrv, hst, hd]
    · simp only [CreateClientDevice_eq, hsrv, hst, ne_eq, not_false_eq_true, if_true]
      refine ⟨⟨fun _ => trivial, fun _ => ⟨_, _, rfl⟩⟩, ?_⟩
      intro v e h
      injection h with h1 _
      exact h1.symm
  | GetClientDevices =>
    by_cases hst : resp.statusCode = 200 <;>
      simp [FailsExactlyWhen, GetClientDevices_eq, hsrv, hst]
  | GetClientDevice id =>
    by_cases hst : resp.statusCode = 200
    · cases hf : (resp.decoded .getClientDevicesResponseSuccess).Data.find?
          (fun x => decide (x.ID = id)) with
      | none =>
        have hall := (find?_ID_eq_none (fun x : ClientDevice => x.ID) _ id).1 hf
        simp [FailsExactlyWhen, GetClientDevice_eq, hsrv, hst, hf]
        exact hall
      | some d =>
        have hne : ¬ ∀ x, x ∈ (resp.decoded .getClientDevicesResponseSuccess).Data → x.ID ≠ id := by
          intro hall
          have := (find?_ID_eq_none (fun x : ClientDevice => x.ID) _ id).2 hall
          rw [hf] at this
          exact absurd this (by simp)
        simp only [FailsExactlyWhen, GetClientDevice_eq, hsrv, hst, hf]
        simp
        exact ⟨d, List.mem_of_find?_eq_some hf, by simpa using List.find?_some hf⟩
    · simp [FailsExactlyWhen, GetClientDevice_eq, hsrv, hst]
  | CreateStaticDNSEntry entry =>
    by_cases hst : resp.statusCode = 200 <;>
      simp [FailsExactlyWhen, CreateStaticDNSEntry_eq, hsrv, hst]
  | DeleteStaticDNSEntry id =>
    by_cases hst : resp.statusCode = 200 <;>
      simp [DeleteStaticDNSEntry_eq, hsrv, hst]
  | GetStaticDNSEntries =>
    by_cases hst : resp.statusCode = 200 <;>
      simp [FailsExactlyWhen, GetStaticDNSEntries_eq, hsrv, hst]
  | GetStaticDNSEntry id =>
    by_cases hst : resp.statusCode = 200
    · cases hf : (resp.decoded .getStaticDNSEntriesResponseSuccess).find?
          (fun x => decide (x.ID = id)) with
      | none =>
        have hall := (find?_ID_eq_none (fun x : StaticDNSEntry => x.ID) _ id).1 hf
        simp [FailsExactlyWhen, GetStaticDNSEntry_eq, hsrv, hst, hf]
        exact hall
      | some d =>
        have hne : ¬ ∀ x, x ∈ resp.decoded .getStaticDNSEntriesResponseSuccess → x.ID ≠ id := by
          intro hall
          have := (find?_ID_eq_none (fun x : StaticDNSEntry => x.ID) _ id).2 hall
          rw [hf] at this
          exact absurd this (by simp)
        simp only [FailsExactlyWhen, GetStaticDNSEntry_eq, hsrv, hst, hf]
        simp
        exact ⟨d, List.mem_of_find?_eq_some hf, by simpa using List.find?_some hf⟩
    · simp [FailsExactlyWhen, GetStaticDNSEntry_eq, hsrv, hst]
  | UpdateStaticDNSEntry id entry =>
    by_cases hst : resp.statusCode = 200 <;>
      simp [FailsExactlyWhen, UpdateStaticDNSEntry_eq, hsrv, hst]
  | CreateStaticDNSRecord record =>
    by_cases hst : resp.statusCode = 200 <;>
      simp [FailsExactlyWhen, CreateStaticDNSRecord_eq, hsrv, hst]
  | DeleteStaticDNSRecord id =>
    by_cases hst : resp.statusCode = 200 <;>
      simp [DeleteStaticDNSRecord_eq, hsrv, hst]
  | GetStaticDNSRecords =>
    by_cases hst : resp.statusCode = 200 <;>
      simp [FailsExactlyWhen, GetStaticDNSRecords_eq, hsrv, hst]
  | GetStaticDNSRecord id =>
    by_cases hst : resp.statusCode = 200
    · cases hf : (resp.decoded .getStaticDNSRecordsResponseSuccess).find?
          (fun x => decide (x.ID = id)) with
      | none =>
        have hall := (find?_ID_eq_none (fun x : StaticDNSRecord => x.ID) _ id).1 hf
        simp [FailsExactlyWhen, GetStaticDNSRecord_eq, hsrv, hst, hf]
        exact hall
      | some d =>
        have hne : ¬ ∀ x, x ∈ resp.decoded .getStaticDNSRecordsResponseSuccess → x.ID ≠ id := by
          intro hall
          have := (find?_ID_eq_none (fun x : StaticDNSRecord => x.ID) _ id).2 hall
          rw [hf] at this
          exact absurd this (by simp)
        simp only [FailsExactlyWhen, GetStaticDNSRecord_eq, hsrv, hst, hf]
        simp
        exact ⟨d, List.mem_of_find?_eq_some hf, by simpa using List.find?_some hf⟩
    · simp [FailsExactlyWhen, GetStaticDNSRecord_eq, hsrv, hst]
  | UpdateStaticDNSRecord id record =>
    by_cases hst : resp.statusCode = 200 <;>
      simp [FailsExactlyWhen, UpdateStaticDNSRecord_eq, hsrv, hst]

/-- Witness of C13 as amended: a create answered with status 201 returns an
error and the zero-value record; a create for which the HTTP client returns an
error returns that error and the zero-value record. -/
theorem operation_fails_exactly_on_non_200_witness :
    ((sessionClient.CreateStaticDNSRecord createdEnv hostRecord {}).1.2 ≠ none ∧
      (sessionClient.CreateStaticDNSRecord createdEnv hostRecord {}).1.1 = {}) ∧
      (sessionClient.CreateStaticDNSRecord undecodableEnv hostRecord {}).1 =
        ({}, some (.transport "json: cannot unmarshal string into Go value")) := by
  have h : FailsExactlyWhen (createdResponse.statusCode ≠ 200) {}
      (sessionClient.CreateStaticDNSRecord createdEnv hostRecord {}).1 :=
    (operation_fails_exactly_on_non_200 createdEnv sessionClient {}
      (.CreateStaticDNSRecord hostRecord)).2 createdResponse rfl
  exact ⟨⟨h.1.2 (by decide), h.2 (h.1.2 (by decide))⟩,
    (operation_fails_exactly_on_non_200 undecodableEnv sessionClient {}
      (.CreateStaticDNSRecord hostRecord)).1 "json: cannot unmarshal string into Go value" rfl⟩

/-- C14. When the request of `CreateClientDevice`, or of Create, Update or
Delete of a static DNS entry or record, is answered with a status other than
200, the operation returns the zero value and an error whose text is the
fixed text of the operation, then ": ", then the message of the decoded error
envelope, unchanged. -/
theorem operation_error_carries_server_message (env : Env) (c : Client) (w : World)
    (resp : Response) (hst : resp.statusCode ≠ 200) :
    (∀ device, env.server w.sent (c.requestOf env (.CreateClientDevice device)) = .ok resp →
      (c.CreateClientDevice env device w).1 =
        .returned {} (some (.msg ("failed to create client device: " ++
          (resp.decoded .createClientDeviceResponseError).Meta.Message)))) ∧
    (∀ entry, env.server w.sent (c.requestOf env (.CreateStaticDNSEntry entry)) = .ok resp →
      (c.CreateStaticDNSEntry env entry w).1 =
        ({}, some (.msg ("failed to create static DNS entry: " ++
          (resp.decoded .createStaticDNSEntriesResponseError).Message)))) ∧
    (∀ id entry, env.server w.sent (c.requestOf env (.UpdateStaticDNSEntry id entry)) = .ok resp →
      (c.UpdateStaticDNSEntry env id entry w).1 =
        ({}, some (.msg ("failed to update static DNS entry: " ++
          (resp.decoded .updateStaticDNSEntriesResponseError).Message)))) ∧
    (∀ id, env.server w.sent (c.requestOf env (.DeleteStaticDNSEntry id)) = .ok resp →
      (c.DeleteStaticDNSEntry env id w).1 =
        some (.msg ("failed to delete static DNS entry: " ++
          (resp.decoded .deleteStaticDNSEntriesResponseError).Message))) ∧
    (∀ record, env.server w.sent (c.requestOf env (.CreateStaticDNSRecord record)) = .ok resp →
      (c.CreateStaticDNSRecord env record w).1 =
        ({}, some (.msg ("failed to create static DNS record: " ++
          (resp.decoded .createStaticDNSRecordsResponseError).Message)))) ∧
    (∀ id record,
      env.server w.sent (c.requestOf env (.UpdateStaticDNSRecord id record)) = .ok resp →
      (c.UpdateStaticDNSRecord env id record w).1 =
        ({}, some (.msg ("failed to update static DNS record: " ++
          (resp.decoded .updateStaticDNSRecordsResponseError).Message)))) ∧
    (∀ id, env.server w.sent (c.requestOf env (.DeleteStaticDNSRecord id)) = .ok resp →
      (c.DeleteStaticDNSRecord env id w).1 =
        some (.msg ("failed to delete static DNS record: " ++
          (resp.decoded .deleteStaticDNSRecordsResponseError).Message))) := by
  refine ⟨?_, ?_, ?_, ?_, ?_, ?_, ?_⟩
  · intro device h
    simp [CreateClientDevice_eq, h, hst]
  · intro entry h
    simp [CreateStaticDNSEntry_eq, h, hst]
  · intro id entry h
    simp [UpdateStaticDNSEntry_eq, h, hst]
  · intro id h
    simp [DeleteStaticDNSEntry_eq, h, hst]
  · intro record h
    simp [CreateStaticDNSRecord_eq, h, hst]
  · intro id record h
    simp [UpdateStaticDNSRecord_eq, h, hst]
  · intro id h
    simp [DeleteStaticDNSRecord_eq, h, hst]

/-- Witness of C14: an update answered with status 500 and a message. -/
theorem operation_error_carries_server_message_witness :
    (sessionClient.UpdateStaticDNSRecord failingEnv "r7" hostRecord {}).1 =
      ({}, some (.msg "failed to update static DNS record: database unavailable")) :=
  (operation_error_carries_server_message failingEnv sessionClient {}
    (failure 500 "database unavailable") (by decide)).2.2.2.2.2.1 "r7" hostRecord rfl

/-- C15, counterexample. `GetStaticDNSRecords` is answered with status 500
and an error envelope whose message is "database unavailable". The error
returned is the fixed text "failed to retrieve static DNS records", which
does not contain the server's message. -/
theorem read_all_error_drops_server_message :
    failingEnv.server 0 (sessionClient.requestOf failingEnv .GetStaticDNSRecords) =
        .ok (failure 500 "database unavailable") ∧
      ((failure 500 "database unavailable").decoded .getStaticDNSRecordsResponseError).Message =
        "database unavailable" ∧
      (sessionClient.GetStaticDNSRecords failingEnv {}).1 =
        ([], some (.msg "failed to retrieve static DNS records")) ∧
      ¬ ("database unavailable".toList <:+: "failed to retrieve static DNS records".toList) := by
  refine ⟨rfl, rfl, by decide, by decide⟩

/-- C15, as amended. When the request of a read-all operation
(`GetClientDevices`, `GetStaticDNSEntries`, `GetStaticDNSRecords`,
`GetNetworkAppInfo`) is answered with a status other than 200, the operation
returns the zero value and an error whose text is the fixed text of the
operation, whatever the error envelope of the answer holds. -/
theorem read_all_error_is_fixed_text (env : Env) (c : Client) (w : World) (resp : Response)
    (hst : resp.statusCode ≠ 200) :
    (env.server w.sent (c.requestOf env .GetClientDevices) = .ok resp →
      (c.GetClientDevices env w).1 = ([], some (.msg "failed to retrieve client devices"))) ∧
    (env.server w.sent (c.requestOf env .GetStaticDNSEntries) = .ok resp →
      (c.GetStaticDNSEntries env w).1 =
        ([], some (.msg "failed to retrieve static DNS entries"))) ∧
    (env.server w.sent (c.requestOf env .GetStaticDNSRecords) = .ok resp →
      (c.GetStaticDNSRecords env w).1 =
        ([], some (.msg "failed to retrieve static DNS records"))) ∧
    (env.server w.sent (c.requestOf env .GetNetworkAppInfo) = .ok resp →
      (c.GetNetworkAppInfo env w).1 = ({}, some (.msg "failed to retrieve network info"))) := by
  refine ⟨?_, ?_, ?_, ?_⟩
  · intro h
    simp [GetClientDevices_eq, h, hst]
  · intro h
    simp [GetStaticDNSEntries_eq, h, hst]
  · intro h
    simp [GetStaticDNSRecords_eq, h, hst]
  · intro h
    have h2 : env.server w.sent (c.infoGet env) = .ok resp := h
    simp [GetNetworkAppInfo_eq, h2, hst]

/-- Witness of C15 as amended: the device list is answered with status 500
and a message. -/
theorem read_all_error_is_fixed_text_witness :
    (sessionClient.GetClientDevices failingEnv {}).1 =
      ([], some (.msg "failed to retrieve client devices")) :=
  (read_all_error_is_fixed_text failingEnv sessionClient {} (failure 500 "database unavailable")
    (by decide)).1 rfl

/-! ## Payloads of the resource operations -/

/-- C16. When the request of a resource operation is answered with status
200, the operation returns the decoded payload as it is and no error:
`GetNetworkAppInfo` the decoded metadata, the read-all operations the decoded
list, Create and Update of static DNS entries and records the decoded entity,
`CreateClientDevice` the first element of the data list of the envelope (when
there is one), and the delete operations `nil`. -/
theorem operation_returns_decoded_payload (env : Env) (c : Client) (w : World) (resp : Response)
    (hst : resp.statusCode = 200) :
    (env.server w.sent (c.requestOf env .GetNetworkAppInfo) = .ok resp →
      (c.GetNetworkAppInfo env w).1 =
        ((resp.decoded .getNetworkAppInfoResponseSuccess).NetworkAppInfo, none)) ∧
    (∀ device d rest,
      env.server w.sent (c.requestOf env (.CreateClientDevice device)) = .ok resp →
      (resp.decoded .createClientDeviceResponseSuccess).Data = d :: rest →
      (c.CreateClientDevice env device w).1 = .returned d none) ∧
    (env.server w.sent (c.requestOf env .GetClientDevices) = .ok resp →
      (c.GetClientDevices env w).1 =
        ((resp.decoded .getClientDevicesResponseSuccess).Data, none)) ∧
    (∀ entry, env.server w.sent (c.requestOf env (.CreateStaticDNSEntry entry)) = .ok resp →
      (c.CreateStaticDNSEntry env entry w).1 =
        (resp.decoded .createStaticDNSEntriesResponseSuccess, none)) ∧
    (∀ id entry, env.server w.sent (c.requestOf env (.UpdateStaticDNSEntry id entry)) = .ok resp →
      (c.UpdateStaticDNSEntry env id entry w).1 =
        (resp.decoded .updateStaticDNSEntriesResponseSuccess, none)) ∧
    (env.server w.sent (c.requestOf env .GetStaticDNSEntries) = .ok resp →
      (c.GetStaticDNSEntries env w).1 =
        (resp.decoded .getStaticDNSEntriesResponseSuccess, none)) ∧
    (∀ id, env.server w.sent (c.requestOf env (.DeleteStaticDNSEntry id)) = .ok resp →
      (c.DeleteStaticDNSEntry env id w).1 = none) ∧
    (∀ record, env.server w.sent (c.requestOf env (.CreateStaticDNSRecord record)) = .ok resp →
      (c.CreateStaticDNSRecord env record w).1 =
        (resp.decoded .createStaticDNSRecordsResponseSuccess, none)) ∧
    (∀ id record,
      env.server w.sent (c.requestOf env (.UpdateStaticDNSRecord id record)) = .ok resp →
      (c.UpdateStaticDNSRecord env id record w).1 =
        (resp.decoded .updateStaticDNSRecordsResponseSuccess, none)) ∧
    (env.server w.sent (c.requestOf env .GetStaticDNSRecords) = .ok resp →
      (c.GetStaticDNSRecords env w).1 =
        (resp.decoded .getStaticDNSRecordsResponseSuccess, none)) ∧
    (∀ id, env.server w.sent (c.requestOf env (.DeleteStaticDNSRecord id)) = .ok resp →
      (c.DeleteStaticDNSRecord env id w).1 = none) := by
  refine ⟨?_, ?_, ?_, ?_, ?_, ?_, ?_, ?_, ?_, ?_, ?_⟩
  · intro h
    have h2 : env.server w.sent (c.infoGet env) = .ok resp := h
    simp [GetNetworkAppInfo_eq, h2, hst]
  · intro device d rest h hd
    simp [CreateClientDevice_eq, h, hst, hd]
  · intro h
    simp [GetClientDevices_eq, h, hst]
  · intro entry h
    simp [CreateStaticDNSEntry_eq, h, hst]
  · intro id entry h
    simp [UpdateStaticDNSEntry_eq, h, hst]
  · intro h
    simp [GetStaticDNSEntries_eq, h, hst]
  · intro id h
    simp [DeleteStaticDNSEntry_eq, h, hst]
  · intro record h
    simp [CreateStaticDNSRecord_eq, h, hst]
  · intro id record h
    simp [UpdateStaticDNSRecord_eq, h, hst]
  · intro h
    simp [GetStaticDNSRecords_eq, h, hst]
  · intro id h
    simp [DeleteStaticDNSRecord_eq, h, hst]

/-- Witness of C16: a create answered with status 200 and a record returns
that record, field for field. -/
theorem operation_returns_decoded_payload_witness :
    (sessionClient.CreateStaticDNSRecord recordEnv
        { Key := "host1", RecordType := "A", Value := "10.0.0.5", TTL := 300 } {}).1 =
      ({ ID := "r7", Enabled := true, Key := "host1", RecordType := "A", TTL := 300,
         Value := "10.0.0.5" }, none) :=
  (operation_returns_decoded_payload recordEnv sessionClient {}
    (dnsOk hostRecord [hostRecord]) rfl).2.2.2.2.2.2.2.1
      { Key := "host1", RecordType := "A", Value := "10.0.0.5", TTL := 300 } rfl

/-! ## Reading one entity by its identifier -/

theorem find?_ID_of_split {α : Type} (f : α → String) (pre post : List α) (d : α) (id : String)
    (hpre : ∀ x, x ∈ pre → f x ≠ id) (hd : f d = id) :
    (pre ++ d :: post).find? (fun x => decide (f x = id)) = some d := by
  induction pre with
  | nil => simp [hd]
  | cons a pre ih =>
    have ha : f a ≠ id := hpre a (List.mem_cons_self _ _)
    simp only [List.cons_append, List.find?_cons, ha, decide_False]
    exact ih (fun x hx => hpre x (List.mem_cons_of_mem _ hx))

/-- C17. When the list request is answered with status 200 and the fetched
collection has no element whose identifier equals `id` (in particular when it
is empty), `GetClientDevice`, `GetStaticDNSEntry` and `GetStaticDNSRecord`
return the zero-value entity together with the error
"no ... found with an ID of '<id>'". -/
theorem get_one_missing_is_an_error (env : Env) (c : Client) (w : World) (resp : Response)
    (id : String) (hst : resp.statusCode = 200) :
    (env.server w.sent (c.requestOf env (.GetClientDevice id)) = .ok resp →
      (∀ x, x ∈ (resp.decoded .getClientDevicesResponseSuccess).Data → x.ID ≠ id) →
      (c.GetClientDevice env id w).1 =
        ({}, some (.msg ("no client device found with an ID of '" ++ id ++ "'")))) ∧
    (env.server w.sent (c.requestOf env (.GetStaticDNSEntry id)) = .ok resp →
      (∀ x, x ∈ resp.decoded .getStaticDNSEntriesResponseSuccess → x.ID ≠ id) →
      (c.GetStaticDNSEntry env id w).1 =
        ({}, some (.msg ("no static DNS entry found with an ID of '" ++ id ++ "'")))) ∧
    (env.server w.sent (c.requestOf env (.GetStaticDNSRecord id)) = .ok resp →
      (∀ x, x ∈ resp.decoded .getStaticDNSRecordsResponseSuccess → x.ID ≠ id) →
      (c.GetStaticDNSRecord env id w).1 =
        ({}, some (.msg ("no static DNS record found with an ID of '" ++ id ++ "'")))) := by
  refine ⟨?_, ?_, ?_⟩
  · intro h hall
    have hf := (find?_ID_eq_none (fun x : ClientDevice => x.ID) _ id).2 hall
    simp [GetClientDevice_eq, h, hst, hf]
  · intro h hall
    have hf := (find?_ID_eq_none (fun x : StaticDNSEntry => x.ID) _ id).2 hall
    simp [GetStaticDNSEntry_eq, h, hst, hf]
  · intro h hall
    have hf := (find?_ID_eq_none (fun x : StaticDNSRecord => x.ID) _ id).2 hall
    simp [GetStaticDNSRecord_eq, h, hst, hf]

/-- Witness of C17: an identifier that no device of the list has. -/
theorem get_one_missing_is_an_error_witness :
    (sessionClient.GetClientDevice devicesEnv "d9" {}).1 =
      ({}, some (.msg "no client device found with an ID of 'd9'")) :=
  (get_one_missing_is_an_error devicesEnv sessionClient {} (devicesOk threeDevices) "d9" rfl).1
    rfl (by decide)

theorem exists_first_with_ID {α : Type} (f : α → String) (l : List α) (id : String)
    (h : ∃ x, x ∈ l ∧ f x = id) :
    ∃ pre d post, l = pre ++ d :: post ∧ (∀ x, x ∈ pre → f x ≠ id) ∧ f d = id := by
  induction l with
  | nil =>
    obtain ⟨x, hx, _⟩ := h
    exact absurd hx (List.not_mem_nil x)
  | cons a l ih =>
    by_cases ha : f a = id
    · exact ⟨[], a, l, rfl, fun x hx => absurd hx (List.not_mem_nil x), ha⟩
    · obtain ⟨x, hx, hfx⟩ := h
      have hxl : x ∈ l := by
        rcases List.mem_cons.1 hx with hxa | hxl
        · rw [hxa] at hfx
          exact absurd hfx ha
        · exact hxl
      obtain ⟨pre, d, post, hl, hpre, hd⟩ := ih ⟨x, hxl, hfx⟩
      refine ⟨a :: pre, d, post, by rw [hl]; rfl, ?_, hd⟩
      intro y hy
      rcases List.mem_cons.1 hy with hya | hyp
      · rw [hya]
        exact ha
      · exact hpre y hyp

/-- C18. When the list request is answered with status 200 and the fetched
collection contains an element whose identifier equals `id`,
`GetClientDevice`, `GetStaticDNSEntry` and `GetStaticDNSRecord` return,
without error, the first such element of the collection (no element before it
has that identifier), whose identifier is `id`. In particular, when the
device list starts with three devices and all identifiers of the list are
pairwise distinct, `GetClientDevice` with the identifier of the third device
returns the third device. -/
theorem get_one_returns_first_match (env : Env) (c : Client) (w : World) (resp : Response)
    (id : String) (hst : resp.statusCode = 200) :
    (env.server w.sent (c.requestOf env (.GetClientDevice id)) = .ok resp →
      (∃ x, x ∈ (resp.decoded .getClientDevicesResponseSuccess).Data ∧ x.ID = id) →
      ∃ pre d post, (resp.decoded .getClientDevicesResponseSuccess).Data = pre ++ d :: post ∧
        (∀ x, x ∈ pre → x.ID ≠ id) ∧ d.ID = id ∧
        (c.GetClientDevice env id w).1 = (d, none)) ∧
    (env.server w.sent (c.requestOf env (.GetStaticDNSEntry id)) = .ok resp →
      (∃ x, x ∈ resp.decoded .getStaticDNSEntriesResponseSuccess ∧ x.ID = id) →
      ∃ pre d post, resp.decoded .getStaticDNSEntriesResponseSuccess = pre ++ d :: post ∧
        (∀ x, x ∈ pre → x.ID ≠ id) ∧ d.ID = id ∧
        (c.GetStaticDNSEntry env id w).1 = (d, none)) ∧
    (env.server w.sent (c.requestOf env (.GetStaticDNSRecord id)) = .ok resp →
      (∃ x, x ∈ resp.decoded .getStaticDNSRecordsResponseSuccess ∧ x.ID = id) →
      ∃ pre d post, resp.decoded .getStaticDNSRecordsResponseSuccess = pre ++ d :: post ∧
        (∀ x, x ∈ pre → x.ID ≠ id) ∧ d.ID = id ∧
        (c.GetStaticDNSRecord env id w).1 = (d, none)) ∧
    (∀ d1 d2 d3 rest,
      env.server w.sent (c.requestOf env (.GetClientDevice d3.ID)) = .ok resp →
      (resp.decoded .getClientDevicesResponseSuccess).Data = d1 :: d2 :: d3 :: rest →
      ((resp.decoded .getClientDevicesResponseSuccess).Data.map (fun x => x.ID)).Nodup →
      (c.GetClientDevice env d3.ID w).1 = (d3, none)) := by
  refine ⟨?_, ?_, ?_, ?_⟩
  · intro h hex
    obtain ⟨pre, d, post, hl, hpre, hd⟩ :=
      exists_first_with_ID (fun x : ClientDevice => x.ID) _ id hex
    refine ⟨pre, d, post, hl, hpre, hd, ?_⟩
    have hf := find?_ID_of_split (fun x : ClientDevice => x.ID) pre post d id hpre hd
    rw [← hl] at hf
    simp [GetClientDevice_eq, h, hst, hf]
  · intro h hex
    obtain ⟨pre, d, post, hl, hpre, hd⟩ :=
      exists_first_with_ID (fun x : StaticDNSEntry => x.ID) _ id hex
    refine ⟨pre, d, post, hl, hpre, hd, ?_⟩
    have hf := find?_ID_of_split (fun x : StaticDNSEntry => x.ID) pre post d id hpre hd
    rw [← hl] at hf
    simp [GetStaticDNSEntry_eq, h, hst, hf]
  · intro h hex
    obtain ⟨pre, d, post, hl, hpre, hd⟩ :=
      exists_first_with_ID (fun x : StaticDNSRecord => x.ID) _ id hex
    refine ⟨pre, d, post, hl, hpre, hd, ?_⟩
    have hf := find?_ID_of_split (fun x : StaticDNSRecord => x.ID) pre post d id hpre hd
    rw [← hl] at hf
    simp [GetStaticDNSRecord_eq, h, hst, hf]
  · intro d1 d2 d3 rest h hl hnd
    rw [hl] at hnd
    simp only [List.map_cons, List.nodup_cons, List.mem_cons] at hnd
    have h13 : d1.ID ≠ d3.ID := fun he => hnd.1 (Or.inr (Or.inl he))
    have h23 : d2.ID ≠ d3.ID := fun he => hnd.2.1 (Or.inl he)
    have hf := find?_ID_of_split (fun x : ClientDevice => x.ID) [d1, d2] rest d3 d3.ID
      (by
        intro x hx
        simp only [List.mem_cons, List.mem_singleton, List.not_mem_nil, or_false] at hx
        rcases hx with hx | hx
        · rw [hx]; exact h13
        · rw [hx]; exact h23)
      rfl
    have hl2 : (resp.decoded .getClientDevicesResponseSuccess).Data = [d1, d2] ++ d3 :: rest := hl
    rw [← hl2] at hf
    simp [GetClientDevice_eq, h, hst, hf]

/-- Witness of C18: the third of three devices is read back by its
identifier. -/
theorem get_one_returns_first_match_witness :
    (sessionClient.GetClientDevice devicesEnv "d3" {}).1 =
      ({ ID := "d3", HardwareAddress := "aa:aa:aa:aa:aa:03", Name := "printer" }, none) :=
  (get_one_returns_first_match devicesEnv sessionClient {} (devicesOk threeDevices) "d3"
    rfl).2.2.2
    { ID := "d1", HardwareAddress := "aa:aa:aa:aa:aa:01" }
    { ID := "d2", HardwareAddress := "aa:aa:aa:aa:aa:02" }
    { ID := "d3", HardwareAddress := "aa:aa:aa:aa:aa:03", Name := "printer" } []
    rfl rfl (by decide)

/-- C19. Round trip. If a create call returned no error, and the collection
fetched by a later read holds the returned entity with no element before it
that has the same identifier, then reading one by the identifier of the
returned entity returns, without error, exactly the entity the create call
returned (the server's create response, whatever the caller's input was).
This holds for static DNS records, static DNS entries and client devices. -/
theorem create_then_read_round_trip (env : Env) (c : Client) (w w2 : World) (resp : Response)
    (hst : resp.statusCode = 200) :
    (∀ (input : StaticDNSRecord) pre post,
      (c.CreateStaticDNSRecord env input w).1.2 = none →
      env.server w2.sent
        (c.requestOf env (.GetStaticDNSRecord (c.CreateStaticDNSRecord env input w).1.1.ID)) =
          .ok resp →
      resp.decoded .getStaticDNSRecordsResponseSuccess =
        pre ++ (c.CreateStaticDNSRecord env input w).1.1 :: post →
      (∀ x, x ∈ pre → x.ID ≠ (c.CreateStaticDNSRecord env input w).1.1.ID) →
      (c.GetStaticDNSRecord env (c.CreateStaticDNSRecord env input w).1.1.ID w2).1 =
        ((c.CreateStaticDNSRecord env input w).1.1, none)) ∧
    (∀ (input : StaticDNSEntry) pre post,
      (c.CreateStaticDNSEntry env input w).1.2 = none →
      env.server w2.sent
        (c.requestOf env (.GetStaticDNSEntry (c.CreateStaticDNSEntry env input w).1.1.ID)) =
          .ok resp →
      resp.decoded .getStaticDNSEntriesResponseSuccess =
        pre ++ (c.CreateStaticDNSEntry env input w).1.1 :: post →
      (∀ x, x ∈ pre → x.ID ≠ (c.CreateStaticDNSEntry env input w).1.1.ID) →
      (c.GetStaticDNSEntry env (c.CreateStaticDNSEntry env input w).1.1.ID w2).1 =
        ((c.CreateStaticDNSEntry env input w).1.1, none)) ∧
    (∀ (input e : ClientDevice) pre post,
      (c.CreateClientDevice env input w).1 = .returned e none →
      env.server w2.sent (c.requestOf env (.GetClientDevice e.ID)) = .ok resp →
      (resp.decoded .getClientDevicesResponseSuccess).Data = pre ++ e :: post →
      (∀ x, x ∈ pre → x.ID ≠ e.ID) →
      (c.GetClientDevice env e.ID w2).1 = (e, none)) := by
  refine ⟨?_, ?_, ?_⟩
  · intro input pre post _ h hl hpre
    have hf := find?_ID_of_split (fun x : StaticDNSRecord => x.ID) pre post _ _ hpre rfl
    rw [← hl] at hf
    simp [GetStaticDNSRecord_eq, h, hst, hf]
  · intro input pre post _ h hl hpre
    have hf := find?_ID_of_split (fun x : StaticDNSEntry => x.ID) pre post _ _ hpre rfl
    rw [← hl] at hf
    simp [GetStaticDNSEntry_eq, h, hst, hf]
  · intro input e pre post _ h hl hpre
    have hf := find?_ID_of_split (fun x : ClientDevice => x.ID) pre post _ _ hpre rfl
    rw [← hl] at hf
    simp [GetClientDevice_eq, h, hst, hf]

/-- Witness of C19: a record is created from an input without identifier; the
server answers with the record `r7`; the list read next holds it in second
place; reading `r7` returns the record of the create response. -/
theorem create_then_read_round_trip_witness :
    (sessionClient.CreateStaticDNSRecord roundTripEnv
        { Key := "host1", RecordType := "A", Value := "10.0.0.5", TTL := 300 } {}).1 =
        (hostRecord, none) ∧
      (sessionClient.GetStaticDNSRecord roundTripEnv "r7"
        (sessionClient.CreateStaticDNSRecord roundTripEnv
          { Key := "host1", RecordType := "A", Value := "10.0.0.5", TTL := 300 } {}).2.2).1 =
        (hostRecord, none) :=
  ⟨by decide,
   (create_then_read_round_trip roundTripEnv sessionClient {}
      (sessionClient.CreateStaticDNSRecord roundTripEnv
        { Key := "host1", RecordType := "A", Value := "10.0.0.5", TTL := 300 } {}).2.2
      (dnsOk hostRecord [{ ID := "r1", Key := "other", RecordType := "A", Value := "10.0.0.1" },
        hostRecord]) rfl).1
      { Key := "host1", RecordType := "A", Value := "10.0.0.5", TTL := 300 }
      [{ ID := "r1", Key := "other", RecordType := "A", Value := "10.0.0.1" }] []
      (by decide) rfl rfl (by decide)⟩

/-! ## Run-time aborts -/

/-- C20, at the failing input. `CreateClientDevice` is answered with status
200 and an envelope whose data list is empty. The operation indexes the first
element of that list and aborts with an out-of-range panic; it returns
neither a device nor an error. -/
theorem create_client_device_aborts_on_empty_data :
    emptyDataEnv.server 0
        (sessionClient.requestOf emptyDataEnv
          (.CreateClientDevice { HardwareAddress := "aa:aa:aa:aa:aa:09" })) =
        .ok (devicesOk []) ∧
      (devicesOk []).statusCode = 200 ∧
      ((devicesOk []).decoded .createClientDeviceResponseSuccess).Data = [] ∧
      (sessionClient.CreateClientDevice emptyDataEnv { HardwareAddress := "aa:aa:aa:aa:aa:09" }
        {}).1 = .panicked "index out of range [0] with length 0" := by
  refine ⟨rfl, rfl, rfl, by decide⟩

/-! ## Request URLs and methods -/

theorem loginLoop_trace (env : Env) (c : Client) (url : String) (req : Request) (fuel : Nat)
    (s : loginResponseSuccess) (e : loginResponseError) (w : World) :
    ∃ evs, (loginLoop env c url req 1 fuel s e w).2.trace = w.trace ++ evs ∧
      (∀ r, Event.request r ∈ evs → r = { req with method := .POST, url := url }) ∧
      (0 < fuel → evs.head? = some (Event.request { req with method := .POST, url := url })) := by
  induction fuel generalizing w s e with
  | zero => exact ⟨[], by simp [loginLoop], by simp, by simp⟩
  | succ fuel ih =>
    cases hs : env.server w.sent { req with method := .POST, url := url } with
    | error err =>
      refine ⟨[Event.request { req with method := .POST, url := url }], ?_, ?_, ?_⟩
      · simp [loginLoop, execute, hs]
      · intro r hr
        simpa using hr
      · intro _; rfl
    | ok resp =>
      by_cases hst : resp.statusCode = 200
      · refine ⟨[Event.request { req with method := .POST, url := url }], ?_, ?_, ?_⟩
        · simp [loginLoop, execute, hs, Client.logResponse, hst]
        · intro r hr
          simpa using hr
        · intro _; rfl
      · by_cases hc : (resp.decodeInto .loginResponseError e).Code =
            "AUTHENTICATION_FAILED_LIMIT_REACHED"
        · obtain ⟨evs, htr, hall, _⟩ := ih (resp.decodeInto .loginResponseSuccess s)
            (resp.decodeInto .loginResponseError e)
            (sleep 5 { sent := w.sent + 1
                       trace := w.trace ++
                        [Event.request { req with method := .POST, url := url }] })
          refine ⟨[Event.request { req with method := .POST, url := url }, Event.sleep 5] ++ evs,
            ?_, ?_, ?_⟩
          · have hstep : loginLoop env c url req 1 (fuel + 1) s e w =
                loginLoop env c url req 1 fuel (resp.decodeInto .loginResponseSuccess s)
                  (resp.decodeInto .loginResponseError e)
                  (sleep 5 { sent := w.sent + 1
                             trace := w.trace ++
                              [Event.request { req with method := .POST, url := url }] }) := by
              simp [loginLoop, execute, hs, Client.logResponse, hst, hc]
            rw [hstep, htr]
            simp [sleep]
          · intro r hr
            simp only [List.cons_append, List.nil_append, List.mem_cons] at hr
            rcases hr with hr | hr | hr
            · exact Event.request.inj hr
            · exact absurd hr (by simp)
            · exact hall r hr
          · intro _; rfl
        · refine ⟨[Event.request { req with method := .POST, url := url }], ?_, ?_, ?_⟩
          · simp [loginLoop, execute, hs, Client.logResponse, hst, hc]
          · intro r hr
            simpa using hr
          · intro _; rfl

theorem scanCookies_frame (env : Env) (c : Client) (cookies : List Cookie) :
    (scanCookies env c cookies).1.hostname = c.hostname ∧
      (scanCookies env c cookies).1.site = c.site ∧
      (scanCookies env c cookies).1.networkAppInfo = c.networkAppInfo := by
  rw [scanCookies_eq]
  cases firstCookie env.JWTCookieName cookies with
  | none => exact ⟨rfl, rfl, rfl⟩
  | some ck =>
    dsimp only
    cases hp : (env.ParseWithClaims ck.Value).1 with
    | none => exact ⟨rfl, rfl, rfl⟩
    | some e => cases hu : e.unverifiable <;> simp [hu]

theorem Login_trace (env : Env) (fuel : Nat) (c : Client) (username password : String)
    (w : World) :
    ∃ evs, (c.Login env fuel username password w).2.2.trace = w.trace ++ evs ∧
      (∀ r, Event.request r ∈ evs →
        r = c.loginPost username password ∨
          ∃ c2 : Client, c2.hostname = c.hostname ∧ r = c2.infoGet env) ∧
      (0 < fuel → evs.head? = some (Event.request (c.loginPost username password))) := by
  obtain ⟨evs, htr, hall, hhead⟩ := loginLoop_trace env c (c.newRequest "/api/auth/login").1
    ((c.newRequest "/api/auth/login").2.SetBody
      (.login { Username := username, Password := password })) fuel {} {} w
  have hall2 : ∀ r, Event.request r ∈ evs →
      r = c.loginPost username password ∨
        ∃ c2 : Client, c2.hostname = c.hostname ∧ r = c2.infoGet env :=
    fun r hr => Or.inl (hall r hr)
  rw [Login_eq_storeInfo]
  generalize loginLoop env c _ _ 1 fuel _ _ w = lr at htr
  rcases lr with ⟨ex, w1⟩
  cases ex with
  | running => exact ⟨evs, htr, hall2, hhead⟩
  | returned err => exact ⟨evs, htr, hall2, hhead⟩
  | broke resp s =>
    have hfr := scanCookies_frame env
      { c with authData := { c.authData with User := s.User } } resp.cookies
    simp only
    generalize scanCookies env _ resp.cookies = sc at hfr
    rcases sc with ⟨c2, _ | err⟩
    · by_cases hj : c2.authData.JWT = ""
      · simp only [hj, if_true]
        exact ⟨evs, htr, hall2, hhead⟩
      · simp only [hj, if_false, storeInfo_world, GetNetworkAppInfo_world]
        refine ⟨evs ++ [Event.request (c2.infoGet env)], ?_, ?_, ?_⟩
        · simp only at htr
          rw [htr, List.append_assoc]
        · intro r hr
          rcases List.mem_append.1 hr with hr | hr
          · exact hall2 r hr
          · refine Or.inr ⟨c2, hfr.1, ?_⟩
            have := List.mem_singleton.1 hr
            exact Event.request.inj this
        · intro hf
          have h1 := hhead hf
          cases evs with
          | nil => simp at h1
          | cons e rest => simpa using h1
    · exact ⟨evs, htr, hall2, hhead⟩

/-- C21. For every client (hostname `h`, site `s`), every identifier and
every argument, the request a call sends has exactly this method and URL:
`Login` posts to "https://h/api/auth/login" (its first request, and every
request it sends is that POST or the metadata GET); the metadata fetch is a
GET of "https://h/proxy/network/v2/api/info"; listing and reading client
devices is a GET, creating one a POST, of
"https://h/proxy/network/api/s/s/rest/user"; listing and reading static DNS
entries or records is a GET, creating one a POST, of
"https://h/proxy/network/v2/api/site/s/static-dns"; updating one is a PUT and
deleting one a DELETE of "https://h/proxy/network/v2/api/site/s/static-dns/id".
Each resource operation sends exactly that one request. -/
theorem request_urls_and_methods (env : Env) (fuel : Nat) (c : Client)
    (username password : String) (w : World) (k : Call) :
    (∃ evs, (c.Login env fuel username password w).2.2.trace = w.trace ++ evs ∧
        (0 < fuel → evs.head? = some (Event.request (c.loginPost username password))) ∧
        ∀ r, Event.request r ∈ evs →
          (r.method = .POST ∧ r.url = "https://" ++ c.hostname ++ "/api/auth/login") ∨
            (r.method = .GET ∧
              r.url = "https://" ++ c.hostname ++ "/proxy/network/v2/api/info")) ∧
      (c.loginPost username password).method = .POST ∧
      (c.loginPost username password).url = "https://" ++ c.hostname ++ "/api/auth/login" ∧
      c.worldAfter env w k = w.afterRequest (c.requestOf env k) ∧
      ((c.requestOf env k).method, (c.requestOf env k).url) =
        match k with
        | .GetNetworkAppInfo =>
          (.GET, "https://" ++ c.hostname ++ "/proxy/network/v2/api/info")
        | .CreateClientDevice _ =>
          (.POST, "https://" ++ c.hostname ++ "/proxy/network/api/s/" ++ c.site ++ "/rest/user")
        | .GetClientDevices =>
          (.GET, "https://" ++ c.hostname ++ "/proxy/network/api/s/" ++ c.site ++ "/rest/user")
        | .GetClientDevice _ =>
          (.GET, "https://" ++ c.hostname ++ "/proxy/network/api/s/" ++ c.site ++ "/rest/user")
        | .CreateStaticDNSEntry _ =>
          (.POST,
            "https://" ++ c.hostname ++ "/proxy/network/v2/api/site/" ++ c.site ++ "/static-dns")
        | .DeleteStaticDNSEntry id =>
          (.DELETE,
            "https://" ++ c.hostname ++ "/proxy/network/v2/api/site/" ++ c.site ++
              "/static-dns/" ++ id)
        | .GetStaticDNSEntries =>
          (.GET,
            "https://" ++ c.hostname ++ "/proxy/network/v2/api/site/" ++ c.site ++ "/static-dns")
        | .GetStaticDNSEntry _ =>
          (.GET,
            "https://" ++ c.hostname ++ "/proxy/network/v2/api/site/" ++ c.site ++ "/static-dns")
        | .UpdateStaticDNSEntry id _ =>
          (.PUT,
            "https://" ++ c.hostname ++ "/proxy/network/v2/api/site/" ++ c.site ++
              "/static-dns/" ++ id)
        | .CreateStaticDNSRecord _ =>
          (.POST,
            "https://" ++ c.hostname ++ "/proxy/network/v2/api/site/" ++ c.site ++ "/static-dns")
        | .DeleteStaticDNSRecord id =>
          (.DELETE,
            "https://" ++ c.hostname ++ "/proxy/network/v2/api/site/" ++ c.site ++
              "/static-dns/" ++ id)
        | .GetStaticDNSRecords =>
          (.GET,
            "https://" ++ c.hostname ++ "/proxy/network/v2/api/site/" ++ c.site ++ "/static-dns")
        | .GetStaticDNSRecord _ =>
          (.GET,
            "https://" ++ c.hostname ++ "/proxy/network/v2/api/site/" ++ c.site ++ "/static-dns")
        | .UpdateStaticDNSRecord id _ =>
          (.PUT,
            "https://" ++ c.hostname ++ "/proxy/network/v2/api/site/" ++ c.site ++
              "/static-dns/" ++ id) := by
  refine ⟨?_, rfl, rfl, worldAfter_eq env c w k, ?_⟩
  · obtain ⟨evs, htr, hall, hhead⟩ := Login_trace env fuel c username password w
    refine ⟨evs, htr, hhead, ?_⟩
    intro r hr
    rcases hall r hr with h | ⟨c2, hh, h⟩
    · exact Or.inl ⟨by rw [h]; rfl, by rw [h]; rfl⟩
    · refine Or.inr ⟨by rw [h]; rfl, ?_⟩
      rw [h, ← hh]
      rfl
  · cases k <;>
      simp [Client.requestOf, Client.authRequest, Client.infoGet, Client.newAuthenticatedRequest,
        Client.newRequest, String.append_assoc]

/-! ## The two static DNS families -/

theorem find?_map_toRecord (l : List StaticDNSEntry) (id : String) :
    (l.map StaticDNSEntry.toRecord).find? (fun x => decide (x.ID = id)) =
      (l.find? (fun x => decide (x.ID = id))).map StaticDNSEntry.toRecord := by
  induction l with
  | nil => rfl
  | cons a l ih =>
    by_cases ha : a.ID = id
    · simp [List.find?_cons, StaticDNSEntry.toRecord, ha]
    · have ha2 : (StaticDNSEntry.toRecord a).ID ≠ id := ha
      simp only [List.map_cons, List.find?_cons, ha, ha2, decide_False]
      exact ih

/-- C22, counterexample. For the same client and the same identifier,
`DeleteStaticDNSEntry` sends the body "{}" and `DeleteStaticDNSRecord` sends
no body: the two requests are not identical. -/
theorem delete_requests_differ_in_body :
    (sessionClient.requestOf devicesEnv (.DeleteStaticDNSEntry "r7")).body = .text "\x7b\x7d" ∧
      (sessionClient.requestOf devicesEnv (.DeleteStaticDNSRecord "r7")).body = .none ∧
      (sessionClient.requestOf devicesEnv (.DeleteStaticDNSEntry "r7")).wire ≠
        (sessionClient.requestOf devicesEnv (.DeleteStaticDNSRecord "r7")).wire := by
  refine ⟨rfl, rfl, by decide⟩

/-- C22, as amended. For the same client state and the same arguments (an
entry and the record with the same field values), Create, Get-all, Get-one and
Update send the same request in both families (method, URL, headers, cookie
and body as it goes over the wire); Delete sends the same method, URL, headers
and cookie. When both families receive the same response, and that response
decodes to the same field values for both, each of the five operations
returns the same field values and succeeds or fails in both families
alike. -/
theorem static_dns_families_agree (env : Env) (c : Client) (w : World) (resp : Response)
    (e : StaticDNSEntry) (id : String)
    (hsrv : ∀ r, env.server w.sent r = .ok resp)
    (hcreate : (resp.decoded .createStaticDNSEntriesResponseSuccess).toRecord =
      resp.decoded .createStaticDNSRecordsResponseSuccess)
    (hupdate : (resp.decoded .updateStaticDNSEntriesResponseSuccess).toRecord =
      resp.decoded .updateStaticDNSRecordsResponseSuccess)
    (hlist : (resp.decoded .getStaticDNSEntriesResponseSuccess).map StaticDNSEntry.toRecord =
      resp.decoded .getStaticDNSRecordsResponseSuccess) :
    ((c.requestOf env (.CreateStaticDNSEntry e)).wire =
        (c.requestOf env (.CreateStaticDNSRecord e.toRecord)).wire ∧
      c.requestOf env .GetStaticDNSEntries = c.requestOf env .GetStaticDNSRecords ∧
      c.requestOf env (.GetStaticDNSEntry id) = c.requestOf env (.GetStaticDNSRecord id) ∧
      (c.requestOf env (.UpdateStaticDNSEntry id e)).wire =
        (c.requestOf env (.UpdateStaticDNSRecord id e.toRecord)).wire ∧
      (c.requestOf env (.DeleteStaticDNSEntry id)).method =
        (c.requestOf env (.DeleteStaticDNSRecord id)).method ∧
      (c.requestOf env (.DeleteStaticDNSEntry id)).url =
        (c.requestOf env (.DeleteStaticDNSRecord id)).url ∧
      (c.requestOf env (.DeleteStaticDNSEntry id)).header =
        (c.requestOf env (.DeleteStaticDNSRecord id)).header ∧
      (c.requestOf env (.DeleteStaticDNSEntry id)).cookies =
        (c.requestOf env (.DeleteStaticDNSRecord id)).cookies) ∧
    ((c.CreateStaticDNSEntry env e w).1.1.toRecord =
        (c.CreateStaticDNSRecord env e.toRecord w).1.1 ∧
      ((c.CreateStaticDNSEntry env e w).1.2 = none ↔
        (c.CreateStaticDNSRecord env e.toRecord w).1.2 = none)) ∧
    ((c.GetStaticDNSEntries env w).1.1.map StaticDNSEntry.toRecord =
        (c.GetStaticDNSRecords env w).1.1 ∧
      ((c.GetStaticDNSEntries env w).1.2 = none ↔ (c.GetStaticDNSRecords env w).1.2 = none)) ∧
    ((c.GetStaticDNSEntry env id w).1.1.toRecord = (c.GetStaticDNSRecord env id w).1.1 ∧
      ((c.GetStaticDNSEntry env id w).1.2 = none ↔ (c.GetStaticDNSRecord env id w).1.2 = none)) ∧
    ((c.UpdateStaticDNSEntry env id e w).1.1.toRecord =
        (c.UpdateStaticDNSRecord env id e.toRecord w).1.1 ∧
      ((c.UpdateStaticDNSEntry env id e w).1.2 = none ↔
        (c.UpdateStaticDNSRecord env id e.toRecord w).1.2 = none)) ∧
    ((c.DeleteStaticDNSEntry env id w).1 = none ↔ (c.DeleteStaticDNSRecord env id w).1 = none) := by
  have hzero : StaticDNSEntry.toRecord {} = {} := rfl
  refine ⟨⟨rfl, rfl, rfl, rfl, rfl, rfl, rfl, rfl⟩, ?_, ?_, ?_, ?_, ?_⟩
  · by_cases hst : resp.statusCode = 200 <;>
      simp [CreateStaticDNSEntry_eq, CreateStaticDNSRecord_eq, hsrv, hst, hcreate, hzero]
  · by_cases hst : resp.statusCode = 200 <;>
      simp [GetStaticDNSEntries_eq, GetStaticDNSRecords_eq, hsrv, hst, hlist]
  · by_cases hst : resp.statusCode = 200
    · simp only [GetStaticDNSEntry_eq, GetStaticDNSRecord_eq, hsrv, hst, ne_eq,
        not_true_eq_false, if_false]
      rw [← hlist, find?_map_toRecord]
      cases (resp.decoded .getStaticDNSEntriesResponseSuccess).find?
          (fun x => decide (x.ID = id)) with
      | none => simp [hzero]
      | some x => simp
    · simp [GetStaticDNSEntry_eq, GetStaticDNSRecord_eq, hsrv, hst, hzero]
  · by_cases hst : resp.statusCode = 200 <;>
      simp [UpdateStaticDNSEntry_eq, UpdateStaticDNSRecord_eq, hsrv, hst, hupdate, hzero]
  · by_cases hst : resp.statusCode = 200 <;>
      simp [DeleteStaticDNSEntry_eq, DeleteStaticDNSRecord_eq, hsrv, hst]

/-- Witness of C22 as amended: both families read a list of one element and
return the same field values. -/
theorem static_dns_families_agree_witness :
    (sessionClient.GetStaticDNSEntries (constantEnv (dnsOk hostRecord [hostRecord]))
        {}).1.1.map StaticDNSEntry.toRecord =
      (sessionClient.GetStaticDNSRecords (constantEnv (dnsOk hostRecord [hostRecord])) {}).1.1 :=
  (static_dns_families_agree (constantEnv (dnsOk hostRecord [hostRecord])) sessionClient {}
    (dnsOk hostRecord [hostRecord]) { Key := "host1" } "r7" (fun _ => rfl) rfl rfl rfl).2.2.1.1

/-! ## The debug entry of `logResponse` -/

theorem mem_mapSet {α : Type} (m : List (String × α)) (k : String) (v : α) (p : String × α)
    (hp : p ∈ mapSet m k v) : p ∈ m ∨ p = (k, v) := by
  unfold mapSet at hp
  split at hp
  · obtain ⟨q, hq, hqp⟩ := List.mem_map.1 hp
    by_cases hk : q.1 = k
    · simp only [hk, if_true] at hqp
      exact Or.inr hqp.symm
    · simp only [hk, if_false] at hqp
      exact Or.inl (hqp ▸ hq)
  · rcases List.mem_append.1 hp with h | h
    · exact Or.inl h
    · exact Or.inr (List.mem_singleton.1 h)

theorem mapSet_keys {α : Type} (m : List (String × α)) (k : String) (v : α) (k2 : String) :
    (∃ p, p ∈ mapSet m k v ∧ p.1 = k2) ↔ ((∃ p, p ∈ m ∧ p.1 = k2) ∨ k2 = k) := by
  unfold mapSet
  by_cases hany : m.any (fun p => decide (p.1 = k)) = true
  · simp only [hany, if_true]
    obtain ⟨q0, hq0, hq0k⟩ := List.any_eq_true.1 hany
    have hq0k2 : q0.1 = k := by simpa using hq0k
    constructor
    · rintro ⟨p, hp, hpk⟩
      obtain ⟨q, hq, hqp⟩ := List.mem_map.1 hp
      by_cases hk : q.1 = k
      · simp only [hk, if_true] at hqp
        exact Or.inr (by rw [← hpk, ← hqp])
      · simp only [hk, if_false] at hqp
        exact Or.inl ⟨q, hq, by rw [hqp]; exact hpk⟩
    · rintro (⟨p, hp, hpk⟩ | hk2)
      · by_cases hk : p.1 = k
        · exact ⟨(k, v), List.mem_map.2 ⟨p, hp, by simp [hk]⟩, by rw [← hpk, hk]⟩
        · exact ⟨p, List.mem_map.2 ⟨p, hp, by simp [hk]⟩, hpk⟩
      · exact ⟨(k, v), List.mem_map.2 ⟨q0, hq0, by simp [hq0k2]⟩, hk2.symm⟩
  · simp only [hany, if_false]
    constructor
    · rintro ⟨p, hp, hpk⟩
      rcases List.mem_append.1 hp with h | h
      · exact Or.inl ⟨p, h, hpk⟩
      · have := List.mem_singleton.1 h
        exact Or.inr (by rw [← hpk, this])
    · rintro (⟨p, hp, hpk⟩ | hk2)
      · exact ⟨p, List.mem_append.2 (Or.inl hp), hpk⟩
      · exact ⟨(k, v), List.mem_append.2 (Or.inr (List.mem_singleton.2 rfl)), hk2.symm⟩

theorem logged_cookies_from_response (cookies : List Cookie) (acc : List (String × CookieLog))
    (p : String × CookieLog)
    (hp : p ∈ cookies.foldl (fun cs cookie => mapSet cs cookie.Name (cookieLog cookie)) acc) :
    p ∈ acc ∨ ∃ ck, ck ∈ cookies ∧ p = (ck.Name, cookieLog ck) := by
  induction cookies generalizing acc with
  | nil => exact Or.inl hp
  | cons ck rest ih =>
    rcases ih _ hp with h | ⟨ck2, hck2, h⟩
    · rcases mem_mapSet _ _ _ _ h with h2 | h2
      · exact Or.inl h2
      · exact Or.inr ⟨ck, List.mem_cons_self _ _, h2⟩
    · exact Or.inr ⟨ck2, List.mem_cons_of_mem _ hck2, h⟩

theorem logged_cookie_names (cookies : List Cookie) (acc : List (String × CookieLog))
    (name : String)
    (h : (∃ p, p ∈ acc ∧ p.1 = name) ∨ ∃ ck, ck ∈ cookies ∧ ck.Name = name) :
    ∃ p, p ∈ cookies.foldl (fun cs cookie => mapSet cs cookie.Name (cookieLog cookie)) acc ∧
      p.1 = name := by
  induction cookies generalizing acc with
  | nil =>
    rcases h with h | ⟨ck, hck, _⟩
    · exact h
    · exact absurd hck (List.not_mem_nil ck)
  | cons ck rest ih =>
    apply ih
    rcases h with h | ⟨ck2, hck2, hn⟩
    · exact Or.inl ((mapSet_keys acc ck.Name (cookieLog ck) name).2 (Or.inl h))
    · rcases List.mem_cons.1 hck2 with h2 | h2
      · exact Or.inl ((mapSet_keys acc ck.Name (cookieLog ck) name).2
          (Or.inr (by rw [← hn, h2])))
      · exact Or.inr ⟨ck2, h2, hn⟩

/-- C23, counterexample. With `TF_LOG` set to DEBUG, the entry written for a
login response that sets the session cookie `TOKEN` holds, in its `cookies`
field, the value of that cookie (the session token) and of every other
cookie. -/
theorem log_record_holds_cookie_values :
    (loginOk "hdr.csrf.sig").cookies =
        [{ Name := "lang", Value := "en" }, { Name := "TOKEN", Value := "hdr.csrf.sig" }] ∧
      (freshClient.logResponseRecord "DEBUG" "https://udm.example/api/auth/login"
        (loginOk "hdr.csrf.sig")).map (fun r => r.cookies.map (fun p => (p.1, p.2.Value))) =
        some [("lang", "en"), ("TOKEN", "hdr.csrf.sig")] := by
  refine ⟨rfl, by decide⟩

/-- C23, as amended. When `TF_LOG` is DEBUG or TRACE (in any case of the
letters), `logResponse` writes one entry for the response: its headers are the
response headers with `Set-Cookie` removed, its status code and body are those
of the response, and its `cookies` field has an entry for the name of every
cookie of the response, every entry holding the value, path, domain, expiry
and flags of a cookie of the response with that name. With any other `TF_LOG`
it writes no entry. -/
theorem log_record_contents (c : Client) (TF_LOG requestURL : String) (resp : Response) :
    (¬ (EqualFold TF_LOG "DEBUG" ∨ EqualFold TF_LOG "TRACE") →
      c.logResponseRecord TF_LOG requestURL resp = none) ∧
    ((EqualFold TF_LOG "DEBUG" ∨ EqualFold TF_LOG "TRACE") →
      ∃ r, c.logResponseRecord TF_LOG requestURL resp = some r ∧
        r.message = "response received from: " ++ requestURL ∧
        r.headers = resp.header.filter (fun p => p.1 ≠ "Set-Cookie") ∧
        (∀ p, p ∈ r.headers → p.1 ≠ "Set-Cookie") ∧
        r.status_code = resp.statusCode ∧
        r.body = resp.body ∧
        (∀ p, p ∈ r.cookies → ∃ ck, ck ∈ resp.cookies ∧ p.1 = ck.Name ∧
          p.2 = { Value := ck.Value, Path := ck.Path, Domain := ck.Domain,
                  Expires := ck.Expires, HttpOnly := ck.HttpOnly, Secure := ck.Secure,
                  SameSite := ck.SameSite }) ∧
        (∀ ck, ck ∈ resp.cookies → ∃ p, p ∈ r.cookies ∧ p.1 = ck.Name)) := by
  refine ⟨?_, ?_⟩
  · intro hlog
    simp [Client.logResponseRecord, hlog]
  · intro hlog
    refine ⟨{ message := "response received from: " ++ requestURL
              status_code := resp.statusCode
              headers := resp.header.filter (fun p => p.1 ≠ "Set-Cookie")
              cookies := resp.cookies.foldl
                (fun cs cookie => mapSet cs cookie.Name (cookieLog cookie)) []
              body := resp.body },
      by simp only [Client.logResponseRecord, hlog, if_true], rfl, rfl, ?_, rfl, rfl, ?_, ?_⟩
    · intro p hp
      have := (List.mem_filter.1 hp).2
      simpa using this
    · intro p hp
      rcases logged_cookies_from_response resp.cookies [] p hp with h | ⟨ck, hck, h⟩
      · exact absurd h (List.not_mem_nil p)
      · exact ⟨ck, hck, by rw [h], by rw [h]; rfl⟩
    · intro ck hck
      exact logged_cookie_names resp.cookies [] ck.Name (Or.inr ⟨ck, hck, rfl⟩)

/-- Witness of C23 as amended: with `TF_LOG` set to "debug" the entry for a
response with a header list that includes `Set-Cookie` is written, without
that header. -/
theorem log_record_contents_witness :
    (freshClient.logResponseRecord "debug" "https://udm.example/api/auth/login"
        { loginOk "hdr.csrf.sig" with
          header := [("Content-Type", ["application/json"]),
            ("Set-Cookie", ["TOKEN=hdr.csrf.sig"])] }).map (fun r => r.headers) =
      some [("Content-Type", ["application/json"])] := by
  obtain ⟨r, hr, _, hh, _⟩ := (log_record_contents freshClient "debug"
    "https://udm.example/api/auth/login"
    { loginOk "hdr.csrf.sig" with
      header := [("Content-Type", ["application/json"]), ("Set-Cookie", ["TOKEN=hdr.csrf.sig"])] }).2
    (by decide)
  rw [hr]
  show some r.headers = _
  rw [hh]
  decide

/-! ## The tokens of the metadata request -/

/-- C29. Whatever tokens the client held before (none, or those of an
earlier `Login`): once the login response (status 200) carried a session
cookie that decodes and is not empty, the metadata request is the last
request `Login` sends, and it carries as its session cookie the cookie value
just received and as its `X-Csrf-Token` header the CSRF token decoded from
that value. -/
theorem login_metadata_request_uses_new_tokens (env : Env) (c : Client)
    (username password : String) (w : World) (k fuel : Nat) (resp : Response) (ck : Cookie)
    (hpost : AnsweredAfterRetries env (c.loginPost username password) w.sent k resp)
    (hok : resp.statusCode = 200)
    (hck : firstCookie env.JWTCookieName resp.cookies = some ck)
    (hval : ck.Value ≠ "")
    (hdec : ¬ DecodeFails env ck.Value)
    (hfuel : k < fuel) :
    ∃ g : Request,
      (c.Login env fuel username password w).2.2.trace =
        w.trace ++ (retryRounds (c.loginPost username password) k ++
          [Event.request (c.loginPost username password), Event.request g]) ∧
      g.method = .GET ∧
      g.url = "https://" ++ c.hostname ++ "/proxy/network/v2/api/info" ∧
      g.cookies =
        [{ Name := env.JWTCookieName, Value := ck.Value, Path := "/", Domain := c.hostname,
           Secure := true, HttpOnly := true, SameSite := .SameSiteNoneMode }] ∧
      g.headerValues "X-Csrf-Token" = [(env.ParseWithClaims ck.Value).2.CsrfToken] := by
  refine ⟨(c.withSession env (resp.decoded .loginResponseSuccess).User ck.Value).infoGet env,
    ?_, rfl, rfl, rfl, ?_⟩
  · rw [Login_cookie_accepted env c username password w k fuel resp ck hpost hok hck hfuel hdec]
    simp only [hval, if_false, storeInfo_world, GetNetworkAppInfo_world]
    simp
  · simp [Client.infoGet, Client.newAuthenticatedRequest, Client.newRequest, Request.SetHeader,
      Request.SetCookie, Request.headerValues, Client.withSession]

/-- Witness of C29: a client holding the tokens of a first login logs in
again and receives another token; the metadata request of the second login
carries the second token and its CSRF token. -/
theorem login_metadata_request_uses_new_tokens_witness :
    (sessionClient.Login (cookieEnv "hdr.other.sig") 1 "admin" "secret" {}).2.2.trace.getLast?.map
        (fun e =>
          match e with
          | Event.request g => (g.cookies.map (fun x => x.Value), g.headerValues "X-Csrf-Token")
          | Event.sleep _ => ([], [])) =
      some (["hdr.other.sig"], ["csrf-2"]) := by
  obtain ⟨g, h1, _, _, h4, h5⟩ :=
    login_metadata_request_uses_new_tokens (cookieEnv "hdr.other.sig") sessionClient "admin"
      "secret" {} 0 1 (loginOk "hdr.other.sig") { Name := "TOKEN", Value := "hdr.other.sig" }
      ⟨fun i hi => by omega, rfl⟩ rfl (by decide) (by decide)
      (by rw [not_decodeFails_iff]
          intro e he
          have he2 : e = { unverifiable := true, text := _ } := (Option.some.inj he).symm
          rw [he2])
      (by decide)
  rw [h1]
  simp only [retryRounds, List.nil_append, List.append_nil]
  have h5b : g.headerValues "X-Csrf-Token" = ["csrf-2"] := h5
  simp [h4, h5b]

/-! ## Diagnostics -/

theorem mem_Append (more : List Diagnostic) (diags : List Diagnostic) (x : Diagnostic) :
    x ∈ Append diags more ↔ x ∈ diags ∨ x ∈ more := by
  unfold Append
  induction more generalizing diags with
  | nil => simp
  | cons d more ih =>
    simp only [List.foldl_cons]
    rw [ih]
    by_cases hd : d ∈ diags
    · simp only [hd, if_true, List.mem_cons]
      constructor
      · rintro (h | h)
        · exact Or.inl h
        · exact Or.inr (Or.inr h)
      · rintro (h | h | h)
        · exact Or.inl h
        · exact Or.inl (h ▸ hd)
        · exact Or.inr h
    · simp only [hd, if_false, List.mem_append, List.mem_cons, List.not_mem_nil, or_false]
      constructor
      · rintro ((h | h) | h)
        · exact Or.inl h
        · exact Or.inr (Or.inl h)
        · exact Or.inr (Or.inr h)
      · rintro (h | h | h)
        · exact Or.inl (Or.inl h)
        · exact Or.inl (Or.inr h)
        · exact Or.inr h

theorem Append_nil_of_not_mem (diags : List Diagnostic) (d : Diagnostic) (h : d ∉ diags) :
    Append diags [d] = diags ++ [d] := by
  simp [Append, h]

theorem hasError_iff (diags : List Diagnostic) :
    HasError diags = true ↔ ∃ d, d ∈ diags ∧ d.Severity = .Error := by
  simp [HasError, List.any_eq_true]

theorem hasError_Append (diags more : List Diagnostic) :
    HasError (Append diags more) = true ↔ HasError diags = true ∨ HasError more = true := by
  simp only [hasError_iff, mem_Append]
  constructor
  · rintro ⟨d, hd | hd, he⟩
    · exact Or.inl ⟨d, hd, he⟩
    · exact Or.inr ⟨d, hd, he⟩
  · rintro (⟨d, hd, he⟩ | ⟨d, hd, he⟩)
    · exact ⟨d, Or.inl hd, he⟩
    · exact ⟨d, Or.inr hd, he⟩

theorem hasError_AddAttributeError (diags : List Diagnostic) (path summary detail : String) :
    HasError (AddAttributeError diags path summary detail) = true := by
  unfold AddAttributeError
  rw [hasError_Append]
  exact Or.inr (by simp [HasError])

theorem hasError_AddError (diags : List Diagnostic) (summary detail : String) :
    HasError (AddError diags summary detail) = true := by
  unfold AddError
  rw [hasError_Append]
  exact Or.inr (by simp [HasError])

theorem mem_AddAttributeError (diags : List Diagnostic) (path summary detail : String)
    (x : Diagnostic) :
    x ∈ AddAttributeError diags path summary detail ↔
      x ∈ diags ∨
        x = { Severity := .Error, Path := some path, Summary := summary, Detail := detail } := by
  unfold AddAttributeError
  rw [mem_Append]
  simp

theorem not_mem_of_not_hasError (diags : List Diagnostic) (d : Diagnostic)
    (h : HasError diags = false) (hd : d.Severity = .Error) : d ∉ diags := by
  intro hmem
  have : HasError diags = true := (hasError_iff diags).2 ⟨d, hmem, hd⟩
  rw [h] at this
  exact absurd this (by simp)

theorem unknownChecks_of_allKnown (d0 : List Diagnostic) (config : udmProviderModel)
    (h : config.AllKnown) : udmProvider.unknownChecks d0 config = d0 := by
  obtain ⟨h1, h2, h3, h4⟩ := h
  simp [udmProvider.unknownChecks, h1, h2, h3, h4]

theorem unknownChecks_hasError (d0 : List Diagnostic) (config : udmProviderModel)
    (h : ¬ config.AllKnown) : HasError (udmProvider.unknownChecks d0 config) = true := by
  unfold udmProvider.unknownChecks
  by_cases h4 : config.Username.IsUnknown = true
  · simp only [h4, if_true]
    exact hasError_AddAttributeError _ _ _ _
  · simp only [h4]
    by_cases h3 : config.Site.IsUnknown = true
    · simp only [h3, if_true]
      exact hasError_AddAttributeError _ _ _ _
    · simp only [h3]
      by_cases h2 : config.Password.IsUnknown = true
      · simp only [h2, if_true]
        exact hasError_AddAttributeError _ _ _ _
      · simp only [h2]
        by_cases h1 : config.Hostname.IsUnknown = true
        · simp only [h1, if_true]
          exact hasError_AddAttributeError _ _ _ _
        · exfalso
          apply h
          exact ⟨by simpa using h1, by simpa using h2, by simpa using h3, by simpa using h4⟩

theorem unknownChecks_site (d0 : List Diagnostic) (config : udmProviderModel)
    (hs : config.Site.IsUnknown = false) (x : Diagnostic)
    (hx : x ∈ udmProvider.unknownChecks d0 config) (hp : x.Path = some "site") : x ∈ d0 := by
  unfold udmProvider.unknownChecks at hx
  simp only [hs] at hx
  by_cases h4 : config.Username.IsUnknown = true <;>
  by_cases h2 : config.Password.IsUnknown = true <;>
  by_cases h1 : config.Hostname.IsUnknown = true <;>
  simp only [h1, h2, h4, if_true, if_false, Bool.false_eq_true, mem_AddAttributeError] at hx
  all_goals
    first
    | exact hx
    | (rcases hx with hx | hx
       · first
         | exact hx
         | (rcases hx with hx | hx
            · first
              | exact hx
              | (rcases hx with hx | hx
                 · exact hx
                 · rw [hx] at hp; exact absurd hp (by decide))
            · rw [hx] at hp; exact absurd hp (by decide))
       · rw [hx] at hp; exact absurd hp (by decide))

theorem missingChecks_eq (d4 : List Diagnostic) (hostname password username : String)
    (h : HasError d4 = false) :
    udmProvider.missingChecks d4 hostname password username =
      d4 ++ ((if hostname = "" then [missingHostname] else []) ++
        ((if password = "" then [missingPassword] else []) ++
          (if username = "" then [missingUsername] else []))) := by
  have hh : missingHostname ∉ d4 := not_mem_of_not_hasError d4 _ h rfl
  have hp : missingPassword ∉ d4 := not_mem_of_not_hasError d4 _ h rfl
  have hu : missingUsername ∉ d4 := not_mem_of_not_hasError d4 _ h rfl
  have hph : missingPassword ≠ missingHostname := by decide
  have huh : missingUsername ≠ missingHostname := by decide
  have hup : missingUsername ≠ missingPassword := by decide
  have e1 : AddAttributeError d4 "hostname" "Missing UDM API Host" missingHostname.Detail =
      d4 ++ [missingHostname] := Append_nil_of_not_mem d4 missingHostname hh
  have e2 : ∀ ds, missingPassword ∉ ds →
      AddAttributeError ds "password" "Missing UDM API Password" missingPassword.Detail =
        ds ++ [missingPassword] := fun ds hds => Append_nil_of_not_mem ds missingPassword hds
  have e3 : ∀ ds, missingUsername ∉ ds →
      AddAttributeError ds "username" "Missing UDM API Username" missingUsername.Detail =
        ds ++ [missingUsername] := fun ds hds => Append_nil_of_not_mem ds missingUsername hds
  unfold udmProvider.missingChecks
  by_cases c1 : hostname = "" <;> by_cases c2 : password = "" <;> by_cases c3 : username = ""
  · simp only [c1, c2, c3, if_true]
    have := e1
    simp only [missingHostname] at this
    rw [this]
    have h2 := e2 (d4 ++ [missingHostname]) (by simp [hp, hph])
    simp only [missingPassword, missingHostname] at h2
    rw [h2]
    have h3 := e3 ((d4 ++ [missingHostname]) ++ [missingPassword]) (by simp [hu, huh, hup])
    simp only [missingPassword, missingHostname, missingUsername] at h3
    rw [h3]
    simp [missingHostname, missingPassword, missingUsername]
  · simp only [c1, c2, c3, if_true, if_false]
    have := e1
    simp only [missingHostname] at this
    rw [this]
    have h2 := e2 (d4 ++ [missingHostname]) (by simp [hp, hph])
    simp only [missingPassword, missingHostname] at h2
    rw [h2]
    simp [missingHostname, missingPassword]
  · simp only [c1, c2, c3, if_true, if_false]
    have := e1
    simp only [missingHostname] at this
    rw [this]
    have h3 := e3 (d4 ++ [missingHostname]) (by simp [hu, huh])
    simp only [missingHostname, missingUsername] at h3
    rw [h3]
    simp [missingHostname, missingUsername]
  · simp only [c1, c2, c3, if_true, if_false]
    have := e1
    simp only [missingHostname] at this
    rw [this]
    simp [missingHostname]
  · simp only [c1, c2, c3, if_true, if_false]
    have h2 := e2 d4 hp
    simp only [missingPassword] at h2
    rw [h2]
    have h3 := e3 (d4 ++ [missingPassword]) (by simp [hu, hup])
    simp only [missingPassword, missingUsername] at h3
    rw [h3]
    simp [missingPassword, missingUsername]
  · simp only [c1, c2, c3, if_true, if_false]
    have h2 := e2 d4 hp
    simp only [missingPassword] at h2
    rw [h2]
    simp [missingPassword]
  · simp only [c1, c2, c3, if_true, if_false]
    have h3 := e3 d4 hu
    simp only [missingUsername] at h3
    rw [h3]
    simp [missingUsername]
  · simp only [c1, c2, c3, if_false]
    simp

/-! ## Provider configuration -/

theorem Login_frame (env : Env) (fuel : Nat) (c : Client) (username password : String)
    (w : World) :
    (c.Login env fuel username password w).2.1.hostname = c.hostname ∧
      (c.Login env fuel username password w).2.1.site = c.site := by
  rw [Login_eq_storeInfo]
  generalize loginLoop env c _ _ 1 fuel _ _ w = lr
  rcases lr with ⟨ex, w1⟩
  cases ex with
  | running => exact ⟨rfl, rfl⟩
  | returned err => exact ⟨rfl, rfl⟩
  | broke resp s =>
    have hfr := scanCookies_frame env
      { c with authData := { c.authData with User := s.User } } resp.cookies
    simp only
    generalize scanCookies env _ resp.cookies = sc at hfr
    rcases sc with ⟨c2, _ | err⟩
    · by_cases hj : c2.authData.JWT = ""
      · simp only [hj, if_true]
        exact ⟨hfr.1, hfr.2.1⟩
      · simp only [hj, if_false]
        have hg := GetNetworkAppInfo_client env c2 w1
        generalize c2.GetNetworkAppInfo env w1 = g at hg
        rcases g with ⟨⟨a, _ | e⟩, c3, w2⟩ <;> obtain rfl : c3 = c2 := hg
        · exact ⟨hfr.1, hfr.2.1⟩
        · exact ⟨hfr.1, hfr.2.1⟩
    · exact ⟨hfr.1, hfr.2.1⟩

theorem hasError_Append_nil (configDiags : List Diagnostic) :
    HasError (Append [] configDiags) = HasError configDiags := by
  cases h : HasError configDiags with
  | true =>
    exact (hasError_Append [] configDiags).2 (Or.inr h)
  | false =>
    cases h2 : HasError (Append [] configDiags) with
    | false => rfl
    | true =>
      rcases (hasError_Append [] configDiags).1 h2 with h3 | h3
      · simp [HasError] at h3
      · rw [h] at h3
        exact absurd h3 (by simp)

theorem Configure_config_error (env : Env) (DefaultSite : String) (fuel : Nat)
    (configDiags : List Diagnostic) (config : udmProviderModel) (w : World)
    (hd : HasError configDiags = true) :
    udmProvider.Configure env DefaultSite fuel configDiags config w =
      (some { Diagnostics := Append [] configDiags }, w) := by
  have h0 : HasError (Append [] configDiags) = true := by rw [hasError_Append_nil]; exact hd
  simp [udmProvider.Configure, h0]

theorem Configure_unknown (env : Env) (DefaultSite : String) (fuel : Nat)
    (configDiags : List Diagnostic) (config : udmProviderModel) (w : World)
    (hd : HasError configDiags = false) (hk : ¬ config.AllKnown) :
    udmProvider.Configure env DefaultSite fuel configDiags config w =
      (some { Diagnostics := udmProvider.unknownChecks (Append [] configDiags) config }, w) := by
  have h0 : HasError (Append [] configDiags) = false := by rw [hasError_Append_nil]; exact hd
  have h4 := unknownChecks_hasError (Append [] configDiags) config hk
  simp [udmProvider.Configure, h0, h4]

theorem Configure_missing (env : Env) (DefaultSite : String) (fuel : Nat)
    (configDiags : List Diagnostic) (config : udmProviderModel) (w : World)
    (hd : HasError configDiags = false) (hk : config.AllKnown)
    (hm : config.Hostname.ValueString = "" ∨ config.Password.ValueString = "" ∨
      config.Username.ValueString = "") :
    udmProvider.Configure env DefaultSite fuel configDiags config w =
      (some { Diagnostics := Append [] configDiags ++
          ((if config.Hostname.ValueString = "" then [missingHostname] else []) ++
            ((if config.Password.ValueString = "" then [missingPassword] else []) ++
              (if config.Username.ValueString = "" then [missingUsername] else []))) }, w) := by
  have h0 : HasError (Append [] configDiags) = false := by rw [hasError_Append_nil]; exact hd
  have h4 := unknownChecks_of_allKnown (Append [] configDiags) config hk
  have h7 := missingChecks_eq (Append [] configDiags) config.Hostname.ValueString
    config.Password.ValueString config.Username.ValueString h0
  have h7e : HasError (udmProvider.missingChecks (Append [] configDiags)
      config.Hostname.ValueString config.Password.ValueString
      config.Username.ValueString) = true := by
    rw [h7, hasError_iff]
    rcases hm with hm | hm | hm
    · exact ⟨missingHostname, by simp [hm], rfl⟩
    · exact ⟨missingPassword, by simp [hm], rfl⟩
    · exact ⟨missingUsername, by simp [hm], rfl⟩
  simp only [udmProvider.Configure, h0, h4, h7e, if_true, Bool.false_eq_true, if_false]
  rw [h7]

theorem Configure_valid (env : Env) (DefaultSite : String) (fuel : Nat)
    (configDiags : List Diagnostic) (config : udmProviderModel) (w : World)
    (hd : HasError configDiags = false) (hk : config.AllKnown)
    (hh : config.Hostname.ValueString ≠ "") (hp : config.Password.ValueString ≠ "")
    (hu : config.Username.ValueString ≠ "") :
    udmProvider.Configure env DefaultSite fuel configDiags config w =
      match (NewClient config.Hostname.ValueString
          (if config.Site.ValueString = "" then DefaultSite else config.Site.ValueString)
          config.IgnoreUntrustedSSLCertificate.ValueBool).Login env fuel
            config.Username.ValueString config.Password.ValueString w with
      | (none, _, w1) => (none, w1)
      | (some (some e), _, w1) =>
        (some { Diagnostics :=
                  AddError (Append [] configDiags) "UDM API: Authentication Failed"
                    ("Failed to authenticate to the UDM API:\n\t" ++ e.errorString) }, w1)
      | (some none, client1, w1) =>
        (some { Diagnostics := Append [] configDiags, DataSourceData := some client1,
                ResourceData := some client1 }, w1) := by
  have h0 : HasError (Append [] configDiags) = false := by rw [hasError_Append_nil]; exact hd
  have h4 := unknownChecks_of_allKnown (Append [] configDiags) config hk
  have h7 := missingChecks_eq (Append [] configDiags) config.Hostname.ValueString
    config.Password.ValueString config.Username.ValueString h0
  simp only [hh, hp, hu, if_false, List.append_nil] at h7
  simp only [udmProvider.Configure, h0, h4, h7, Bool.false_eq_true, if_false]
  generalize (NewClient config.Hostname.ValueString _ _).Login env fuel _ _ w = lr
  rcases lr with ⟨_ | _ | e, client1, w1⟩
  · rfl
  · simp [h0]
  · simp [hasError_AddError]

theorem mem_Append_nil (configDiags : List Diagnostic) (d : Diagnostic)
    (h : d ∈ Append [] configDiags) : d ∈ configDiags := by
  rcases (mem_Append configDiags [] d).1 h with h | h
  · exact absurd h (List.not_mem_nil d)
  · exact h

/-- C24. Whenever `Configure` returns and the configured site is not unknown:
no diagnostic for the attribute `site` is added (an empty or null site is
never an error), and the client handed to resources and data sources, if
there is one, has the default site constant as its site when the configured
site is null or the empty string, and exactly the configured string
otherwise. -/
theorem configure_site_default (env : Env) (DefaultSite : String) (fuel : Nat)
    (configDiags : List Diagnostic) (config : udmProviderModel) (w w1 : World)
    (resp : ConfigureResponse)
    (h : udmProvider.Configure env DefaultSite fuel configDiags config w = (some resp, w1))
    (hs : config.Site.IsUnknown = false) :
    (∀ d, d ∈ resp.Diagnostics → d.Path = some "site" → d ∈ configDiags) ∧
      ∀ client, resp.ResourceData = some client →
        resp.DataSourceData = some client ∧
          (config.Site = .null → client.site = DefaultSite) ∧
          (config.Site = .value "" → client.site = DefaultSite) ∧
          (∀ s, config.Site = .value s → s ≠ "" → client.site = s) := by
  cases hd : HasError configDiags with
  | true =>
    rw [Configure_config_error env DefaultSite fuel configDiags config w hd] at h
    obtain ⟨h1, _⟩ := Prod.mk.inj h
    have hr := Option.some.inj h1
    subst hr
    exact ⟨fun d hdm _ => mem_Append_nil configDiags d hdm, fun client hc => by simp at hc⟩
  | false =>
    by_cases hk : config.AllKnown
    · by_cases hm : config.Hostname.ValueString = "" ∨ config.Password.ValueString = "" ∨
          config.Username.ValueString = ""
      · rw [Configure_missing env DefaultSite fuel configDiags config w hd hk hm] at h
        obtain ⟨h1, _⟩ := Prod.mk.inj h
        have hr := Option.some.inj h1
        subst hr
        refine ⟨?_, fun client hc => by simp at hc⟩
        intro d hdm hp
        rcases List.mem_append.1 hdm with h2 | h2
        · exact mem_Append_nil configDiags d h2
        · exfalso
          have hcases : d = missingHostname ∨ d = missingPassword ∨ d = missingUsername := by
            rcases List.mem_append.1 h2 with h3 | h3
            · by_cases c1 : config.Hostname.ValueString = ""
              · simp only [c1, if_true, List.mem_singleton] at h3
                exact Or.inl h3
              · simp [c1] at h3
            · rcases List.mem_append.1 h3 with h4 | h4
              · by_cases c2 : config.Password.ValueString = ""
                · simp only [c2, if_true, List.mem_singleton] at h4
                  exact Or.inr (Or.inl h4)
                · simp [c2] at h4
              · by_cases c3 : config.Username.ValueString = ""
                · simp only [c3, if_true, List.mem_singleton] at h4
                  exact Or.inr (Or.inr h4)
                · simp [c3] at h4
          rcases hcases with hc | hc | hc <;>
            · rw [hc] at hp
              exact absurd hp (by decide)
      · have hh : config.Hostname.ValueString ≠ "" := fun hx => hm (Or.inl hx)
        have hp : config.Password.ValueString ≠ "" := fun hx => hm (Or.inr (Or.inl hx))
        have hu : config.Username.ValueString ≠ "" := fun hx => hm (Or.inr (Or.inr hx))
        rw [Configure_valid env DefaultSite fuel configDiags config w hd hk hh hp hu] at h
        have hfr := (Login_frame env fuel
          (NewClient config.Hostname.ValueString
            (if config.Site.ValueString = "" then DefaultSite else config.Site.ValueString)
            config.IgnoreUntrustedSSLCertificate.ValueBool)
          config.Username.ValueString config.Password.ValueString w).2
        generalize (NewClient config.Hostname.ValueString _ _).Login env fuel _ _ w = lr
          at h hfr
        rcases lr with ⟨_ | _ | e, client1, w2⟩
        · simp at h
        · simp only [Prod.mk.injEq, Option.some.injEq] at h
          obtain ⟨hr, _⟩ := h
          subst hr
          refine ⟨fun d hdm _ => mem_Append_nil configDiags d hdm, ?_⟩
          intro client hc
          have hcl : client1 = client := by simpa using hc
          subst hcl
          simp only [NewClient] at hfr
          refine ⟨rfl, ?_, ?_, ?_⟩
          · intro hn
            rw [hfr, hn]
            simp [TfString.ValueString]
          · intro hn
            rw [hfr, hn]
            simp [TfString.ValueString]
          · intro s hn hne
            rw [hfr, hn]
            simp [TfString.ValueString, hne]
        · simp only [Prod.mk.injEq, Option.some.injEq] at h
          obtain ⟨hr, _⟩ := h
          subst hr
          refine ⟨?_, fun client hc => by simp at hc⟩
          intro d hdm hp2
          unfold AddError at hdm
          rcases (mem_Append _ _ d).1 hdm with h2 | h2
          · exact mem_Append_nil configDiags d h2
          · have := List.mem_singleton.1 h2
            rw [this] at hp2
            exact absurd hp2 (by simp)
    · rw [Configure_unknown env DefaultSite fuel configDiags config w hd hk] at h
      obtain ⟨h1, _⟩ := Prod.mk.inj h
      have hr := Option.some.inj h1
      subst hr
      refine ⟨?_, fun client hc => by simp at hc⟩
      intro d hdm hp
      exact mem_Append_nil configDiags d
        (unknownChecks_site (Append [] configDiags) config hs d hdm hp)

/-- Witness of C24: a configuration without site; the login succeeds and the
client handed on has the default site. -/
theorem configure_site_default_witness :
    (udmProvider.Configure (cookieEnv "hdr.csrf.sig") "default" 1 [] sampleConfig {}).1.map
        (fun r => r.ResourceData.map (fun cl => cl.site)) = some (some "default") := by
  have hrun : udmProvider.Configure (cookieEnv "hdr.csrf.sig") "default" 1 [] sampleConfig {} =
      (some
        { Diagnostics := []
          DataSourceData :=
            some (freshClient.Login (cookieEnv "hdr.csrf.sig") 1 "admin" "secret" {}).2.1
          ResourceData :=
            some (freshClient.Login (cookieEnv "hdr.csrf.sig") 1 "admin" "secret" {}).2.1 },
        (freshClient.Login (cookieEnv "hdr.csrf.sig") 1 "admin" "secret" {}).2.2) := by decide
  have h := (configure_site_default (cookieEnv "hdr.csrf.sig") "default" 1 [] sampleConfig {} _ _
    hrun rfl).2 _ rfl
  rw [hrun]
  simp only [Option.map_some']
  rw [h.2.1 rfl]

/-- C26, counterexample. The hostname is the empty string and the password
is unknown. `Configure` adds one diagnostic only, the one for the unknown
password, and returns: no diagnostic is added for the empty hostname. -/
theorem configure_unknown_hides_missing :
    mixedConfig.Hostname.ValueString = "" ∧
      (udmProvider.Configure unreachableEnv "default" 1 [] mixedConfig {}).1.map
          (fun r => r.Diagnostics.map (fun d => (d.Path, d.Summary))) =
        some [(some "password", "Unknown UDM API Password")] := by
  refine ⟨rfl, by decide⟩

/-- C26, as amended. When the configuration was read without error:
`Configure` hands a client to resources and data sources if and only if none
of hostname, password, site and username is unknown, hostname, password and
username are non-empty, and `Login` on the newly built client returns no
error. When none of the four is unknown and hostname, password or username is
null or empty, exactly one error diagnostic is added for each such attribute
and `Login` is not called (the world is unchanged). When one of the four is
unknown, only the diagnostics for unknown values are added, no client is
handed on and `Login` is not called. -/
theorem configure_hands_client_iff (env : Env) (DefaultSite : String) (fuel : Nat)
    (configDiags : List Diagnostic) (config : udmProviderModel) (w : World)
    (hd : HasError configDiags = false) :
    (∀ resp w1, udmProvider.Configure env DefaultSite fuel configDiags config w = (some resp, w1) →
      ((∃ client, resp.ResourceData = some client ∧ resp.DataSourceData = some client) ↔
        (config.AllKnown ∧ config.Hostname.ValueString ≠ "" ∧
          config.Password.ValueString ≠ "" ∧ config.Username.ValueString ≠ "" ∧
          ((NewClient config.Hostname.ValueString
              (if config.Site.ValueString = "" then DefaultSite else config.Site.ValueString)
              config.IgnoreUntrustedSSLCertificate.ValueBool).Login env fuel
                config.Username.ValueString config.Password.ValueString w).1 = some none))) ∧
    (config.AllKnown →
      (config.Hostname.ValueString = "" ∨ config.Password.ValueString = "" ∨
        config.Username.ValueString = "") →
      udmProvider.Configure env DefaultSite fuel configDiags config w =
        (some { Diagnostics := Append [] configDiags ++
            ((if config.Hostname.ValueString = "" then [missingHostname] else []) ++
              ((if config.Password.ValueString = "" then [missingPassword] else []) ++
                (if config.Username.ValueString = "" then [missingUsername] else []))) }, w)) ∧
    (¬ config.AllKnown →
      udmProvider.Configure env DefaultSite fuel configDiags config w =
        (some { Diagnostics := udmProvider.unknownChecks (Append [] configDiags) config }, w)) := by
  refine ⟨?_, Configure_missing env DefaultSite fuel configDiags config w hd,
    Configure_unknown env DefaultSite fuel configDiags config w hd⟩
  intro resp w1 h
  by_cases hk : config.AllKnown
  · by_cases hm : config.Hostname.ValueString = "" ∨ config.Password.ValueString = "" ∨
        config.Username.ValueString = ""
    · rw [Configure_missing env DefaultSite fuel configDiags config w hd hk hm] at h
      obtain ⟨h1, _⟩ := Prod.mk.inj h
      have hr := Option.some.inj h1
      subst hr
      constructor
      · rintro ⟨client, hc, _⟩
        simp at hc
      · rintro ⟨_, hh, hp, hu, _⟩
        rcases hm with hm | hm | hm
        · exact absurd hm hh
        · exact absurd hm hp
        · exact absurd hm hu
    · have hh : config.Hostname.ValueString ≠ "" := fun hx => hm (Or.inl hx)
      have hp : config.Password.ValueString ≠ "" := fun hx => hm (Or.inr (Or.inl hx))
      have hu : config.Username.ValueString ≠ "" := fun hx => hm (Or.inr (Or.inr hx))
      rw [Configure_valid env DefaultSite fuel configDiags config w hd hk hh hp hu] at h
      generalize (NewClient config.Hostname.ValueString _ _).Login env fuel _ _ w = lr at h
      rcases lr with ⟨_ | _ | e, client1, w2⟩
      · simp at h
      · simp only [Prod.mk.injEq, Option.some.injEq] at h
        obtain ⟨hr, _⟩ := h
        subst hr
        exact ⟨fun _ => ⟨hk, hh, hp, hu, rfl⟩, fun _ => ⟨client1, rfl, rfl⟩⟩
      · simp only [Prod.mk.injEq, Option.some.injEq] at h
        obtain ⟨hr, _⟩ := h
        subst hr
        constructor
        · rintro ⟨client, hc, _⟩
          simp at hc
        · rintro ⟨_, _, _, _, hl⟩
          simp at hl
  · rw [Configure_unknown env DefaultSite fuel configDiags config w hd hk] at h
    obtain ⟨h1, _⟩ := Prod.mk.inj h
    have hr := Option.some.inj h1
    subst hr
    constructor
    · rintro ⟨client, hc, _⟩
      simp at hc
    · rintro ⟨hk2, _⟩
      exact absurd hk2 hk

/-- Witness of C26 as amended: an empty hostname and a null password give
the two "missing" diagnostics, in that order, and no request is sent. -/
theorem configure_hands_client_iff_witness :
    udmProvider.Configure unreachableEnv "default" 1 [] incompleteConfig {} =
      (some { Diagnostics := [missingHostname, missingPassword] }, {}) := by
  have h := (configure_hands_client_iff unreachableEnv "default" 1 [] incompleteConfig {}
    rfl).2.1 ⟨rfl, rfl, rfl, rfl⟩ (Or.inl rfl)
  exact h

/-! ## The state saved by Create and Update -/

/-- The conversion `int32(x)` leaves a value of the signed 32-bit range as it
is. -/
theorem toInt32_of_inInt32 (x : Int) (h : InInt32 x) : toInt32 x = x := by
  unfold InInt32 at h
  unfold toInt32
  omega

/-- A state saved by `staticDNSRecordResource.Create` is the narrowed image of the
entity the API call returned, and no error diagnostic was added. -/
theorem recordCreate_state (env : Env) (client : Client) (planDiags : List Diagnostic)
    (plan : staticDNSRecordResourceModel) (w w1 : World)
    (resp : ResourceResponse staticDNSRecordResourceModel)
    (st : staticDNSRecordResourceModel)
    (h : staticDNSRecordResource.Create env client planDiags plan w = (resp, w1))
    (hst : resp.State = some st) :
    HasError resp.Diagnostics = false ∧
      ∃ r, client.CreateStaticDNSRecord env (staticDNSRecordResource.bodyOf plan) w =
          ((r, none), client, w1) ∧
        st.EqualsRecord r.narrowed := by
  unfold staticDNSRecordResource.Create at h
  dsimp only at h
  by_cases hd : HasError (Append [] planDiags) = true
  · rw [if_pos hd] at h
    obtain ⟨rfl, _⟩ := Prod.mk.inj h
    simp at hst
  · rw [if_neg hd] at h
    have hcl : (client.CreateStaticDNSRecord env (staticDNSRecordResource.bodyOf plan) w).2.1 = client :=
      clientAfter_eq env client w (.CreateStaticDNSRecord (staticDNSRecordResource.bodyOf plan))
    generalize hcall : client.CreateStaticDNSRecord env (staticDNSRecordResource.bodyOf plan) w =
      res at h hcl
    rcases res with ⟨⟨r, _ | err⟩, c1, w2⟩ <;> obtain rfl : c1 = client := hcl
    · simp only [Prod.mk.injEq] at h
      obtain ⟨rfl, rfl⟩ := h
      simp only [Option.some.injEq] at hst
      subst hst
      refine ⟨by simpa using hd, r, rfl, ?_⟩
      simp [staticDNSRecordResourceModel.EqualsRecord, StaticDNSRecord.narrowed]
    · simp only [Prod.mk.injEq] at h
      obtain ⟨rfl, _⟩ := h
      simp at hst

/-- A state saved by `staticDNSRecordResource.Update` is the narrowed image of the
entity the API call returned, and no error diagnostic was added. -/
theorem recordUpdate_state (env : Env) (client : Client) (planDiags : List Diagnostic)
    (plan : staticDNSRecordResourceModel) (w w1 : World)
    (resp : ResourceResponse staticDNSRecordResourceModel)
    (st : staticDNSRecordResourceModel)
    (h : staticDNSRecordResource.Update env client planDiags plan w = (resp, w1))
    (hst : resp.State = some st) :
    HasError resp.Diagnostics = false ∧
      ∃ r, client.UpdateStaticDNSRecord env plan.ID.ValueString (staticDNSRecordResource.bodyOf plan) w =
          ((r, none), client, w1) ∧
        st.EqualsRecord r.narrowed := by
  unfold staticDNSRecordResource.Update at h
  dsimp only at h
  by_cases hd : HasError (Append [] planDiags) = true
  · rw [if_pos hd] at h
    obtain ⟨rfl, _⟩ := Prod.mk.inj h
    simp at hst
  · rw [if_neg hd] at h
    have hcl : (client.UpdateStaticDNSRecord env plan.ID.ValueString (staticDNSRecordResource.bodyOf plan) w).2.1 = client :=
      clientAfter_eq env client w (.UpdateStaticDNSRecord plan.ID.ValueString (staticDNSRecordResource.bodyOf plan))
    generalize hcall : client.UpdateStaticDNSRecord env plan.ID.ValueString (staticDNSRecordResource.bodyOf plan) w =
      res at h hcl
    rcases res with ⟨⟨r, _ | err⟩, c1, w2⟩ <;> obtain rfl : c1 = client := hcl
    · simp only [Prod.mk.injEq] at h
      obtain ⟨rfl, rfl⟩ := h
      simp only [Option.some.injEq] at hst
      subst hst
      refine ⟨by simpa using hd, r, rfl, ?_⟩
      simp [staticDNSRecordResourceModel.EqualsRecord, StaticDNSRecord.narrowed]
    · simp only [Prod.mk.injEq] at h
      obtain ⟨rfl, _⟩ := h
      simp at hst

/-- An entity whose numbers fit is its own narrowed image. -/
theorem record_narrowed_of_fits (r : StaticDNSRecord) (h : r.Fits) : r.narrowed = r := by
  obtain ⟨h1, h2, h3, h4⟩ := h
  simp [StaticDNSRecord.narrowed, toInt32_of_inInt32 _ h1, toInt32_of_inInt32 _ h2,
    toInt32_of_inInt32 _ h3, toInt32_of_inInt32 _ h4]

/-- A state saved by `staticDNSResource.Create` is the narrowed image of the
entity the API call returned, and no error diagnostic was added. -/
theorem entryCreate_state (env : Env) (client : Client) (planDiags : List Diagnostic)
    (plan : staticDNSEntryResourceModel) (w w1 : World)
    (resp : ResourceResponse staticDNSEntryResourceModel)
    (st : staticDNSEntryResourceModel)
    (h : staticDNSResource.Create env client planDiags plan w = (resp, w1))
    (hst : resp.State = some st) :
    HasError resp.Diagnostics = false ∧
      ∃ r, client.CreateStaticDNSEntry env (staticDNSResource.bodyOf plan) w =
          ((r, none), client, w1) ∧
        st.EqualsEntry r.narrowed := by
  unfold staticDNSResource.Create at h
  dsimp only at h
  by_cases hd : HasError (Append [] planDiags) = true
  · rw [if_pos hd] at h
    obtain ⟨rfl, _⟩ := Prod.mk.inj h
    simp at hst
  · rw [if_neg hd] at h
    have hcl : (client.CreateStaticDNSEntry env (staticDNSResource.bodyOf plan) w).2.1 = client :=
      clientAfter_eq env client w (.CreateStaticDNSEntry (staticDNSResource.bodyOf plan))
    generalize hcall : client.CreateStaticDNSEntry env (staticDNSResource.bodyOf plan) w =
      res at h hcl
    rcases res with ⟨⟨r, _ | err⟩, c1, w2⟩ <;> obtain rfl : c1 = client := hcl
    · simp only [Prod.mk.injEq] at h
      obtain ⟨rfl, rfl⟩ := h
      simp only [Option.some.injEq] at hst
      subst hst
      refine ⟨by simpa using hd, r, rfl, ?_⟩
      simp [staticDNSEntryResourceModel.EqualsEntry, StaticDNSEntry.narrowed]
    · simp only [Prod.mk.injEq] at h
      obtain ⟨rfl, _⟩ := h
      simp at hst

/-- A state saved by `staticDNSResource.Update` is the narrowed image of the
entity the API call returned, and no error diagnostic was added. -/
theorem entryUpdate_state (env : Env) (client : Client) (planDiags : List Diagnostic)
    (plan : staticDNSEntryResourceModel) (w w1 : World)
    (resp : ResourceResponse staticDNSEntryResourceModel)
    (st : staticDNSEntryResourceModel)
    (h : staticDNSResource.Update env client planDiags plan w = (resp, w1))
    (hst : resp.State = some st) :
    HasError resp.Diagnostics = false ∧
      ∃ r, client.UpdateStaticDNSEntry env plan.ID.ValueString (staticDNSResource.bodyOf plan) w =
          ((r, none), client, w1) ∧
        st.EqualsEntry r.narrowed := by
  unfold staticDNSResource.Update at h
  dsimp only at h
  by_cases hd : HasError (Append [] planDiags) = true
  · rw [if_pos hd] at h
    obtain ⟨rfl, _⟩ := Prod.mk.inj h
    simp at hst
  · rw [if_neg hd] at h
    have hcl : (client.UpdateStaticDNSEntry env plan.ID.ValueString (staticDNSResource.bodyOf plan) w).2.1 = client :=
      clientAfter_eq env client w (.UpdateStaticDNSEntry plan.ID.ValueString (staticDNSResource.bodyOf plan))
    generalize hcall : client.UpdateStaticDNSEntry env plan.ID.ValueString (staticDNSResource.bodyOf plan) w =
      res at h hcl
    rcases res with ⟨⟨r, _ | err⟩, c1, w2⟩ <;> obtain rfl : c1 = client := hcl
    · simp only [Prod.mk.injEq] at h
      obtain ⟨rfl, rfl⟩ := h
      simp only [Option.some.injEq] at hst
      subst hst
      refine ⟨by simpa using hd, r, rfl, ?_⟩
      simp [staticDNSEntryResourceModel.EqualsEntry, StaticDNSEntry.narrowed]
    · simp only [Prod.mk.injEq] at h
      obtain ⟨rfl, _⟩ := h
      simp at hst

/-- An entity whose numbers fit is its own narrowed image. -/
theorem entry_narrowed_of_fits (r : StaticDNSEntry) (h : r.Fits) : r.narrowed = r := by
  obtain ⟨h1, h2, h3, h4⟩ := h
  simp [StaticDNSEntry.narrowed, toInt32_of_inInt32 _ h1, toInt32_of_inInt32 _ h2,
    toInt32_of_inInt32 _ h3, toInt32_of_inInt32 _ h4]

/-- A state saved by `clientDeviceResource.Create` holds the fields of the
device the API call returned, and no error diagnostic was added. -/
theorem deviceCreate_state (env : Env) (client : Client) (planDiags : List Diagnostic)
    (plan : clientDeviceResourceModel) (w w1 : World)
    (resp : ResourceResponse clientDeviceResourceModel)
    (st : clientDeviceResourceModel)
    (h : clientDeviceResource.Create env client planDiags plan w = (some resp, w1))
    (hst : resp.State = some st) :
    HasError resp.Diagnostics = false ∧
      ∃ d, client.CreateClientDevice env (clientDeviceResource.bodyOf plan) w =
          (.returned d none, client, w1) ∧ st.EqualsDevice d := by
  unfold clientDeviceResource.Create at h
  dsimp only at h
  by_cases hd : HasError (Append [] planDiags) = true
  · rw [if_pos hd] at h
    obtain ⟨hr, _⟩ := Prod.mk.inj h
    obtain rfl := Option.some.inj hr
    simp at hst
  · rw [if_neg hd] at h
    have hcl : (client.CreateClientDevice env (clientDeviceResource.bodyOf plan) w).2.1 = client :=
      clientAfter_eq env client w (.CreateClientDevice (clientDeviceResource.bodyOf plan))
    generalize hcall : client.CreateClientDevice env (clientDeviceResource.bodyOf plan) w =
      res at h hcl
    rcases res with ⟨⟨d, _ | err⟩ | _, c1, w2⟩ <;> obtain rfl : c1 = client := hcl
    · simp only [Prod.mk.injEq, Option.some.injEq] at h
      obtain ⟨rfl, rfl⟩ := h
      simp only [Option.some.injEq] at hst
      subst hst
      refine ⟨by simpa using hd, d, rfl, ?_⟩
      simp [clientDeviceResourceModel.EqualsDevice]
    · simp only [Prod.mk.injEq, Option.some.injEq] at h
      obtain ⟨rfl, _⟩ := h
      simp at hst
    · simp at h

/-- C25, counterexample. The server answers the create of `hostPlan` with a
record whose time to live is 2147483648. The call returns that record, and the
saved state holds the time to live -2147483648. -/
theorem create_state_narrows_ttl :
    (sessionClient.CreateStaticDNSRecord wideEnv (staticDNSRecordResource.bodyOf hostPlan) {}).1 =
        (wideRecord, none) ∧
      wideRecord.TTL = 2147483648 ∧
      (staticDNSRecordResource.Create wideEnv sessionClient [] hostPlan {}).1.State.map
          (fun st => st.TTL) = some (.value (-2147483648)) := by
  decide

/-- C25, as amended. After a Create or Update of a static DNS record or of a
static DNS entry, or a Create of a client device, that saved a state: no
error diagnostic was added, the API call returned an entity without error, and
the saved state holds the identifier and every string and flag of that entity
as returned, and each of port, priority, ttl and weight converted by
`int32(...)`, which is the returned number when that number is in the signed
32-bit range. The plan only supplies the request body. The Update of a client
device sends no request and saves no state. -/
theorem saved_state_is_returned_entity (env : Env) (client : Client)
    (planDiags : List Diagnostic) (w w1 : World) :
    (∀ plan resp st, staticDNSRecordResource.Create env client planDiags plan w = (resp, w1) →
      resp.State = some st →
      HasError resp.Diagnostics = false ∧
        ∃ r, client.CreateStaticDNSRecord env (staticDNSRecordResource.bodyOf plan) w =
            ((r, none), client, w1) ∧
          st.EqualsRecord r.narrowed ∧ (r.Fits → st.EqualsRecord r)) ∧
    (∀ plan resp st, staticDNSRecordResource.Update env client planDiags plan w = (resp, w1) →
      resp.State = some st →
      HasError resp.Diagnostics = false ∧
        ∃ r, client.UpdateStaticDNSRecord env plan.ID.ValueString
              (staticDNSRecordResource.bodyOf plan) w = ((r, none), client, w1) ∧
          st.EqualsRecord r.narrowed ∧ (r.Fits → st.EqualsRecord r)) ∧
    (∀ plan resp st, staticDNSResource.Create env client planDiags plan w = (resp, w1) →
      resp.State = some st →
      HasError resp.Diagnostics = false ∧
        ∃ r, client.CreateStaticDNSEntry env (staticDNSResource.bodyOf plan) w =
            ((r, none), client, w1) ∧
          st.EqualsEntry r.narrowed ∧ (r.Fits → st.EqualsEntry r)) ∧
    (∀ plan resp st, staticDNSResource.Update env client planDiags plan w = (resp, w1) →
      resp.State = some st →
      HasError resp.Diagnostics = false ∧
        ∃ r, client.UpdateStaticDNSEntry env plan.ID.ValueString
              (staticDNSResource.bodyOf plan) w = ((r, none), client, w1) ∧
          st.EqualsEntry r.narrowed ∧ (r.Fits → st.EqualsEntry r)) ∧
    (∀ plan resp st, clientDeviceResource.Create env client planDiags plan w = (some resp, w1) →
      resp.State = some st →
      HasError resp.Diagnostics = false ∧
        ∃ d, client.CreateClientDevice env (clientDeviceResource.bodyOf plan) w =
            (.returned d none, client, w1) ∧ st.EqualsDevice d) ∧
    (∀ plan, clientDeviceResource.Update env client planDiags plan w = ({}, w)) := by
  refine ⟨?_, ?_, ?_, ?_, ?_, fun _ => rfl⟩
  · intro plan resp st h hst
    obtain ⟨hd, r, hc, he⟩ := recordCreate_state env client planDiags plan w w1 resp st h hst
    exact ⟨hd, r, hc, he, fun hf => by rw [record_narrowed_of_fits r hf] at he; exact he⟩
  · intro plan resp st h hst
    obtain ⟨hd, r, hc, he⟩ := recordUpdate_state env client planDiags plan w w1 resp st h hst
    exact ⟨hd, r, hc, he, fun hf => by rw [record_narrowed_of_fits r hf] at he; exact he⟩
  · intro plan resp st h hst
    obtain ⟨hd, r, hc, he⟩ := entryCreate_state env client planDiags plan w w1 resp st h hst
    exact ⟨hd, r, hc, he, fun hf => by rw [entry_narrowed_of_fits r hf] at he; exact he⟩
  · intro plan resp st h hst
    obtain ⟨hd, r, hc, he⟩ := entryUpdate_state env client planDiags plan w w1 resp st h hst
    exact ⟨hd, r, hc, he, fun hf => by rw [entry_narrowed_of_fits r hf] at he; exact he⟩
  · intro plan resp st h hst
    exact deviceCreate_state env client planDiags plan w w1 resp st h hst

/-- Witness of C25 as amended: the create of `hostPlan` answered with
`hostRecord` saves a state that holds every field of `hostRecord`. -/
theorem saved_state_is_returned_entity_witness :
    (staticDNSRecordResource.Create recordEnv sessionClient [] hostPlan {}).1.State =
        some { hostPlan with ID := .value "r7", Port := .value 0, Priority := .value 0,
                             Weight := .value 0 } ∧
      staticDNSRecordResourceModel.EqualsRecord
        { hostPlan with ID := .value "r7", Port := .value 0, Priority := .value 0,
                        Weight := .value 0 } hostRecord := by
  have hrun : staticDNSRecordResource.Create recordEnv sessionClient [] hostPlan {} =
      ({ Diagnostics := [],
         State := some { hostPlan with ID := .value "r7", Port := .value 0, Priority := .value 0,
                                       Weight := .value 0 } },
        { sent := 1, trace := (staticDNSRecordResource.Create recordEnv sessionClient [] hostPlan
            {}).2.trace }) := by
    decide
  obtain ⟨_, r, hc, _, hf⟩ := (saved_state_is_returned_entity recordEnv sessionClient [] {}
    _).1 hostPlan _ _ hrun rfl
  have hr : r = hostRecord := by
    have h2 : (sessionClient.CreateStaticDNSRecord recordEnv
        (staticDNSRecordResource.bodyOf hostPlan) {}).1 = (hostRecord, none) := by decide
    rw [hc] at h2
    exact (Prod.mk.inj h2).1
  subst hr
  exact ⟨by rw [hrun], hf ⟨by decide, by decide, by decide, by decide⟩⟩

/-! ## The state saved by Read -/

/-- The entity `GetStaticDNSRecord` returns without error carries the identifier asked
for. -/
theorem GetStaticDNSRecord_ID (env : Env) (c c1 : Client) (id : String) (w w1 : World)
    (r : StaticDNSRecord)
    (h : c.GetStaticDNSRecord env id w = ((r, none), c1, w1)) : r.ID = id := by
  unfold Client.GetStaticDNSRecord at h
  generalize c.GetStaticDNSRecords env w = res at h
  rcases res with ⟨⟨l, _ | err⟩, c2, w2⟩
  · dsimp only at h
    cases hf : l.find? (fun x => decide (x.ID = id)) with
    | none =>
      rw [hf] at h
      simp at h
    | some x =>
      rw [hf] at h
      simp only [Prod.mk.injEq] at h
      obtain ⟨⟨rfl, _⟩, _⟩ := h
      simpa using List.find?_some hf
  · simp at h

/-- The entity `GetStaticDNSEntry` returns without error carries the identifier asked
for. -/
theorem GetStaticDNSEntry_ID (env : Env) (c c1 : Client) (id : String) (w w1 : World)
    (r : StaticDNSEntry)
    (h : c.GetStaticDNSEntry env id w = ((r, none), c1, w1)) : r.ID = id := by
  unfold Client.GetStaticDNSEntry at h
  generalize c.GetStaticDNSEntries env w = res at h
  rcases res with ⟨⟨l, _ | err⟩, c2, w2⟩
  · dsimp only at h
    cases hf : l.find? (fun x => decide (x.ID = id)) with
    | none =>
      rw [hf] at h
      simp at h
    | some x =>
      rw [hf] at h
      simp only [Prod.mk.injEq] at h
      obtain ⟨⟨rfl, _⟩, _⟩ := h
      simpa using List.find?_some hf
  · simp at h

/-- The entity `GetClientDevice` returns without error carries the identifier asked
for. -/
theorem GetClientDevice_ID (env : Env) (c c1 : Client) (id : String) (w w1 : World)
    (r : ClientDevice)
    (h : c.GetClientDevice env id w = ((r, none), c1, w1)) : r.ID = id := by
  unfold Client.GetClientDevice at h
  generalize c.GetClientDevices env w = res at h
  rcases res with ⟨⟨l, _ | err⟩, c2, w2⟩
  · dsimp only at h
    cases hf : l.find? (fun x => decide (x.ID = id)) with
    | none =>
      rw [hf] at h
      simp at h
    | some x =>
      rw [hf] at h
      simp only [Prod.mk.injEq] at h
      obtain ⟨⟨rfl, _⟩, _⟩ := h
      simpa using List.find?_some hf
  · simp at h

/-- When the prior state was read without error and the read-one call
returns an entity without error, `staticDNSRecordResource.Read` saves a state: the
prior identifier with the other fields of that entity. -/
theorem recordRead_saves (env : Env) (client c1 : Client) (stateDiags : List Diagnostic)
    (state : staticDNSRecordResourceModel) (w w1 : World) (r : StaticDNSRecord)
    (hd : HasError stateDiags = false)
    (hc : client.GetStaticDNSRecord env state.ID.ValueString w = ((r, none), c1, w1)) :
    staticDNSRecordResource.Read env client stateDiags state w =
      ({ Diagnostics := Append [] stateDiags
         State := some { r.narrowed.AsRecordState with ID := state.ID } }, w1) := by
  have h0 : HasError (Append [] stateDiags) = false := by rw [hasError_Append_nil]; exact hd
  simp [staticDNSRecordResource.Read, h0, hc, StaticDNSRecord.narrowed, StaticDNSRecord.AsRecordState]

/-- A state is saved by `staticDNSRecordResource.Read` only when the prior state was
read without error and the read-one call returned an entity without error. -/
theorem recordRead_state (env : Env) (client : Client) (stateDiags : List Diagnostic)
    (state : staticDNSRecordResourceModel) (w w1 : World)
    (resp : ResourceResponse staticDNSRecordResourceModel)
    (st : staticDNSRecordResourceModel)
    (h : staticDNSRecordResource.Read env client stateDiags state w = (resp, w1))
    (hst : resp.State = some st) :
    HasError stateDiags = false ∧
      ∃ r, client.GetStaticDNSRecord env state.ID.ValueString w = ((r, none), client, w1) := by
  unfold staticDNSRecordResource.Read at h
  dsimp only at h
  by_cases hd : HasError (Append [] stateDiags) = true
  · rw [if_pos hd] at h
    obtain ⟨rfl, _⟩ := Prod.mk.inj h
    simp at hst
  · rw [if_neg hd] at h
    have hcl : (client.GetStaticDNSRecord env state.ID.ValueString w).2.1 = client :=
      clientAfter_eq env client w (.GetStaticDNSRecord state.ID.ValueString)
    generalize hcall : client.GetStaticDNSRecord env state.ID.ValueString w = res at h hcl
    rcases res with ⟨⟨r, _ | err⟩, c1, w2⟩ <;> obtain rfl : c1 = client := hcl
    · simp only [Prod.mk.injEq] at h
      obtain ⟨rfl, rfl⟩ := h
      refine ⟨?_, r, rfl⟩
      rw [← hasError_Append_nil]
      simpa using hd
    · simp only [Prod.mk.injEq] at h
      obtain ⟨rfl, _⟩ := h
      simp at hst

/-- When the prior state was read without error and the read-one call
returns an entity without error, `staticDNSResource.Read` saves a state: the
prior identifier with the other fields of that entity. -/
theorem entryRead_saves (env : Env) (client c1 : Client) (stateDiags : List Diagnostic)
    (state : staticDNSEntryResourceModel) (w w1 : World) (r : StaticDNSEntry)
    (hd : HasError stateDiags = false)
    (hc : client.GetStaticDNSEntry env state.ID.ValueString w = ((r, none), c1, w1)) :
    staticDNSResource.Read env client stateDiags state w =
      ({ Diagnostics := Append [] stateDiags
         State := some { r.narrowed.AsEntryState with ID := state.ID } }, w1) := by
  have h0 : HasError (Append [] stateDiags) = false := by rw [hasError_Append_nil]; exact hd
  simp [staticDNSResource.Read, h0, hc, StaticDNSEntry.narrowed, StaticDNSEntry.AsEntryState]

/-- A state is saved by `staticDNSResource.Read` only when the prior state was
read without error and the read-one call returned an entity without error. -/
theorem entryRead_state (env : Env) (client : Client) (stateDiags : List Diagnostic)
    (state : staticDNSEntryResourceModel) (w w1 : World)
    (resp : ResourceResponse staticDNSEntryResourceModel)
    (st : staticDNSEntryResourceModel)
    (h : staticDNSResource.Read env client stateDiags state w = (resp, w1))
    (hst : resp.State = some st) :
    HasError stateDiags = false ∧
      ∃ r, client.GetStaticDNSEntry env state.ID.ValueString w = ((r, none), client, w1) := by
  unfold staticDNSResource.Read at h
  dsimp only at h
  by_cases hd : HasError (Append [] stateDiags) = true
  · rw [if_pos hd] at h
    obtain ⟨rfl, _⟩ := Prod.mk.inj h
    simp at hst
  · rw [if_neg hd] at h
    have hcl : (client.GetStaticDNSEntry env state.ID.ValueString w).2.1 = client :=
      clientAfter_eq env client w (.GetStaticDNSEntry state.ID.ValueString)
    generalize hcall : client.GetStaticDNSEntry env state.ID.ValueString w = res at h hcl
    rcases res with ⟨⟨r, _ | err⟩, c1, w2⟩ <;> obtain rfl : c1 = client := hcl
    · simp only [Prod.mk.injEq] at h
      obtain ⟨rfl, rfl⟩ := h
      refine ⟨?_, r, rfl⟩
      rw [← hasError_Append_nil]
      simpa using hd
    · simp only [Prod.mk.injEq] at h
      obtain ⟨rfl, _⟩ := h
      simp at hst

/-- When the prior state was read without error and the read-one call
returns a device without error, `clientDeviceResource.Read` saves a state: the
prior identifier with the other fields of that device. -/
theorem deviceRead_saves (env : Env) (client c1 : Client) (stateDiags : List Diagnostic)
    (state : clientDeviceResourceModel) (w w1 : World) (d : ClientDevice)
    (hd : HasError stateDiags = false)
    (hc : client.GetClientDevice env state.ID.ValueString w = ((d, none), c1, w1)) :
    clientDeviceResource.Read env client stateDiags state w =
      ({ Diagnostics := Append [] stateDiags
         State := some { d.AsDeviceState with ID := state.ID } }, w1) := by
  have h0 : HasError (Append [] stateDiags) = false := by rw [hasError_Append_nil]; exact hd
  simp [clientDeviceResource.Read, h0, hc, ClientDevice.AsDeviceState]

/-- A state is saved by `clientDeviceResource.Read` only when the prior state
was read without error and the read-one call returned a device without
error. -/
theorem deviceRead_state (env : Env) (client : Client) (stateDiags : List Diagnostic)
    (state : clientDeviceResourceModel) (w w1 : World)
    (resp : ResourceResponse clientDeviceResourceModel) (st : clientDeviceResourceModel)
    (h : clientDeviceResource.Read env client stateDiags state w = (resp, w1))
    (hst : resp.State = some st) :
    HasError stateDiags = false ∧
      ∃ d, client.GetClientDevice env state.ID.ValueString w = ((d, none), client, w1) := by
  unfold clientDeviceResource.Read at h
  dsimp only at h
  by_cases hd : HasError (Append [] stateDiags) = true
  · rw [if_pos hd] at h
    obtain ⟨rfl, _⟩ := Prod.mk.inj h
    simp at hst
  · rw [if_neg hd] at h
    have hcl : (client.GetClientDevice env state.ID.ValueString w).2.1 = client :=
      clientAfter_eq env client w (.GetClientDevice state.ID.ValueString)
    generalize hcall : client.GetClientDevice env state.ID.ValueString w = res at h hcl
    rcases res with ⟨⟨d, _ | err⟩, c1, w2⟩ <;> obtain rfl : c1 = client := hcl
    · simp only [Prod.mk.injEq] at h
      obtain ⟨rfl, rfl⟩ := h
      refine ⟨?_, d, rfl⟩
      rw [← hasError_Append_nil]
      simpa using hd
    · simp only [Prod.mk.injEq] at h
      obtain ⟨rfl, _⟩ := h
      simp at hst

/-- C28. For the Read of a static DNS record, of a static DNS entry and of a
client device. When the prior state was read without error and the read-one
call for the text of its identifier returns an entity without error, Read
saves a state and adds no diagnostic: the saved state has the identifier of
the prior state, which Read does not rewrite, and the other fields of that
entity (the four numbers converted by `int32(...)`); the entity carries the
identifier asked for, so the saved state describes that one entity, and when
the prior identifier is a known value the saved state agrees with the entity
on the identifier as on every other field. A state is saved in no other
case. -/
theorem read_state_describes_one_entity (env : Env) (client : Client)
    (stateDiags : List Diagnostic) (w w1 : World) :
    ((∀ state r c1, HasError stateDiags = false →
        client.GetStaticDNSRecord env state.ID.ValueString w = ((r, none), c1, w1) →
        staticDNSRecordResource.Read env client stateDiags state w =
            ({ Diagnostics := Append [] stateDiags
               State := some { r.narrowed.AsRecordState with ID := state.ID } }, w1) ∧
          state.ID.ValueString = r.ID ∧
          (∀ s, state.ID = .value s →
            ({ r.narrowed.AsRecordState with ID := state.ID } : _).EqualsRecord r.narrowed)) ∧
      (∀ state resp st, staticDNSRecordResource.Read env client stateDiags state w = (resp, w1) →
        resp.State = some st →
        HasError stateDiags = false ∧
          ∃ r, client.GetStaticDNSRecord env state.ID.ValueString w = ((r, none), client, w1))) ∧
    ((∀ state r c1, HasError stateDiags = false →
        client.GetStaticDNSEntry env state.ID.ValueString w = ((r, none), c1, w1) →
        staticDNSResource.Read env client stateDiags state w =
            ({ Diagnostics := Append [] stateDiags
               State := some { r.narrowed.AsEntryState with ID := state.ID } }, w1) ∧
          state.ID.ValueString = r.ID ∧
          (∀ s, state.ID = .value s →
            ({ r.narrowed.AsEntryState with ID := state.ID } : _).EqualsEntry r.narrowed)) ∧
      (∀ state resp st, staticDNSResource.Read env client stateDiags state w = (resp, w1) →
        resp.State = some st →
        HasError stateDiags = false ∧
          ∃ r, client.GetStaticDNSEntry env state.ID.ValueString w = ((r, none), client, w1))) ∧
    ((∀ state d c1, HasError stateDiags = false →
        client.GetClientDevice env state.ID.ValueString w = ((d, none), c1, w1) →
        clientDeviceResource.Read env client stateDiags state w =
            ({ Diagnostics := Append [] stateDiags
               State := some { d.AsDeviceState with ID := state.ID } }, w1) ∧
          state.ID.ValueString = d.ID ∧
          (∀ s, state.ID = .value s →
            ({ d.AsDeviceState with ID := state.ID } : _).EqualsDevice d)) ∧
      (∀ state resp st, clientDeviceResource.Read env client stateDiags state w = (resp, w1) →
        resp.State = some st →
        HasError stateDiags = false ∧
          ∃ d, client.GetClientDevice env state.ID.ValueString w = ((d, none), client, w1))) := by
  refine ⟨⟨?_, ?_⟩, ⟨?_, ?_⟩, ⟨?_, ?_⟩⟩
  · intro state r c1 hd hc
    have hid := GetStaticDNSRecord_ID env client c1 _ w w1 r hc
    refine ⟨recordRead_saves env client c1 stateDiags state w w1 r hd hc, hid.symm, ?_⟩
    intro s hs
    rw [hs] at hid
    simp [staticDNSRecordResourceModel.EqualsRecord, StaticDNSRecord.narrowed,
      StaticDNSRecord.AsRecordState, hs, show r.ID = s from hid]
  · intro state resp st h hst
    exact recordRead_state env client stateDiags state w w1 resp st h hst
  · intro state r c1 hd hc
    have hid := GetStaticDNSEntry_ID env client c1 _ w w1 r hc
    refine ⟨entryRead_saves env client c1 stateDiags state w w1 r hd hc, hid.symm, ?_⟩
    intro s hs
    rw [hs] at hid
    simp [staticDNSEntryResourceModel.EqualsEntry, StaticDNSEntry.narrowed,
      StaticDNSEntry.AsEntryState, hs, show r.ID = s from hid]
  · intro state resp st h hst
    exact entryRead_state env client stateDiags state w w1 resp st h hst
  · intro state d c1 hd hc
    have hid := GetClientDevice_ID env client c1 _ w w1 d hc
    refine ⟨deviceRead_saves env client c1 stateDiags state w w1 d hd hc, hid.symm, ?_⟩
    intro s hs
    rw [hs] at hid
    simp [clientDeviceResourceModel.EqualsDevice, ClientDevice.AsDeviceState, hs,
      show d.ID = s from hid]
  · intro state resp st h hst
    exact deviceRead_state env client stateDiags state w w1 resp st h hst

/-- Witness of C28: against a list that holds `hostRecord` in second place,
the Read of a record state and of an entry state that hold its identifier
saves the fields of `hostRecord` under that identifier; against the list of
three devices, the Read of a device state that holds the identifier of the
third saves the fields of the third. -/
theorem read_state_describes_one_entity_witness :
    (staticDNSRecordResource.Read twoRecordsEnv sessionClient [] staleState {}).1.State =
        some hostRecord.AsRecordState ∧
      (staticDNSResource.Read twoRecordsEnv sessionClient [] staleEntryState {}).1.State =
        some { ID := .value "r7", Enabled := .value true, Key := .value "host1",
               Port := .value 0, Priority := .value 0, RecordType := .value "A",
               TTL := .value 300, Value := .value "10.0.0.5", Weight := .value 0 } ∧
      (clientDeviceResource.Read devicesEnv sessionClient [] printerState {}).1.State =
        some { ID := .value "d3", HardwareAddress := .value "aa:aa:aa:aa:aa:03",
               FixedIP := .value "", Name := .value "printer", LocalDNSRecord := .value "",
               LocalDNSRecordEnabled := .value false, UseFixedIP := .value false } := by
  have h1 := ((read_state_describes_one_entity twoRecordsEnv sessionClient [] {}
    (sessionClient.GetStaticDNSRecord twoRecordsEnv "r7" {}).2.2).1.1 staleState hostRecord
    sessionClient rfl (by decide)).1
  have h2 := ((read_state_describes_one_entity twoRecordsEnv sessionClient [] {}
    (sessionClient.GetStaticDNSEntry twoRecordsEnv "r7" {}).2.2).2.1.1 staleEntryState
    { ID := "r7", Enabled := true, Key := "host1", RecordType := "A", TTL := 300,
      Value := "10.0.0.5" }
    sessionClient rfl (by decide)).1
  have h3 := ((read_state_describes_one_entity devicesEnv sessionClient [] {}
    (sessionClient.GetClientDevice devicesEnv "d3" {}).2.2).2.2.1 printerState
    { ID := "d3", HardwareAddress := "aa:aa:aa:aa:aa:03", Name := "printer" }
    sessionClient rfl (by decide)).1
  rw [h1, h2, h3]
  exact ⟨by decide, by decide, by decide⟩

/-! ## The list a data source Read saves -/

/-- The guard of a `continue` is the negation of the match on one field. -/
theorem guard_iff (b : Bool) (p : Prop) : ¬ (b = false ∧ ¬ p) ↔ (b = true ∨ p) := by
  cases b <;> simp

/-- The loop of `staticDNSRecordsDataSource.Read` appends the models of the
kept records, in their order. -/
theorem recordsLoop_eq (config : staticDNSRecordsDataSourceModel) (l : List StaticDNSRecord)
    (state : staticDNSRecordsDataSourceModel) :
    l.foldl (staticDNSRecordsDataSource.loopBody config) state =
      { state with Records := state.Records ++
          (keptRecords config.Filter l).map staticDNSRecordsDataSource.recordState } := by
  induction l generalizing state with
  | nil => cases hF : config.Filter <;> simp [keptRecords]
  | cons x xs ih =>
    rw [List.foldl_cons, ih]
    cases hF : config.Filter with
    | none => simp [staticDNSRecordsDataSource.loopBody, keptRecords, hF]
    | some f =>
      by_cases hm : f.MatchesRecord x
      · have hm2 := hm
        obtain ⟨h1, h2, h3, h4, h5⟩ := hm2
        rw [← guard_iff] at h1 h2 h3 h4 h5
        simp only [staticDNSRecordsDataSource.loopBody, keptRecords, hF, if_neg h1, if_neg h2,
          if_neg h3, if_neg h4, if_neg h5]
        simp [List.filter_cons, hm]
      · have hl : staticDNSRecordsDataSource.loopBody config state x = state := by
          simp only [staticDNSRecordsDataSource.loopBody, hF]
          unfold staticDNSFilterDataSourceModel.MatchesRecord at hm
          simp only [← guard_iff] at hm
          split_ifs <;> first | rfl | (exfalso; apply hm; tauto)
        rw [hl]
        simp [keptRecords, List.filter_cons, hm]

/-- The loop of `staticDNSEntriesDataSource.Read` appends the models of the kept
entries, in their order. -/
theorem entriesLoop_eq (config : staticDNSEntriesDataSourceModel) (l : List StaticDNSEntry)
    (state : staticDNSEntriesDataSourceModel) :
    l.foldl (staticDNSEntriesDataSource.loopBody config) state =
      { state with Entries := state.Entries ++
          (keptEntries config.Filter l).map staticDNSEntriesDataSource.entryState } := by
  induction l generalizing state with
  | nil => cases hF : config.Filter <;> simp [keptEntries]
  | cons x xs ih =>
    rw [List.foldl_cons, ih]
    cases hF : config.Filter with
    | none => simp [staticDNSEntriesDataSource.loopBody, keptEntries, hF]
    | some f =>
      by_cases hm : f.MatchesEntry x
      · have hm2 := hm
        obtain ⟨h1, h2, h3, h4, h5⟩ := hm2
        rw [← guard_iff] at h1 h2 h3 h4 h5
        simp only [staticDNSEntriesDataSource.loopBody, keptEntries, hF, if_neg h1, if_neg h2,
          if_neg h3, if_neg h4, if_neg h5]
        simp [List.filter_cons, hm]
      · have hl : staticDNSEntriesDataSource.loopBody config state x = state := by
          simp only [staticDNSEntriesDataSource.loopBody, hF]
          unfold staticDNSFilterDataSourceModel.MatchesEntry at hm
          simp only [← guard_iff] at hm
          split_ifs <;> first | rfl | (exfalso; apply hm; tauto)
        rw [hl]
        simp [keptEntries, List.filter_cons, hm]

/-- The loop of `clientDevicesDataSource.Read` appends the models of the kept
devices, in their order. -/
theorem devicesLoop_eq (config : clientDevicesDataSourceModel) (l : List ClientDevice)
    (state : clientDevicesDataSourceModel) :
    l.foldl (clientDevicesDataSource.loopBody config) state =
      { state with Devices := state.Devices ++
          (keptDevices config.Filter l).map clientDevicesDataSource.deviceState } := by
  induction l generalizing state with
  | nil => cases hF : config.Filter <;> simp [keptDevices]
  | cons x xs ih =>
    rw [List.foldl_cons, ih]
    cases hF : config.Filter with
    | none => simp [clientDevicesDataSource.loopBody, keptDevices, hF]
    | some f =>
      by_cases hm : f.MatchesDevice x
      · have hm2 := hm
        obtain ⟨h1, h2, h3, h4, h5, h6, h7⟩ := hm2
        rw [← guard_iff] at h1 h2 h3 h4 h5 h6 h7
        simp only [clientDevicesDataSource.loopBody, keptDevices, hF, if_neg h1, if_neg h2,
          if_neg h3, if_neg h4, if_neg h5, if_neg h6, if_neg h7]
        simp [List.filter_cons, hm]
      · have hl : clientDevicesDataSource.loopBody config state x = state := by
          simp only [clientDevicesDataSource.loopBody, hF]
          unfold clientDeviceFilterDataSourceModel.MatchesDevice at hm
          simp only [← guard_iff] at hm
          split_ifs with g1 g2 g3 g4 g5 g6 g7 <;>
            first | rfl | exact absurd ⟨g1, g2, g3, g4, g5, g6, g7⟩ hm
        rw [hl]
        simp [keptDevices, List.filter_cons, hm]

/-- When the configuration was read without error and the read-all call
returns a list without error, `staticDNSRecordsDataSource.Read` saves a state: the
models of the kept records, in their order, next to the filter block. -/
theorem recordsRead_saves (env : Env) (client c1 : Client) (configDiags : List Diagnostic)
    (config : staticDNSRecordsDataSourceModel) (w w1 : World) (l : List StaticDNSRecord)
    (hd : HasError configDiags = false)
    (hc : client.GetStaticDNSRecords env w = ((l, none), c1, w1)) :
    staticDNSRecordsDataSource.Read env client configDiags config w =
      ({ Diagnostics := Append [] configDiags
         State := some { Records := (keptRecords config.Filter l).map staticDNSRecordsDataSource.recordState
                         Filter := config.Filter } }, w1) := by
  have h0 : HasError (Append [] configDiags) = false := by rw [hasError_Append_nil]; exact hd
  simp [staticDNSRecordsDataSource.Read, h0, hc, recordsLoop_eq]

/-- A state is saved by `staticDNSRecordsDataSource.Read` only when the configuration
was read without error and the read-all call returned a list without error. -/
theorem recordsRead_state (env : Env) (client : Client) (configDiags : List Diagnostic)
    (config : staticDNSRecordsDataSourceModel) (w w1 : World)
    (resp : ResourceResponse staticDNSRecordsDataSourceModel)
    (st : staticDNSRecordsDataSourceModel)
    (h : staticDNSRecordsDataSource.Read env client configDiags config w = (resp, w1))
    (hst : resp.State = some st) :
    HasError configDiags = false ∧
      ∃ l, client.GetStaticDNSRecords env w = ((l, none), client, w1) := by
  unfold staticDNSRecordsDataSource.Read at h
  dsimp only at h
  by_cases hd : HasError (Append [] configDiags) = true
  · rw [if_pos hd] at h
    obtain ⟨rfl, _⟩ := Prod.mk.inj h
    simp at hst
  · rw [if_neg hd] at h
    have hcl : (client.GetStaticDNSRecords env w).2.1 = client := clientAfter_eq env client w .GetStaticDNSRecords
    generalize hcall : client.GetStaticDNSRecords env w = res at h hcl
    rcases res with ⟨⟨l, _ | err⟩, c1, w2⟩ <;> obtain rfl : c1 = client := hcl
    · simp only [Prod.mk.injEq] at h
      obtain ⟨rfl, rfl⟩ := h
      refine ⟨?_, l, rfl⟩
      rw [← hasError_Append_nil]
      simpa using hd
    · simp only [Prod.mk.injEq] at h
      obtain ⟨rfl, _⟩ := h
      simp at hst

/-- When the configuration was read without error and the read-all call
returns a list without error, `staticDNSEntriesDataSource.Read` saves a state: the
models of the kept entries, in their order, next to the filter block. -/
theorem entriesRead_saves (env : Env) (client c1 : Client) (configDiags : List Diagnostic)
    (config : staticDNSEntriesDataSourceModel) (w w1 : World) (l : List StaticDNSEntry)
    (hd : HasError configDiags = false)
    (hc : client.GetStaticDNSEntries env w = ((l, none), c1, w1)) :
    staticDNSEntriesDataSource.Read env client configDiags config w =
      ({ Diagnostics := Append [] configDiags
         State := some { Entries := (keptEntries config.Filter l).map staticDNSEntriesDataSource.entryState
                         Filter := config.Filter } }, w1) := by
  have h0 : HasError (Append [] configDiags) = false := by rw [hasError_Append_nil]; exact hd
  simp [staticDNSEntriesDataSource.Read, h0, hc, entriesLoop_eq]

/-- A state is saved by `staticDNSEntriesDataSource.Read` only when the configuration
was read without error and the read-all call returned a list without error. -/
theorem entriesRead_state (env : Env) (client : Client) (configDiags : List Diagnostic)
    (config : staticDNSEntriesDataSourceModel) (w w1 : World)
    (resp : ResourceResponse staticDNSEntriesDataSourceModel)
    (st : staticDNSEntriesDataSourceModel)
    (h : staticDNSEntriesDataSource.Read env client configDiags config w = (resp, w1))
    (hst : resp.State = some st) :
    HasError configDiags = false ∧
      ∃ l, client.GetStaticDNSEntries env w = ((l, none), client, w1) := by
  unfold staticDNSEntriesDataSource.Read at h
  dsimp only at h
  by_cases hd : HasError (Append [] configDiags) = true
  · rw [if_pos hd] at h
    obtain ⟨rfl, _⟩ := Prod.mk.inj h
    simp at hst
  · rw [if_neg hd] at h
    have hcl : (client.GetStaticDNSEntries env w).2.1 = client := clientAfter_eq env client w .GetStaticDNSEntries
    generalize hcall : client.GetStaticDNSEntries env w = res at h hcl
    rcases res with ⟨⟨l, _ | err⟩, c1, w2⟩ <;> obtain rfl : c1 = client := hcl
    · simp only [Prod.mk.injEq] at h
      obtain ⟨rfl, rfl⟩ := h
      refine ⟨?_, l, rfl⟩
      rw [← hasError_Append_nil]
      simpa using hd
    · simp only [Prod.mk.injEq] at h
      obtain ⟨rfl, _⟩ := h
      simp at hst

/-- When the configuration was read without error and the read-all call
returns a list without error, `clientDevicesDataSource.Read` saves a state: the
models of the kept devices, in their order, next to the filter block. -/
theorem devicesRead_saves (env : Env) (client c1 : Client) (configDiags : List Diagnostic)
    (config : clientDevicesDataSourceModel) (w w1 : World) (l : List ClientDevice)
    (hd : HasError configDiags = false)
    (hc : client.GetClientDevices env w = ((l, none), c1, w1)) :
    clientDevicesDataSource.Read env client configDiags config w =
      ({ Diagnostics := Append [] configDiags
         State := some { Devices := (keptDevices config.Filter l).map clientDevicesDataSource.deviceState
                         Filter := config.Filter } }, w1) := by
  have h0 : HasError (Append [] configDiags) = false := by rw [hasError_Append_nil]; exact hd
  simp [clientDevicesDataSource.Read, h0, hc, devicesLoop_eq]

/-- A state is saved by `clientDevicesDataSource.Read` only when the configuration
was read without error and the read-all call returned a list without error. -/
theorem devicesRead_state (env : Env) (client : Client) (configDiags : List Diagnostic)
    (config : clientDevicesDataSourceModel) (w w1 : World)
    (resp : ResourceResponse clientDevicesDataSourceModel)
    (st : clientDevicesDataSourceModel)
    (h : clientDevicesDataSource.Read env client configDiags config w = (resp, w1))
    (hst : resp.State = some st) :
    HasError configDiags = false ∧
      ∃ l, client.GetClientDevices env w = ((l, none), client, w1) := by
  unfold clientDevicesDataSource.Read at h
  dsimp only at h
  by_cases hd : HasError (Append [] configDiags) = true
  · rw [if_pos hd] at h
    obtain ⟨rfl, _⟩ := Prod.mk.inj h
    simp at hst
  · rw [if_neg hd] at h
    have hcl : (client.GetClientDevices env w).2.1 = client := clientAfter_eq env client w .GetClientDevices
    generalize hcall : client.GetClientDevices env w = res at h hcl
    rcases res with ⟨⟨l, _ | err⟩, c1, w2⟩ <;> obtain rfl : c1 = client := hcl
    · simp only [Prod.mk.injEq] at h
      obtain ⟨rfl, rfl⟩ := h
      refine ⟨?_, l, rfl⟩
      rw [← hasError_Append_nil]
      simpa using hd
    · simp only [Prod.mk.injEq] at h
      obtain ⟨rfl, _⟩ := h
      simp at hst

/-- C27. For the Read of the client-device, static-DNS-record and
static-DNS-entry data sources. When the configuration was read without error
and the read-all call returns a list without error, Read saves a state and
adds no diagnostic. With no filter block the saved list is the model of every
fetched element, in the order of the fetched list. With a filter block it is
the models of exactly those fetched elements, in their order, that equal the
filter on every filter field that is not null: a null field constrains
nothing, and a field set to the empty string keeps only elements whose field
is empty. A state is saved in no other case. -/
theorem data_source_read_filters (env : Env) (client : Client)
    (configDiags : List Diagnostic) (w w1 : World) :
    ((∀ config l c1, HasError configDiags = false →
        client.GetClientDevices env w = ((l, none), c1, w1) →
        (config.Filter = none →
          clientDevicesDataSource.Read env client configDiags config w =
            ({ Diagnostics := Append [] configDiags
               State := some { Devices := l.map clientDevicesDataSource.deviceState
                               Filter := none } }, w1)) ∧
        (∀ f, config.Filter = some f →
          clientDevicesDataSource.Read env client configDiags config w =
            ({ Diagnostics := Append [] configDiags
               State := some
                 { Devices := (l.filter (fun x => decide (f.MatchesDevice x))).map
                     clientDevicesDataSource.deviceState
                   Filter := some f } }, w1))) ∧
      (∀ config resp st, clientDevicesDataSource.Read env client configDiags config w = (resp, w1) →
        resp.State = some st →
        HasError configDiags = false ∧
          ∃ l, client.GetClientDevices env w = ((l, none), client, w1))) ∧
    ((∀ config l c1, HasError configDiags = false →
        client.GetStaticDNSRecords env w = ((l, none), c1, w1) →
        (config.Filter = none →
          staticDNSRecordsDataSource.Read env client configDiags config w =
            ({ Diagnostics := Append [] configDiags
               State := some { Records := l.map staticDNSRecordsDataSource.recordState
                               Filter := none } }, w1)) ∧
        (∀ f, config.Filter = some f →
          staticDNSRecordsDataSource.Read env client configDiags config w =
            ({ Diagnostics := Append [] configDiags
               State := some
                 { Records := (l.filter (fun x => decide (f.MatchesRecord x))).map
                     staticDNSRecordsDataSource.recordState
                   Filter := some f } }, w1))) ∧
      (∀ config resp st, staticDNSRecordsDataSource.Read env client configDiags config w = (resp, w1) →
        resp.State = some st →
        HasError configDiags = false ∧
          ∃ l, client.GetStaticDNSRecords env w = ((l, none), client, w1))) ∧
    ((∀ config l c1, HasError configDiags = false →
        client.GetStaticDNSEntries env w = ((l, none), c1, w1) →
        (config.Filter = none →
          staticDNSEntriesDataSource.Read env client configDiags config w =
            ({ Diagnostics := Append [] configDiags
               State := some { Entries := l.map staticDNSEntriesDataSource.entryState
                               Filter := none } }, w1)) ∧
        (∀ f, config.Filter = some f →
          staticDNSEntriesDataSource.Read env client configDiags config w =
            ({ Diagnostics := Append [] configDiags
               State := some
                 { Entries := (l.filter (fun x => decide (f.MatchesEntry x))).map
                     staticDNSEntriesDataSource.entryState
                   Filter := some f } }, w1))) ∧
      (∀ config resp st, staticDNSEntriesDataSource.Read env client configDiags config w = (resp, w1) →
        resp.State = some st →
        HasError configDiags = false ∧
          ∃ l, client.GetStaticDNSEntries env w = ((l, none), client, w1))) := by
  refine ⟨⟨?_, ?_⟩, ⟨?_, ?_⟩, ⟨?_, ?_⟩⟩
  · intro config l c1 hd hc
    have hs := devicesRead_saves env client c1 configDiags config w w1 l hd hc
    refine ⟨fun hF => ?_, fun f hF => ?_⟩
    · rw [hs, hF]
      rfl
    · rw [hs, hF]
      rfl
  · intro config resp st h hst
    exact devicesRead_state env client configDiags config w w1 resp st h hst
  · intro config l c1 hd hc
    have hs := recordsRead_saves env client c1 configDiags config w w1 l hd hc
    refine ⟨fun hF => ?_, fun f hF => ?_⟩
    · rw [hs, hF]
      rfl
    · rw [hs, hF]
      rfl
  · intro config resp st h hst
    exact recordsRead_state env client configDiags config w w1 resp st h hst
  · intro config l c1 hd hc
    have hs := entriesRead_saves env client c1 configDiags config w w1 l hd hc
    refine ⟨fun hF => ?_, fun f hF => ?_⟩
    · rw [hs, hF]
      rfl
    · rw [hs, hF]
      rfl
  · intro config resp st h hst
    exact entriesRead_state env client configDiags config w w1 resp st h hst

/-- Witness of C27: of the three devices the server lists, the filter on the
name "printer" keeps the third, and the filter on an empty name would keep
the first two; of the two records the server lists, the filter on the key
"host1" keeps the second; with no filter block both entries are listed, in the
order of the server. -/
theorem data_source_read_filters_witness :
    ((clientDevicesDataSource.Read devicesEnv sessionClient [] printerFilter {}).1.State.map
        (fun st => st.Devices.map (fun m => m.ID)) = some [.value "d3"] ∧
      threeDevices.filter (fun x => decide (unnamedFilter.MatchesDevice x)) =
        threeDevices.take 2) ∧
      (staticDNSRecordsDataSource.Read twoRecordsEnv sessionClient [] hostFilter {}).1.State.map
        (fun st => st.Records.map (fun m => m.ID)) = some [.value "r7"] ∧
      (staticDNSEntriesDataSource.Read twoRecordsEnv sessionClient [] {} {}).1.State.map
        (fun st => st.Entries.map (fun m => m.ID)) = some [.value "r1", .value "r7"] := by
  have h1 := ((data_source_read_filters devicesEnv sessionClient [] {}
    (sessionClient.GetClientDevices devicesEnv {}).2.2).1.1 printerFilter threeDevices
    sessionClient rfl (by decide)).2 { Name := .value "printer" } rfl
  have h2 := ((data_source_read_filters twoRecordsEnv sessionClient [] {}
    (sessionClient.GetStaticDNSRecords twoRecordsEnv {}).2.2).2.1.1 hostFilter
    [{ ID := "r1", Key := "other", RecordType := "A", Value := "10.0.0.1" }, hostRecord]
    sessionClient rfl (by decide)).2 { Key := .value "host1" } rfl
  have h3 := ((data_source_read_filters twoRecordsEnv sessionClient [] {}
    (sessionClient.GetStaticDNSEntries twoRecordsEnv {}).2.2).2.2.1 {}
    [{ ID := "r1", Key := "other", RecordType := "A", Value := "10.0.0.1" },
     { ID := "r7", Enabled := true, Key := "host1", RecordType := "A", TTL := 300,
       Value := "10.0.0.5" }]
    sessionClient rfl (by decide)).1 rfl
  rw [h1, h2, h3]
  exact ⟨⟨by decide, by decide⟩, by decide, by decide⟩

end UDM
